import Mathlib

/-!
# MediaEditor: the playback-synchronisation core of `MediaPlayer.cpp`

A shallow embedding of the frame rings, the seek command, the playback
controller and the video part of the discoverer of `src/MediaPlayer.cpp`, and of
`BgtaskVidstab::Initialize` of `src/BgtaskVidstab.cpp`, followed by the
properties proved about them.

Conventions of the embedding

* `GstClockTime` (a `guint64` count of nanoseconds) is a natural number; the
  sentinel `GST_CLOCK_TIME_NONE` is `2^64 - 1`.  Arithmetic that can leave the
  64-bit range in the source is reduced `% 2^64` where it occurs.
* `rate_` (a `double`) is an element of an arbitrary linearly ordered field `α`
  (the rationals when executed, the reals for the exact statements).  The
  source only compares rates, negates them and multiplies them by `±1`.
* The decode pipeline is an external collaborator.  It is modelled by the list
  of requests it has received and a script of the answers it will give.
* Locks are not modelled: every call runs atomically.
* Undefined behaviour of the source is made explicit: a division by a zero
  timeline step makes `update` return `none`; a ring index outside the ring
  (which the source never produces) reads an empty slot and writes nothing.
* The file system, `MediaParser` and `VideoClip`, which `BgtaskVidstab` calls, are
  parameters: a record of their answers.
-/

set_option linter.unusedSectionVars false

namespace MediaEditor

/-! ## Macros and library constants -/

/-- A `GstClockTime` is an unsigned 64-bit number of nanoseconds. -/
abbrev GstClockTime := Nat

/-- The sentinel `GST_CLOCK_TIME_NONE`, `(GstClockTime) -1`. -/
def GST_CLOCK_TIME_NONE : GstClockTime := 2 ^ 64 - 1

/-- The macro `ABS_DIFF(a, b)` of `MediaPlayer.cpp`, line 5, on unsigned values. -/
def ABS_DIFF (a b : Nat) : Nat := if a < b then b - a else a - b

/-- The macro `SIGN(a)` of `MediaPlayer.cpp`, line 6. -/
def SIGN {α : Type} [LinearOrderedField α] (a : α) : α := if a < 0 then -1 else 1

/-- The glib macro `ABS(a)`: `((a) < 0) ? -(a) : (a)`. -/
def ABS {α : Type} [LinearOrderedField α] (a : α) : α := if a < 0 then -a else a

/-- The glib macro `CLAMP(x, low, high)`:
`((x) > (high)) ? (high) : (((x) < (low)) ? (low) : (x))`. -/
def CLAMP {β : Type} [LinearOrder β] (x low high : β) : β :=
  if x > high then high else if x < low then low else x

/-- The flag `GST_SEEK_FLAG_FLUSH = (1 << 0)`. -/
def GST_SEEK_FLAG_FLUSH : Nat := 1
/-- The flag `GST_SEEK_FLAG_ACCURATE = (1 << 1)`. -/
def GST_SEEK_FLAG_ACCURATE : Nat := 2
/-- The flag `GST_SEEK_FLAG_TRICKMODE = (1 << 4)`. -/
def GST_SEEK_FLAG_TRICKMODE : Nat := 16

/-- Whether the bit mask `flags` contains the seek flag `f`. -/
def hasFlag (flags f : Nat) : Bool := flags &&& f != 0

/-- The states of a GStreamer element. -/
inductive GstState where
  | VOID_PENDING | NULL | READY | PAUSED | PLAYING
  deriving DecidableEq, Repr

/-- The seek types used by `gst_event_new_seek`. -/
inductive GstSeekType where
  | NONE | SET | END
  deriving DecidableEq, Repr

/-! ## The decode pipeline (external collaborator) -/

/-- A seek event as built by `gst_event_new_seek (rate, GST_FORMAT_TIME, flags,
start_type, start, stop_type, stop)`. -/
structure SeekEvent (α : Type) where
  rate : α
  flags : Nat
  start_type : GstSeekType
  start : GstClockTime
  stop_type : GstSeekType
  stop : GstClockTime
  deriving DecidableEq, Repr

/-- What the player can ask of its pipeline. -/
inductive Request (α : Type) where
  | seek_event (e : SeekEvent α)
  | set_state (s : GstState)
  deriving DecidableEq, Repr

/-- The pipeline as seen from the player: the requests it has received so far
(oldest first) and the answers it will give to the next ones (`true` = accepted;
once the script is exhausted every request is accepted). -/
structure Pipeline (α : Type) where
  sent : List (Request α) := []
  answers : List Bool := []
  deriving DecidableEq, Repr

/-- The call `gst_event_new_seek`: GStreamer refuses to build a seek event of rate zero
(it returns `NULL`); any other event is built as requested. -/
def gst_event_new_seek {α : Type} [LinearOrderedField α] (rate : α) (flags : Nat)
    (start_type : GstSeekType) (start : GstClockTime)
    (stop_type : GstSeekType) (stop : GstClockTime) : Option (SeekEvent α) :=
  if rate = 0 then none
  else some { rate := rate, flags := flags, start_type := start_type, start := start,
              stop_type := stop_type, stop := stop }

/-- The call `gst_element_send_event (pipeline_, seek_event)`: the pipeline records the event
and answers from its script. -/
def gst_element_send_event {α : Type} (pl : Pipeline α) (e : SeekEvent α) : Bool × Pipeline α :=
  (pl.answers.headD true, { sent := pl.sent ++ [Request.seek_event e], answers := pl.answers.tail })

/-- The call `gst_element_set_state (pipeline_, state)`: the pipeline records the request and
answers from its script; `false` stands for `GST_STATE_CHANGE_FAILURE`. -/
def gst_element_set_state {α : Type} (pl : Pipeline α) (s : GstState) : Bool × Pipeline α :=
  (pl.answers.headD true, { sent := pl.sent ++ [Request.set_state s], answers := pl.answers.tail })

/-! ## Timeline -/

/-- A `TimeInterval` `{begin, end}` of the timeline. -/
structure TimeInterval where
  begin : GstClockTime := GST_CLOCK_TIME_NONE
  end_ : GstClockTime := GST_CLOCK_TIME_NONE
  deriving DecidableEq, Repr

/-- Modelled from the spec: `TimeInterval::is_valid` is declared in `Timeline.h`, which is
not among the sources.  An interval is a gap `[begin, end)` of media time, so
it is valid when both bounds are known and it is not empty. -/
def TimeInterval.is_valid (g : TimeInterval) : Bool :=
  g.begin != GST_CLOCK_TIME_NONE && g.end_ != GST_CLOCK_TIME_NONE && g.begin < g.end_

/-- Modelled from the spec: the class `Timeline` is declared in `Timeline.h`, which is not
among the sources.  It holds the bounds `begin`, `end`, `first`, `last`, the
nominal frame duration `step` and the gaps; the observers `begin()`, `end()`,
`first()`, `last()` and `step()` are the fields. -/
structure Timeline where
  begin : GstClockTime := 0
  end_ : GstClockTime := GST_CLOCK_TIME_NONE
  first : GstClockTime := GST_CLOCK_TIME_NONE
  last : GstClockTime := GST_CLOCK_TIME_NONE
  step : GstClockTime := GST_CLOCK_TIME_NONE
  gaps : List TimeInterval := []
  deriving DecidableEq, Repr

/-- Modelled from the spec: `Timeline::getGapAt(pos, gap)` returns the gap `[b, e)` containing
`pos`, or nothing when `pos` lies in valid media. -/
def Timeline.getGapAt (t : Timeline) (pos : GstClockTime) : Option TimeInterval :=
  t.gaps.find? (fun g => g.begin ≤ pos && pos < g.end_)

/-- Modelled from the spec: `Timeline::next(pos)` is the nearest valid timestamp at or after
`pos`: the end of the gap containing `pos`, or `pos` itself. -/
def Timeline.next (t : Timeline) (pos : GstClockTime) : GstClockTime :=
  match t.getGapAt pos with
  | some g => g.end_
  | none => pos

/-- Modelled from the spec: `Timeline::previous(pos)` is the nearest valid timestamp at or
before `pos`: the begin of the gap containing `pos`, or `pos` itself. -/
def Timeline.previous (t : Timeline) (pos : GstClockTime) : GstClockTime :=
  match t.getGapAt pos with
  | some g => g.begin
  | none => pos

/-- Modelled from the spec: `Timeline::setEnd`. -/
def Timeline.setEnd (t : Timeline) (e : GstClockTime) : Timeline := { t with end_ := e }

/-- Modelled from the spec: `Timeline::setStep`. -/
def Timeline.setStep (t : Timeline) (s : GstClockTime) : Timeline := { t with step := s }

/-- Modelled from the spec: `Timeline::setFirst`. -/
def Timeline.setFirst (t : Timeline) (f : GstClockTime) : Timeline := { t with first := f }

/-! ## Frames and the player state -/

/-- The enumeration `MediaPlayer::FrameStatus`. -/
inductive FrameStatus where
  | SAMPLE | PREROLL | EOS | INVALID
  deriving DecidableEq, Repr

/-- The enumeration `MediaPlayer::LoopMode`. -/
inductive LoopMode where
  | LOOP_NONE | LOOP_REWIND | LOOP_BIDIRECTIONAL
  deriving DecidableEq, Repr

/-- One ring slot (`VFrame` / `AFrame`): its status, whether it holds a mapped
buffer, and the presentation time of its content.  A slot is created empty. -/
structure Frame where
  status : FrameStatus := FrameStatus.INVALID
  full : Bool := false
  position : GstClockTime := GST_CLOCK_TIME_NONE
  deriving DecidableEq, Repr

/-- The methods `VFrame::unmap` / `AFrame::unmap`: release the mapped buffer, if any. -/
def Frame.unmap (f : Frame) : Frame := { f with full := false }

/-- A decoded buffer handed to the producer: its presentation time stamp, whether
mapping it succeeds (`gst_video_frame_map` / `gst_audio_buffer_map`) and whether
the mapped frame passes the format and plane-count test. -/
structure GstBuffer where
  pts : GstClockTime
  maps : Bool := true
  format_ok : Bool := true
  deriving DecidableEq, Repr

/-- The fields of `MediaInfo` read by the playback core and written by the discoverer.
The structure and its constructor are declared in `MediaPlayer.h`, which is not
among the sources: the initial values only serve to write concrete descriptors. -/
structure MediaInfo where
  video_valid : Bool := false
  audio_valid : Bool := false
  isimage : Bool := false
  seekable : Bool := false
  end_ : GstClockTime := GST_CLOCK_TIME_NONE
  dt : GstClockTime := GST_CLOCK_TIME_NONE
  framerate_n : Nat := 1
  framerate_d : Nat := 25
  deriving DecidableEq, Repr

/-- The state of a `MediaPlayer`.  The rings `vframe_` and `aframe_` are arrays of
`N_VFRAME` and `N_AFRAME` slots; `VMat` and `AMat` hold the time stamp of the
last converted frame (`none` = empty matrix).  The counters `n_fill_video` and
`n_fill_audio` are not members of the class: they count the calls of
`fill_video(index)` and `fill_audio(index)`, the conversions, made so far. -/
structure MediaPlayer (α : Type) where
  opened_ : Bool := false
  enabled_ : Bool := true
  failed_ : Bool := false
  seeking_ : Bool := false
  rewind_on_disable_ : Bool := false
  desired_state_ : GstState := GstState.PAUSED
  rate_ : α
  position_ : GstClockTime := GST_CLOCK_TIME_NONE
  loop_ : LoopMode := LoopMode.LOOP_REWIND
  media_ : MediaInfo := {}
  timeline_ : Timeline := {}
  pipeline_ : Option (Pipeline α) := none
  discoverer_ : Option MediaInfo := none
  vframe_ : List Frame
  vwrite_index_ : Nat := 0
  vlast_index_ : Nat := 0
  aframe_ : List Frame
  awrite_index_ : Nat := 0
  alast_index_ : Nat := 0
  VMat : Option GstClockTime := none
  AMat : Option GstClockTime := none
  n_fill_video : Nat := 0
  n_fill_audio : Nat := 0
  deriving DecidableEq, Repr

variable {α : Type} [LinearOrderedField α]

/-- The size `N_VFRAME` of the video ring. -/
def MediaPlayer.N_VFRAME (p : MediaPlayer α) : Nat := p.vframe_.length

/-- The size `N_AFRAME` of the audio ring. -/
def MediaPlayer.N_AFRAME (p : MediaPlayer α) : Nat := p.aframe_.length

/-- The constructor `MediaPlayer::MediaPlayer()` for rings of `nv` and `na` slots. -/
def MediaPlayer.init (nv na : Nat) : MediaPlayer α :=
  { rate_ := 1, vframe_ := List.replicate nv {}, aframe_ := List.replicate na {} }

/-- The requests the pipeline of the player has received (none without a pipeline). -/
def MediaPlayer.sent (p : MediaPlayer α) : List (Request α) :=
  match p.pipeline_ with
  | none => []
  | some pl => pl.sent

/-! ## Discovery -/

/-- The constant `GST_SECOND`: one second in nanoseconds. -/
def GST_SECOND : GstClockTime := 1000000000

/-- What the GStreamer discoverer reports for the video stream it found: the answers of
`gst_discoverer_video_info_is_image`, `gst_discoverer_info_get_duration`,
`gst_discoverer_info_get_seekable`, `gst_discoverer_video_info_get_framerate_num`
and `gst_discoverer_video_info_get_framerate_denom` (the last two are `guint`). -/
structure DiscovererVideoInfo where
  is_image : Bool
  duration : GstClockTime
  seekable : Bool
  framerate_num : Nat
  framerate_denom : Nat
  deriving DecidableEq, Repr

/-- The part of `MediaPlayer::UriDiscoverer` that fills the descriptor `stream_info` from the
video stream found (from `stream_info.isimage = ...` to
`stream_info.video_valid = true`); the size, depth, bit rate and codec name are
left out.  The product by `GST_SECOND` and the doubling of `dt` are 64-bit. -/
def UriDiscoverer_video (stream_info : MediaInfo) (vinfo : DiscovererVideoInfo) : MediaInfo :=
  let stream_info := { stream_info with isimage := vinfo.is_image }
  -- if its a video, set duration, framerate, etc.
  let stream_info :=
    if !stream_info.isimage then
      let stream_info := { stream_info with
        end_ := vinfo.duration, seekable := vinfo.seekable,
        framerate_n := vinfo.framerate_num, framerate_d := vinfo.framerate_denom }
      -- no framerate indicated in the file: using default 30fps
      let stream_info :=
        if stream_info.framerate_n = 0 ∨ stream_info.framerate_d = 0
        then { stream_info with framerate_n := 30, framerate_d := 1 } else stream_info
      let stream_info := { stream_info with
        dt := ((GST_SECOND * stream_info.framerate_d) % 2 ^ 64) / stream_info.framerate_n }
      -- confirm (or infirm) that its not a single frame
      if stream_info.end_ < (stream_info.dt * 2) % 2 ^ 64
      then { stream_info with isimage := true } else stream_info
    else stream_info
  -- inform that it succeeded
  { stream_info with video_valid := true }

/-! ## Seek command and playback controller -/

/-- The method `MediaPlayer::execute_seek_command(GstClockTime target)`; a call without argument
passes `GST_CLOCK_TIME_NONE`. -/
def execute_seek_command (p : MediaPlayer α) (target : GstClockTime) : MediaPlayer α :=
  match p.pipeline_ with
  | none => p
  | some pl =>
    if !p.media_.seekable then p
    -- target is given but useless
    else if target ≠ GST_CLOCK_TIME_NONE ∧ ABS_DIFF target p.position_ < p.timeline_.step then p
    else
      -- seek position : default to target, current position when no target is given
      let seek_pos := if target = GST_CLOCK_TIME_NONE then p.position_ else target
      -- seek with flush (always), trick mode if fast speed
      let seek_flags :=
        if ABS p.rate_ > 3 / 2 then GST_SEEK_FLAG_FLUSH ||| GST_SEEK_FLAG_TRICKMODE
        else GST_SEEK_FLAG_FLUSH ||| GST_SEEK_FLAG_ACCURATE
      -- create seek event depending on direction
      let seek_event :=
        if p.rate_ > 0 then
          gst_event_new_seek p.rate_ seek_flags GstSeekType.SET seek_pos GstSeekType.END 0
        else
          gst_event_new_seek p.rate_ seek_flags GstSeekType.SET 0 GstSeekType.SET seek_pos
      match seek_event with
      | none => { p with seeking_ := true }
      | some e =>
        let r := gst_element_send_event pl e
        if r.1 then { p with pipeline_ := some r.2, seeking_ := true }
        else { p with pipeline_ := some r.2 }

/-- The method `MediaPlayer::seek(GstClockTime pos)`. -/
def seek (p : MediaPlayer α) (pos : GstClockTime) : MediaPlayer α :=
  if !p.enabled_ || !p.media_.seekable || p.seeking_ then p
  else execute_seek_command p (CLAMP pos p.timeline_.begin p.timeline_.end_)

/-- The method `MediaPlayer::go_to(GstClockTime pos)`: the returned flag and the new state.
The product `2 * timeline_.step()` is a 64-bit product. -/
def go_to (p : MediaPlayer α) (pos : GstClockTime) : Bool × MediaPlayer α :=
  if pos ≠ GST_CLOCK_TIME_NONE then
    let jumpPts :=
      match p.timeline_.getGapAt pos with
      | some gap =>
        -- if in a gap, find closest seek target: jump in one or the other direction
        if gap.is_valid then (if p.rate_ > 0 then gap.end_ else gap.begin) else pos
      | none => pos
    if ABS_DIFF p.position_ jumpPts > (2 * p.timeline_.step) % 2 ^ 64
    then (true, seek p jumpPts)
    else (false, p)
  else (false, p)

/-- The method `MediaPlayer::setPlaySpeed(double s)`; the constants `MIN_PLAY_SPEED` and
`MAX_PLAY_SPEED` of `MediaPlayer.h` are parameters. -/
def setPlaySpeed (MIN_PLAY_SPEED MAX_PLAY_SPEED : α) (p : MediaPlayer α) (s : α) : MediaPlayer α :=
  if p.media_.isimage then p
  else
    -- bound to interval [-MAX_PLAY_SPEED MAX_PLAY_SPEED]
    let rate := CLAMP s (-MAX_PLAY_SPEED) MAX_PLAY_SPEED
    -- skip interval [-MIN_PLAY_SPEED MIN_PLAY_SPEED]
    let rate := if ABS rate < MIN_PLAY_SPEED then SIGN rate * MIN_PLAY_SPEED else rate
    -- apply with seek
    execute_seek_command { p with rate_ := rate } GST_CLOCK_TIME_NONE

/-- The part of `MediaPlayer::rewind(bool force)` that runs when `force` is false,
which is what the calls `rewind()` of `play` and `execute_loop_command` run: the
only use of `rewind(true)` is in `enable`. -/
def rewind_default (p : MediaPlayer α) : MediaPlayer α :=
  if !p.enabled_ || !p.media_.seekable then p
  -- playing forward, loop to begin
  else if p.rate_ > 0 then execute_seek_command p (p.timeline_.next 0)
  -- playing backward, loop to end
  else execute_seek_command p (p.timeline_.previous p.timeline_.last)

/-- The method `MediaPlayer::play(bool on)`. -/
def play (p : MediaPlayer α) (on_ : Bool) : MediaPlayer α :=
  -- ignore if disabled, and cannot play an image
  if !p.enabled_ || p.media_.isimage then p
  else
    let requested_state := if on_ then GstState.PLAYING else GstState.PAUSED
    -- ignore if requesting twice same state
    if p.desired_state_ = requested_state then p
    else
      -- accept request to the desired state
      let p := { p with desired_state_ := requested_state }
      -- if not ready yet, the requested state will be handled later
      match p.pipeline_ with
      | none => p
      | some _ =>
        -- requesting to play, but stopped at end of stream : rewind first
        let p :=
          if p.desired_state_ = GstState.PLAYING ∧
              ((p.rate_ < 0 ∧ p.position_ ≤ p.timeline_.next 0)
                ∨ (p.rate_ > 0 ∧ p.position_ ≥ p.timeline_.previous p.timeline_.last))
          then rewind_default p else p
        -- all ready, apply state change immediately
        match p.pipeline_ with
        | none => p
        | some pl =>
          let r := gst_element_set_state pl p.desired_state_
          if r.1 then { p with pipeline_ := some r.2 }
          else { p with pipeline_ := some r.2, failed_ := true }

/-- The method `MediaPlayer::execute_loop_command()`. -/
def execute_loop_command (p : MediaPlayer α) : MediaPlayer α :=
  if p.loop_ = LoopMode.LOOP_REWIND then rewind_default p
  else if p.loop_ = LoopMode.LOOP_BIDIRECTIONAL then
    execute_seek_command { p with rate_ := p.rate_ * (-1) } GST_CLOCK_TIME_NONE
  else play p false

/-! ## Producer: the decode callbacks fill the rings -/

/-- The method `MediaPlayer::fill_video_frame(GstBuffer *buf, FrameStatus status)`; `buf = none` is
the null buffer.  The frame-rate counter `timecount_` (wall-clock time) is left
out.  A slot index outside the ring reads an empty slot and writes nothing; the
source never produces one. -/
def fill_video_frame (p : MediaPlayer α) (buf : Option GstBuffer) (status : FrameStatus) :
    Bool × MediaPlayer α :=
  -- Do NOT overwrite an unread EOS
  let w :=
    if (p.vframe_.getD p.vwrite_index_ {}).status = FrameStatus.EOS
    then (p.vwrite_index_ + 1) % p.N_VFRAME else p.vwrite_index_
  -- always empty frame before filling it again
  let f := (p.vframe_.getD w {}).unmap
  -- accept status of frame received
  let f := { f with status := status }
  match buf with
  | some b =>
    -- a buffer is given (not EOS): get the frame from buffer
    if !b.maps then
      (false, { p with vwrite_index_ := w,
                       vframe_ := p.vframe_.set w { f with status := FrameStatus.INVALID } })
    else
      -- successfully filled the frame
      let f := { f with full := true }
      -- validate frame format
      if b.format_ok then
        (true, { p with
          -- set presentation time stamp
          vframe_ := p.vframe_.set w { f with position := b.pts },
          -- set the start position (i.e. pts of first frame we got)
          timeline_ := if p.timeline_.first = GST_CLOCK_TIME_NONE
                       then p.timeline_.setFirst b.pts else p.timeline_,
          -- this is the last frame filled; for writing, access the next in stack
          vlast_index_ := w,
          vwrite_index_ := (w + 1) % p.N_VFRAME })
      else
        -- full but invalid frame
        (false, { p with vwrite_index_ := w,
                         vframe_ := p.vframe_.set w { f with status := FrameStatus.INVALID } })
  | none =>
    -- null buffer for EOS: give a position
    (true, { p with
      vframe_ := p.vframe_.set w
        { f with status := FrameStatus.EOS,
                 position := if p.rate_ > 0 then p.timeline_.end_ else p.timeline_.begin },
      vlast_index_ := w,
      vwrite_index_ := (w + 1) % p.N_VFRAME })

/-- The method `MediaPlayer::fill_audio_frame(GstBuffer *buf, FrameStatus status)`; as
`fill_video_frame`, except that the slot is not unmapped before it is filled
(that line is commented out in the source). -/
def fill_audio_frame (p : MediaPlayer α) (buf : Option GstBuffer) (status : FrameStatus) :
    Bool × MediaPlayer α :=
  -- Do NOT overwrite an unread EOS
  let w :=
    if (p.aframe_.getD p.awrite_index_ {}).status = FrameStatus.EOS
    then (p.awrite_index_ + 1) % p.N_AFRAME else p.awrite_index_
  -- accept status of frame received
  let f := { p.aframe_.getD w {} with status := status }
  match buf with
  | some b =>
    -- a buffer is given (not EOS): get the frame from buffer
    if !b.maps then
      (false, { p with awrite_index_ := w,
                       aframe_ := p.aframe_.set w { f with status := FrameStatus.INVALID } })
    else
      -- successfully filled the frame
      let f := { f with full := true }
      -- validate frame format
      if b.format_ok then
        (true, { p with
          -- set presentation time stamp
          aframe_ := p.aframe_.set w { f with position := b.pts },
          -- set the start position (i.e. pts of first frame we got)
          timeline_ := if p.timeline_.first = GST_CLOCK_TIME_NONE
                       then p.timeline_.setFirst b.pts else p.timeline_,
          -- this is the last frame filled; for writing, access the next in stack
          alast_index_ := w,
          awrite_index_ := (w + 1) % p.N_AFRAME })
      else
        -- full but invalid frame
        (false, { p with awrite_index_ := w,
                         aframe_ := p.aframe_.set w { f with status := FrameStatus.INVALID } })
  | none =>
    -- null buffer for EOS: give a position
    (true, { p with
      aframe_ := p.aframe_.set w
        { f with status := FrameStatus.EOS,
                 position := if p.rate_ > 0 then p.timeline_.end_ else p.timeline_.begin },
      alast_index_ := w,
      awrite_index_ := (w + 1) % p.N_AFRAME })

/-! ## Consumer: the update tick -/

/-- What the environment decides during a tick of a player that is not open yet:
whether the discovery future is ready, what `gst_parse_launch` returned and
whether it reported an error, whether the later configuration steps of
`execute_open` (frame info from caps, lookup of the app sinks) all succeeded,
and the answer to the duration query. -/
structure OpenEnv (α : Type) where
  discovery_ready : Bool := true
  launched : Option (Pipeline α) := some {}
  parse_error : Bool := false
  configured : Bool := true
  duration : Option GstClockTime := none

/-- The method `MediaPlayer::execute_open()`, reduced to its effect on the player state: the
pipeline description and the wiring of the callbacks are GStreamer's. -/
def execute_open (p : MediaPlayer α) (env : OpenEnv α) : MediaPlayer α :=
  let p := { p with pipeline_ := env.launched }
  if env.parse_error then { p with failed_ := true }
  else if !env.configured then { p with failed_ := true }
  else
    -- set to desired state (PLAY or PAUSE)
    match p.pipeline_ with
    | none => { p with failed_ := true }
    | some pl =>
      let r := gst_element_set_state pl p.desired_state_
      if !r.1 then { p with pipeline_ := some r.2, failed_ := true }
      else
        -- in case discoverer failed to get duration
        let tl :=
          if p.timeline_.end_ = GST_CLOCK_TIME_NONE then
            match env.duration with
            | some d => p.timeline_.setEnd d
            | none => p.timeline_
          else p.timeline_
        { p with pipeline_ := some r.2, timeline_ := tl, opened_ := true }

/-- The video pass of `MediaPlayer::update()` (from `// video update` to the unlock of
the slot): the new state and the flag `need_loop`.  `fill_video` stores the
slot's time stamp in `VMat`; it runs twice for a pre-roll frame and while a seek
is outstanding. -/
def update_video (p : MediaPlayer α) : MediaPlayer α × Bool :=
  -- get the last frame filled from fill_video_frame()
  let v_read_index := p.vlast_index_
  let f := p.vframe_.getD v_read_index {}
  -- do not fill a frame twice
  if f.status ≠ FrameStatus.INVALID then
    if f.status = FrameStatus.EOS then
      -- will execute seek command below; position set, slot marked as read
      ({ p with position_ := f.position,
                vframe_ := p.vframe_.set v_read_index { f with status := FrameStatus.INVALID } },
       true)
    else if f.full then
      -- fill the texture with the frame at reading index (double update for pre-roll
      -- frame and while seeking), then free the frame
      ({ p with VMat := some f.position,
                n_fill_video :=
                  if f.status = FrameStatus.PREROLL ∨ p.seeking_ = true
                  then p.n_fill_video + 2 else p.n_fill_video + 1,
                position_ := f.position,
                vframe_ := p.vframe_.set v_read_index
                  { f.unmap with status := FrameStatus.INVALID } },
       false)
    else
      ({ p with position_ := f.position,
                vframe_ := p.vframe_.set v_read_index { f with status := FrameStatus.INVALID } },
       false)
  else (p, false)

/-- The audio pass of `MediaPlayer::update()` (from `// audio update` to the unlock of
the slot), given the flag `need_loop` left by the video pass. -/
def update_audio (p : MediaPlayer α) (need_loop : Bool) : MediaPlayer α × Bool :=
  -- get the last frame filled from fill_audio_frame()
  let a_read_index := p.alast_index_
  let f := p.aframe_.getD a_read_index {}
  -- do not fill a frame twice
  if f.status ≠ FrameStatus.INVALID then
    -- do we set position time to frame PTS ?
    let position := if p.position_ = GST_CLOCK_TIME_NONE then f.position else p.position_
    if f.status = FrameStatus.EOS then
      ({ p with position_ := position,
                aframe_ := p.aframe_.set a_read_index { f with status := FrameStatus.INVALID } },
       true)
    else if f.full then
      -- fill the audio matrix (double update for pre-roll frame and while seeking),
      -- then free the frame
      ({ p with AMat := some f.position,
                n_fill_audio :=
                  if f.status = FrameStatus.PREROLL ∨ p.seeking_ = true
                  then p.n_fill_audio + 2 else p.n_fill_audio + 1,
                position_ := position,
                aframe_ := p.aframe_.set a_read_index
                  { f.unmap with status := FrameStatus.INVALID } },
       need_loop)
    else
      ({ p with position_ := position,
                aframe_ := p.aframe_.set a_read_index { f with status := FrameStatus.INVALID } },
       need_loop)
  else (p, need_loop)

/-- The end of `MediaPlayer::update()` (from `// if already seeking (asynch)`): the seek
and loop decisions.  The division by `timeline_.step()` is undefined when the
step is zero: the result is then `none`. -/
def update_manage (p : MediaPlayer α) (need_loop : Bool) : Option (MediaPlayer α) :=
  let r : Option (MediaPlayer α × Bool) :=
    -- if already seeking (asynch): seek should be resolved next frame
    if p.seeking_ then some ({ p with seeking_ := false }, need_loop)
    -- otherwise check for need to seek: test if position falls into a gap
    else if p.position_ ≠ GST_CLOCK_TIME_NONE then
      match p.timeline_.getGapAt p.position_ with
      | some gap =>
        if gap.is_valid then
          if p.timeline_.step = 0 then none
          else
            -- round jump time to frame pts, in one or the other direction
            let jumpPts :=
              if p.rate_ > 0
              then (p.timeline_.step * ((gap.end_ / p.timeline_.step + 1) % 2 ^ 64)) % 2 ^ 64
              else (p.timeline_.step * (gap.begin / p.timeline_.step)) % 2 ^ 64
            -- (if not beginning or end of timeline) seek to jump PTS time
            if jumpPts > p.timeline_.first ∧ jumpPts < p.timeline_.last
            then some (seek p jumpPts, need_loop)
            -- otherwise, we should loop
            else some (p, true)
        else some (p, need_loop)
      | none => some (p, need_loop)
    else some (p, need_loop)
  -- manage loop mode
  match r with
  | none => none
  | some (p, need_loop) => if need_loop then some (execute_loop_command p) else some p

/-- The method `MediaPlayer::update()`, one consumer tick. -/
def update (p : MediaPlayer α) (env : OpenEnv α) : Option (MediaPlayer α) :=
  -- discard
  if p.failed_ then some p
  -- not ready yet
  else if !p.opened_ then
    match p.discoverer_ with
    | none => some p
    | some info =>
      -- try to get info from discoverer
      if env.discovery_ready then
        let p := { p with media_ := info, discoverer_ := none }
        -- if its ok, open the media
        if info.video_valid || info.audio_valid then
          some (execute_open
            { p with timeline_ := (p.timeline_.setEnd info.end_).setStep info.dt } env)
        else some { p with failed_ := true }
      else some p
  -- prevent unnecessary updates: disabled or already filled image
  else if !p.enabled_ then some p
  else if p.media_.isimage && p.VMat.isSome then some p
  else
    let v := update_video p
    let a := update_audio v.1 v.2
    update_manage a.1 a.2

/-! ## Operations that run a tick, and shutdown -/

/-- The method `MediaPlayer::rewind(bool force)`: with `force` the seek is followed by a tick
(`gst_element_get_state` only waits for the pipeline). -/
def rewind (p : MediaPlayer α) (force : Bool) (env : OpenEnv α) : Option (MediaPlayer α) :=
  if !p.enabled_ || !p.media_.seekable then some p
  else
    let p :=
      -- playing forward, loop to begin
      if p.rate_ > 0 then execute_seek_command p (p.timeline_.next 0)
      -- playing backward, loop to end
      else execute_seek_command p (p.timeline_.previous p.timeline_.last)
    if force then update p env else some p

/-- The call `gst_element_set_state (pipeline_, s)` followed by the test of its answer, as at
the end of `enable`: a refusal sets `failed_`.  On a null pipeline GStreamer
answers `GST_STATE_CHANGE_FAILURE`. -/
def request_state (q : MediaPlayer α) (s : GstState) : MediaPlayer α :=
  match q.pipeline_ with
  | none => { q with failed_ := true }
  | some pl =>
    let r := gst_element_set_state pl s
    if r.1 then { q with pipeline_ := some r.2 }
    else { q with pipeline_ := some r.2, failed_ := true }

/-- The method `MediaPlayer::enable(bool on)`; `none` when the tick of the forced rewind
divides by a zero timeline step. -/
def enable (p : MediaPlayer α) (on_ : Bool) (env : OpenEnv α) : Option (MediaPlayer α) :=
  if !p.opened_ || p.pipeline_.isNone then some p
  else if p.enabled_ ≠ on_ then
    -- option to automatically rewind each time the player is disabled
    let r :=
      if !on_ && p.rewind_on_disable_ && p.desired_state_ = GstState.PLAYING
      then rewind p true env else some p
    match r with
    | none => none
    | some p =>
      -- apply change
      let p := { p with enabled_ := on_ }
      -- default to pause, unpause only if enabled
      let requested_state := if p.enabled_ then p.desired_state_ else GstState.PAUSED
      -- apply state change
      some (request_state p requested_state)
  else some p

/-- The method `MediaPlayer::close()`.  The flush event and the state change to `NULL` go to a
pipeline that is then released, so they leave no trace in the player; only the
video ring is unmapped (the loop over the audio ring is commented out in the
source). -/
def close (p : MediaPlayer α) : MediaPlayer α :=
  -- not opened: nothing to change
  if !p.opened_ then p
  else
    { p with
      -- un-ready the media player
      opened_ := false,
      -- clean up GST
      pipeline_ := none,
      -- cleanup eventual remaining video frame memory
      vframe_ := p.vframe_.map Frame.unmap,
      vwrite_index_ := 0,
      vlast_index_ := 0,
      awrite_index_ := 0,
      alast_index_ := 0,
      VMat := none,
      AMat := none }

/-- The method `MediaPlayer::open(filename, uri)`: `uri_empty` tells whether the URI it
computes is empty, and `info` is the descriptor that the discovery thread it
starts (`std::async` of `UriDiscoverer`) will deliver. -/
def open_ (p : MediaPlayer α) (uri_empty : Bool) (info : MediaInfo) : MediaPlayer α :=
  let p := if uri_empty then { p with failed_ := true } else p
  -- close before re-opening
  let p := if p.opened_ then close p else p
  -- start URI discovering thread; wait for discoverer to finish in the future
  { p with discoverer_ := some info }

/-! ## Observations used by the statements -/

/-- The requests sent to the pipeline between the states `p` and `q`. -/
def dispatched (p q : MediaPlayer α) : List (Request α) := q.sent.drop p.sent.length

/-- The position a seek event seeks to: its start when it plays forward, its stop
when it plays backward. -/
def SeekEvent.position (e : SeekEvent α) : GstClockTime :=
  if e.rate > 0 then e.start else e.stop

/-- The answer the pipeline gives to the next request. -/
def MediaPlayer.next_answer (p : MediaPlayer α) : Bool :=
  match p.pipeline_ with
  | none => true
  | some pl => pl.answers.headD true

/-- The slot the video producer targets: the write index, moved one slot forward when
the slot it points at holds an EOS (first statement of `fill_video_frame`). -/
def vtarget (p : MediaPlayer α) : Nat :=
  if (p.vframe_.getD p.vwrite_index_ {}).status = FrameStatus.EOS
  then (p.vwrite_index_ + 1) % p.N_VFRAME else p.vwrite_index_

/-- The body of `fill_video_frame` after its first statement, writing slot `w`. -/
def fill_video_at (p : MediaPlayer α) (w : Nat) (buf : Option GstBuffer) (status : FrameStatus) :
    Bool × MediaPlayer α :=
  let f := (p.vframe_.getD w {}).unmap
  let f := { f with status := status }
  match buf with
  | some b =>
    if !b.maps then
      (false, { p with vwrite_index_ := w,
                       vframe_ := p.vframe_.set w { f with status := FrameStatus.INVALID } })
    else
      let f := { f with full := true }
      if b.format_ok then
        (true, { p with
          vframe_ := p.vframe_.set w { f with position := b.pts },
          timeline_ := if p.timeline_.first = GST_CLOCK_TIME_NONE
                       then p.timeline_.setFirst b.pts else p.timeline_,
          vlast_index_ := w,
          vwrite_index_ := (w + 1) % p.N_VFRAME })
      else
        (false, { p with vwrite_index_ := w,
                         vframe_ := p.vframe_.set w { f with status := FrameStatus.INVALID } })
  | none =>
    (true, { p with
      vframe_ := p.vframe_.set w
        { f with status := FrameStatus.EOS,
                 position := if p.rate_ > 0 then p.timeline_.end_ else p.timeline_.begin },
      vlast_index_ := w,
      vwrite_index_ := (w + 1) % p.N_VFRAME })

/-- The slot the audio producer targets (first statement of `fill_audio_frame`). -/
def atarget (p : MediaPlayer α) : Nat :=
  if (p.aframe_.getD p.awrite_index_ {}).status = FrameStatus.EOS
  then (p.awrite_index_ + 1) % p.N_AFRAME else p.awrite_index_

/-- The body of `fill_audio_frame` after its first statement, writing slot `w`. -/
def fill_audio_at (p : MediaPlayer α) (w : Nat) (buf : Option GstBuffer) (status : FrameStatus) :
    Bool × MediaPlayer α :=
  let f := { p.aframe_.getD w {} with status := status }
  match buf with
  | some b =>
    if !b.maps then
      (false, { p with awrite_index_ := w,
                       aframe_ := p.aframe_.set w { f with status := FrameStatus.INVALID } })
    else
      let f := { f with full := true }
      if b.format_ok then
        (true, { p with
          aframe_ := p.aframe_.set w { f with position := b.pts },
          timeline_ := if p.timeline_.first = GST_CLOCK_TIME_NONE
                       then p.timeline_.setFirst b.pts else p.timeline_,
          alast_index_ := w,
          awrite_index_ := (w + 1) % p.N_AFRAME })
      else
        (false, { p with awrite_index_ := w,
                         aframe_ := p.aframe_.set w { f with status := FrameStatus.INVALID } })
  | none =>
    (true, { p with
      aframe_ := p.aframe_.set w
        { f with status := FrameStatus.EOS,
                 position := if p.rate_ > 0 then p.timeline_.end_ else p.timeline_.begin },
      alast_index_ := w,
      awrite_index_ := (w + 1) % p.N_AFRAME })

/-- The status a fill call leaves in the slot it targets: `INVALID` for a buffer that
fails to map or has the wrong format, the given status for a good buffer, `EOS`
for the null buffer. -/
def filled_status (buf : Option GstBuffer) (status : FrameStatus) : FrameStatus :=
  match buf with
  | some b => if b.maps && b.format_ok then status else FrameStatus.INVALID
  | none => FrameStatus.EOS

/-- The two slot passes of `update`, video then audio: the state they leave and the
flag `need_loop`. -/
def update_passes (p : MediaPlayer α) : MediaPlayer α × Bool :=
  update_audio (update_video p).1 (update_video p).2

/-- The jump target `jumpPts` that the gap check of `update` computes for the gap `gap`. -/
def tick_jump (p : MediaPlayer α) (gap : TimeInterval) : GstClockTime :=
  if p.rate_ > 0
  then (p.timeline_.step * ((gap.end_ / p.timeline_.step + 1) % 2 ^ 64)) % 2 ^ 64
  else (p.timeline_.step * (gap.begin / p.timeline_.step)) % 2 ^ 64

/-- The seek decision of `update` (from `// if already seeking (asynch)` to
`// manage loop mode`): the state and the flag `need_loop` with which the loop
test is reached, `none` when the step is zero in a valid gap. -/
def update_decide (p : MediaPlayer α) (need_loop : Bool) : Option (MediaPlayer α × Bool) :=
  if p.seeking_ then some ({ p with seeking_ := false }, need_loop)
  else if p.position_ ≠ GST_CLOCK_TIME_NONE then
    match p.timeline_.getGapAt p.position_ with
    | some gap =>
      if gap.is_valid then
        if p.timeline_.step = 0 then none
        else if tick_jump p gap > p.timeline_.first ∧ tick_jump p gap < p.timeline_.last
        then some (seek p (tick_jump p gap), need_loop)
        else some (p, true)
      else some (p, need_loop)
    | none => some (p, need_loop)
  else some (p, need_loop)

/-- The tick runs its slot passes: the player is not failed, open, enabled, and not
a still image whose video matrix is already filled. -/
def runs_passes (p : MediaPlayer α) : Bool :=
  !p.failed_ && p.opened_ && p.enabled_ && !(p.media_.isimage && p.VMat.isSome)

/-- The video slot that the tick reads. -/
def vread (p : MediaPlayer α) : Frame := p.vframe_.getD p.vlast_index_ {}

/-- The audio slot that the tick reads. -/
def aread (p : MediaPlayer α) : Frame := p.aframe_.getD p.alast_index_ {}

/-- The last statement of `play`: the desired state is applied to the pipeline, and a
refusal sets `failed_`. -/
def apply_desired_state (q : MediaPlayer α) : MediaPlayer α :=
  match q.pipeline_ with
  | none => q
  | some pl =>
    let r := gst_element_set_state pl q.desired_state_
    if r.1 then { q with pipeline_ := some r.2 }
    else { q with pipeline_ := some r.2, failed_ := true }

/-- The test of `play` for a player stopped at the end of the stream in its direction. -/
abbrev at_loop_boundary (p : MediaPlayer α) : Prop :=
  (p.rate_ < 0 ∧ p.position_ ≤ p.timeline_.next 0)
    ∨ (p.rate_ > 0 ∧ p.position_ ≥ p.timeline_.previous p.timeline_.last)

/-- The states `p` and `q` differ at most in the pipeline, `seeking_`, the desired state,
`failed_` and the rate: the rings, the matrices, the conversion counters, the
position, the timeline, the media and the other flags are the same. -/
def controller_only (p q : MediaPlayer α) : Prop :=
  q.opened_ = p.opened_ ∧ q.enabled_ = p.enabled_
  ∧ q.rewind_on_disable_ = p.rewind_on_disable_ ∧ q.position_ = p.position_
  ∧ q.loop_ = p.loop_ ∧ q.media_ = p.media_ ∧ q.timeline_ = p.timeline_
  ∧ q.discoverer_ = p.discoverer_
  ∧ q.vframe_ = p.vframe_ ∧ q.vwrite_index_ = p.vwrite_index_ ∧ q.vlast_index_ = p.vlast_index_
  ∧ q.aframe_ = p.aframe_ ∧ q.awrite_index_ = p.awrite_index_ ∧ q.alast_index_ = p.alast_index_
  ∧ q.VMat = p.VMat ∧ q.AMat = p.AMat
  ∧ q.n_fill_video = p.n_fill_video ∧ q.n_fill_audio = p.n_fill_audio

/-- The answers the pipeline of the player will give to its next requests (none
without a pipeline). -/
def MediaPlayer.answers (p : MediaPlayer α) : List Bool :=
  match p.pipeline_ with
  | none => []
  | some pl => pl.answers

/-- The answer of the pipeline to the `i`-th request (counted from 0) made from state
`p` on: the script, then `true`. -/
def MediaPlayer.answer_at (p : MediaPlayer α) (i : Nat) : Bool := p.answers.getD i true

/-- The state `q` comes after `p` on the same pipeline: a failed player stays failed, the
pipeline has received the requests `reqs` in between and consumed as many
answers, and `q` is failed whenever one of these requests was a state change
that the pipeline rejected. -/
def tracks (p q : MediaPlayer α) : Prop :=
  (p.failed_ = true → q.failed_ = true)
  ∧ q.pipeline_.isSome = p.pipeline_.isSome
  ∧ ∃ reqs : List (Request α), q.sent = p.sent ++ reqs
      ∧ q.answers = p.answers.drop reqs.length
      ∧ ∀ i s, reqs[i]? = some (Request.set_state s) → p.answer_at i = false →
          q.failed_ = true

/-- The rate that `setPlaySpeed(s)` stores in `rate_` (its two assignments to `rate_`). -/
def play_speed (MIN_PLAY_SPEED MAX_PLAY_SPEED : α) (s : α) : α :=
  let rate := CLAMP s (-MAX_PLAY_SPEED) MAX_PLAY_SPEED
  if ABS rate < MIN_PLAY_SPEED then SIGN rate * MIN_PLAY_SPEED else rate

/-- The video slot at the moment `fill_video_frame` maps the new buffer into it: the slot
it targets, after the statements `unmap()` and `status = status`. -/
def vslot_at_map (p : MediaPlayer α) (status : FrameStatus) : Frame :=
  { (p.vframe_.getD (vtarget p) {}).unmap with status := status }

/-- The audio slot at the moment `fill_audio_frame` maps the new buffer into it: the slot
it targets, after the statement `status = status` (there is no `unmap()`). -/
def aslot_at_map (p : MediaPlayer α) (status : FrameStatus) : Frame :=
  { p.aframe_.getD (atarget p) {} with status := status }

/-- The target that `rewind()` hands to the seek command: `timeline_.next(0)` when playing
forward, `timeline_.previous(timeline_.last())` otherwise. -/
def rewind_target (p : MediaPlayer α) : GstClockTime :=
  if p.rate_ > 0 then p.timeline_.next 0 else p.timeline_.previous p.timeline_.last

/-- The test `target is given but useless` of the seek command: the target is known and
less than one timeline step away from the position. -/
def seek_suppressed (p : MediaPlayer α) (target : GstClockTime) : Prop :=
  target ≠ GST_CLOCK_TIME_NONE ∧ ABS_DIFF target p.position_ < p.timeline_.step

/-- The states reachable from the constructor, for rings of `nv` and `na` slots and the
speed bounds `MIN` and `MAX`, by calls of `open`, of `fill_video_frame`,
`fill_audio_frame`, `update` and `close`, and of the controller (`play`, `seek`,
`setPlaySpeed`, `enable`).  The decode callbacks call the two fill functions on
an open player; here they may be called in any state. -/
inductive reachable (nv na : Nat) (MIN MAX : α) : MediaPlayer α → Prop where
  | construct : reachable nv na MIN MAX (MediaPlayer.init nv na)
  | open_media (p : MediaPlayer α) (uri_empty : Bool) (info : MediaInfo) :
      reachable nv na MIN MAX p → reachable nv na MIN MAX (open_ p uri_empty info)
  | fill_video (p : MediaPlayer α) (buf : Option GstBuffer) (status : FrameStatus) :
      reachable nv na MIN MAX p → reachable nv na MIN MAX (fill_video_frame p buf status).2
  | fill_audio (p : MediaPlayer α) (buf : Option GstBuffer) (status : FrameStatus) :
      reachable nv na MIN MAX p → reachable nv na MIN MAX (fill_audio_frame p buf status).2
  | tick (p q : MediaPlayer α) (env : OpenEnv α) :
      reachable nv na MIN MAX p → update p env = some q → reachable nv na MIN MAX q
  | close (p : MediaPlayer α) : reachable nv na MIN MAX p → reachable nv na MIN MAX (close p)
  | play (p : MediaPlayer α) (on_ : Bool) :
      reachable nv na MIN MAX p → reachable nv na MIN MAX (play p on_)
  | seek (p : MediaPlayer α) (pos : GstClockTime) :
      reachable nv na MIN MAX p → reachable nv na MIN MAX (seek p pos)
  | set_speed (p : MediaPlayer α) (s : α) :
      reachable nv na MIN MAX p → reachable nv na MIN MAX (setPlaySpeed MIN MAX p s)
  | enable (p q : MediaPlayer α) (on_ : Bool) (env : OpenEnv α) :
      reachable nv na MIN MAX p → enable p on_ env = some q → reachable nv na MIN MAX q

/-- The ring indices of `p` are inside rings of `nv` and `na` slots. -/
def indices_in_rings (nv na : Nat) (p : MediaPlayer α) : Prop :=
  p.N_VFRAME = nv ∧ p.N_AFRAME = na
  ∧ p.vwrite_index_ < nv ∧ p.vlast_index_ < nv
  ∧ p.awrite_index_ < na ∧ p.alast_index_ < na

/-! ## The background task `BgtaskVidstab` -/

/-- A value of `imgui_json`; a number is a `double`, here a rational. -/
inductive JsonValue where
  | null
  | boolean (b : Bool)
  | number (n : ℚ)
  | string (s : String)
  | array
  | object
  deriving DecidableEq

/-- The task description `jnTask`, a JSON object: the list of its attributes. -/
abbrev JsonObject := List (String × JsonValue)

/-- The test `jnTask.contains(name) && jnTask[name].is_string()` and, when it holds, the
string `jnTask[name].get<json::string>()`. -/
def JsonObject.get_string (jnTask : JsonObject) (name : String) : Option String :=
  match jnTask.lookup name with
  | some (JsonValue.string s) => some s
  | _ => none

/-- The test `jnTask.contains(name) && jnTask[name].is_boolean()` and, when it holds, the
boolean `jnTask[name].get<json::boolean>()`. -/
def JsonObject.get_boolean (jnTask : JsonObject) (name : String) : Option Bool :=
  match jnTask.lookup name with
  | some (JsonValue.boolean b) => some b
  | _ => none

/-- The test `jnTask.contains(name) && jnTask[name].is_number()` and, when it holds, the
number `jnTask[name].get<json::number>()`. -/
def JsonObject.get_number (jnTask : JsonObject) (name : String) : Option ℚ :=
  match jnTask.lookup name with
  | some (JsonValue.number n) => some n
  | _ => none

/-- The conversion of a `double` to an integer type: truncation toward zero. -/
def double_to_integer (x : ℚ) : Int := if 0 ≤ x then ⌊x⌋ else ⌈x⌉

/-- What `BgtaskVidstab::Initialize` reads outside the task description: the file system
(`SysUtils::IsDirectory`, `IsFile`, `JoinPath`) and the outcome of its calls to
`MediaParser` and `VideoClip`, none of which is among the sources:
whether `MediaParser::CreateInstance` returns a parser, whether
`OpenImageSequence` (frame rate, url, filter, case sensitivity, sub-directories)
and `Open` (url) succeed, the text of `GetError`, the duration in seconds of the
stream `GetBestVideoStream` returns for a url (`none` = no video stream), and
whether `VideoClip::CreateVideoInstance` (clip id, end, start offset, end offset)
returns a clip. -/
structure VidstabEnv where
  IsDirectory : String → Bool
  IsFile : String → Bool
  JoinPath : String → String → String
  parser_created : Bool
  OpenImageSequence : Int → Int → String → String → Bool → Bool → Bool
  Open : String → Bool
  GetError : String
  GetBestVideoStream : String → Option ℚ
  CreateVideoInstance : Int → Int → Int → Int → Bool

/-- The members of `BgtaskVidstab` that `Initialize` writes; `m_pVidstm` holds the duration
of the stream found and `m_hVclip` tells whether a clip is held.  The member
`m_i64ClipId` has no initial value in the source. -/
structure BgtaskVidstab where
  m_errMsg : String := ""
  m_bInited : Bool := false
  m_strWorkDir : String := ""
  m_strTrfPath : String := ""
  m_strSrcUrl : String := ""
  m_i64ClipId : Int := 0
  m_bIsImageSeq : Bool := false
  m_pVidstm : Option ℚ := none
  m_hVclip : Bool := false

/-- The statements `m_errMsg = oss.str(); return false;`. -/
def BgtaskVidstab.fail (t : BgtaskVidstab) (msg : String) : Bool × BgtaskVidstab :=
  (false, { t with m_errMsg := msg })

/-- The message for an attribute that is missing or of the wrong type. -/
def msg_must_have (name type_name : String) : String :=
  "Task json must has a \x27" ++ name ++ "\x27 attribute of \x27" ++ type_name ++ "\x27 type!"

/-- The message for an attribute that does not name a directory. -/
def msg_not_directory (name value : String) : String :=
  "INVALID task json attribute \x27" ++ name ++ "\x27! \x27" ++ value
    ++ "\x27 is NOT a DIRECTORY."

/-- The message for an attribute that does not name a file. -/
def msg_not_file (name value : String) : String :=
  "INVALID task json attribute \x27" ++ name ++ "\x27! \x27" ++ value ++ "\x27 is NOT a FILE."

/-- The part of `BgtaskVidstab::Initialize` that creates and opens the parser (from
`// create MediaParser instance` to the call of `GetBestVideoStream`): the error
message when it fails. -/
def BgtaskVidstab.Initialize_parser (env : VidstabEnv) (t : BgtaskVidstab)
    (jnTask : JsonObject) : Option String :=
  if t.m_bIsImageSeq then
    -- check source url validity
    if !env.IsDirectory t.m_strSrcUrl then some (msg_not_directory "source_url" t.m_strSrcUrl)
    else
      -- read additional attributes for image-sequence
      match jnTask.get_number "frame_rate_num" with
      | none => some (msg_must_have "frame_rate_num" "number")
      | some num =>
        match jnTask.get_number "frame_rate_den" with
        | none => some (msg_must_have "frame_rate_den" "number")
        | some den =>
          if double_to_integer num ≤ 0 ∨ double_to_integer den ≤ 0 then
            some ("INVALID task json attribute \x27frame_rate_den\x27! \x27"
              ++ toString (double_to_integer num) ++ "/" ++ toString (double_to_integer den)
              ++ "\x27 is NOT a valid rational.")
          else
            match jnTask.get_string "file_filter_regex" with
            | none => some (msg_must_have "file_filter_regex" "string")
            | some strFileFilterRegex =>
              let bCaseSensitive := (jnTask.get_boolean "case_sensitive").getD false
              let bIncludeSubDir := (jnTask.get_boolean "include_sub_dir").getD false
              if !env.parser_created then some "FAILED to create MediaParser instance!"
              else if !env.OpenImageSequence (double_to_integer num) (double_to_integer den)
                  t.m_strSrcUrl strFileFilterRegex bCaseSensitive bIncludeSubDir then
                some ("FAILED to open image-sequence parser at \x27" ++ t.m_strSrcUrl
                  ++ "\x27! Error is \x27" ++ env.GetError ++ "\x27.")
              else none
  else
    if !env.IsFile t.m_strSrcUrl then some (msg_not_file "source_url" t.m_strSrcUrl)
    else if !env.parser_created then some "FAILED to create MediaParser instance!"
    else if !env.Open t.m_strSrcUrl then
      some ("FAILED to open media parser for \x27" ++ t.m_strSrcUrl
        ++ "\x27! Error is \x27" ++ env.GetError ++ "\x27.")
    else none

/-- The end of `BgtaskVidstab::Initialize`, from `m_pVidstm = hParser->GetBestVideoStream()`. -/
def BgtaskVidstab.Initialize_clip (env : VidstabEnv) (t : BgtaskVidstab)
    (jnTask : JsonObject) : Bool × BgtaskVidstab :=
  let t := { t with m_pVidstm := env.GetBestVideoStream t.m_strSrcUrl }
  match t.m_pVidstm with
  | none => t.fail ("FAILED to find video stream in \x27" ++ t.m_strSrcUrl ++ "\x27!")
  | some duration =>
    -- create VideoClip instance
    match jnTask.get_number "clip_start_offset" with
    | none => t.fail (msg_must_have "clip_start_offset" "number")
    | some start =>
      let i64ClipStartOffset := double_to_integer start
      match jnTask.get_number "clip_length" with
      | none => t.fail (msg_must_have "clip_length" "number")
      | some length =>
        let i64ClipLength := double_to_integer length
        let i64SrcDuration := double_to_integer (duration * 1000)
        let i64ClipEndOffset := i64SrcDuration - i64ClipStartOffset - i64ClipLength
        if !env.CreateVideoInstance t.m_i64ClipId i64ClipLength i64ClipStartOffset
            i64ClipEndOffset then
          t.fail ("FAILED to create VideoClip instance for \x27" ++ t.m_strSrcUrl
            ++ "\x27 with (start, end, startOffset, endOffset) = (0, "
            ++ toString i64ClipLength ++ ", " ++ toString i64ClipStartOffset ++ ", "
            ++ toString i64ClipEndOffset ++ ").")
        else (true, { t with m_hVclip := true, m_bInited := true })

/-- The method `BgtaskVidstab::Initialize(jnTask, hSettings)`: the returned flag and the task
after the call.  The settings holder is only stored. -/
def BgtaskVidstab.Initialize (env : VidstabEnv) (t : BgtaskVidstab) (jnTask : JsonObject) :
    Bool × BgtaskVidstab :=
  -- read 'work_dir'
  match jnTask.get_string "work_dir" with
  | none => t.fail (msg_must_have "work_dir" "string")
  | some strAttrValue =>
    if !env.IsDirectory strAttrValue then t.fail (msg_not_directory "work_dir" strAttrValue)
    else
      let t := { t with m_strWorkDir := strAttrValue,
                        m_strTrfPath := env.JoinPath strAttrValue "transforms.trf" }
      -- read 'source_url'
      match jnTask.get_string "source_url" with
      | none => t.fail (msg_must_have "source_url" "string")
      | some url =>
        let t := { t with m_strSrcUrl := url }
        if !env.IsFile t.m_strSrcUrl then t.fail (msg_not_file "source_url" t.m_strSrcUrl)
        else
          -- read 'is_image_seq'
          match jnTask.get_boolean "is_image_seq" with
          | none => t.fail (msg_must_have "is_image_seq" "boolean")
          | some b =>
            let t := { t with m_bIsImageSeq := b }
            -- read 'clip_id'
            let t := { t with m_i64ClipId :=
              match jnTask.get_number "clip_id" with
              | some n => double_to_integer n
              | none => -1 }
            -- check source url validity
            if t.m_bIsImageSeq && !env.IsDirectory t.m_strSrcUrl then
              t.fail (msg_not_directory "source_url" t.m_strSrcUrl)
            else if !t.m_bIsImageSeq && !env.IsFile t.m_strSrcUrl then
              t.fail (msg_not_file "source_url" t.m_strSrcUrl)
            else
              match t.Initialize_parser env jnTask with
              | some msg => t.fail msg
              | none => t.Initialize_clip env jnTask

/-! ## Concrete players and inputs -/

/-- An open, seekable player at position 3000 of a timeline `[0, 9000]` of step 1000,
with rings of three slots and a pipeline that accepts every request. -/
def demo_player : MediaPlayer ℚ :=
  { (MediaPlayer.init 3 3 : MediaPlayer ℚ) with
    opened_ := true
    pipeline_ := some {}
    media_ := { video_valid := true, seekable := true, end_ := 9000, dt := 1000 }
    timeline_ := { begin := 0, end_ := 9000, first := 0, last := 9000, step := 1000 }
    position_ := 3000 }

/-- The accurate forward seek event at rate 1 from `start` to the end of the stream. -/
def forward_event (start : GstClockTime) : SeekEvent ℚ :=
  { rate := 1, flags := GST_SEEK_FLAG_FLUSH ||| GST_SEEK_FLAG_ACCURATE,
    start_type := GstSeekType.SET, start := start, stop_type := GstSeekType.END, stop := 0 }

/-- As `demo_player`, with a pipeline that rejects the next request. -/
def rejecting_player : MediaPlayer ℚ :=
  { demo_player with pipeline_ := some { answers := [false] } }

/-- As `demo_player`, while a seek is outstanding. -/
def busy_player : MediaPlayer ℚ :=
  { demo_player with seeking_ := true }

/-- A player whose position 100 lies before its timeline `[200, 1000]` of step 10. -/
def off_timeline_player : MediaPlayer ℚ :=
  { demo_player with
    timeline_ := { begin := 200, end_ := 1000, first := 200, last := 1000, step := 10 }
    position_ := 100 }

/-- A player whose timeline `[100, GST_CLOCK_TIME_NONE]` has no known end, at position 50. -/
def unknown_end_player : MediaPlayer ℚ :=
  { demo_player with
    timeline_ := { begin := 100, end_ := GST_CLOCK_TIME_NONE, first := 100, step := 10 }
    position_ := 50 }

/-- A buffer that maps and has the configured format. -/
def good_buffer : GstBuffer := { pts := 7000 }

/-- The state of `demo_player` after the producer has written, in each ring, an
end-of-stream followed by two samples: slot 0 holds the EOS and the write
index has come back to it. -/
def eos_pending_player : MediaPlayer ℚ :=
  let p := (fill_video_frame demo_player none FrameStatus.EOS).2
  let p := (fill_video_frame p (some good_buffer) FrameStatus.SAMPLE).2
  let p := (fill_video_frame p (some good_buffer) FrameStatus.SAMPLE).2
  let p := (fill_audio_frame p none FrameStatus.EOS).2
  let p := (fill_audio_frame p (some good_buffer) FrameStatus.SAMPLE).2
  (fill_audio_frame p (some good_buffer) FrameStatus.SAMPLE).2

/-- As `demo_player`, with the audio sample `good_buffer` (time stamp 7000) waiting in the
audio ring; the position 3000 is known. -/
def audio_pending_player : MediaPlayer ℚ :=
  (fill_audio_frame demo_player (some good_buffer) FrameStatus.SAMPLE).2

/-- A short clip that discovery reclassified as a still image (it stays seekable), with
its video matrix already filled. -/
def still_image_player : MediaPlayer ℚ :=
  { demo_player with
    media_ := { video_valid := true, isimage := true, seekable := true, end_ := 9000, dt := 1000 }
    VMat := some 0 }

/-- As `still_image_player`, while a seek is outstanding. -/
def seeking_image_player : MediaPlayer ℚ :=
  { still_image_player with seeking_ := true }

/-- As `demo_player`, with a gap `[2000, 5000)` around the position 3000. -/
def gap_player : MediaPlayer ℚ :=
  { demo_player with
    timeline_ := { begin := 0, end_ := 9000, first := 0, last := 9000, step := 1000,
                   gaps := [{ begin := 2000, end_ := 5000 }] } }

/-- The loop scenario: `demo_player` (timeline first 0, last 9000, end 9000, step 1000,
rate 1, loop mode REWIND) after the producer has written an end-of-stream, whose
slot gets the position 9000. -/
def eos_player : MediaPlayer ℚ :=
  (fill_video_frame demo_player none FrameStatus.EOS).2

/-- As `demo_player`, in loop mode BIDIRECTIONAL on a media that is not seekable. -/
def unseekable_bidirectional_player : MediaPlayer ℚ :=
  { demo_player with
    loop_ := LoopMode.LOOP_BIDIRECTIONAL
    media_ := { video_valid := true, seekable := false, end_ := 9000, dt := 1000 } }

/-- As `demo_player`, playing backward at rate -1. -/
def reverse_player : MediaPlayer ℚ :=
  { demo_player with rate_ := -1 }

/-- A buffer whose plane count does not match the configured format. -/
def bad_buffer : GstBuffer := { pts := 7000, format_ok := false }

/-- As `demo_player`, playing in loop mode NONE. -/
def loop_none_player : MediaPlayer ℚ :=
  { demo_player with loop_ := LoopMode.LOOP_NONE, desired_state_ := GstState.PLAYING }

/-- As `demo_player`, stopped at the end 9000 of its timeline. -/
def at_end_player : MediaPlayer ℚ :=
  { demo_player with position_ := 9000 }

/-- The end-of-stream of `eos_player` is waiting, the player is playing in loop mode NONE
and rewinds when it is disabled. -/
def rewind_on_disable_player : MediaPlayer ℚ :=
  { eos_player with
    rewind_on_disable_ := true
    desired_state_ := GstState.PLAYING
    loop_ := LoopMode.LOOP_NONE }

/-- As `demo_player`, after a failure. -/
def failed_player : MediaPlayer ℚ :=
  { demo_player with failed_ := true }

/-- As `demo_player`, after the producer has written three audio samples that no tick has
read: every slot of the audio ring holds a mapped buffer and the write index is
back at slot 0. -/
def audio_full_player : MediaPlayer ℚ :=
  let p := (fill_audio_frame demo_player (some good_buffer) FrameStatus.SAMPLE).2
  let p := (fill_audio_frame p (some good_buffer) FrameStatus.SAMPLE).2
  (fill_audio_frame p (some good_buffer) FrameStatus.SAMPLE).2

/-- A forward player on a timeline of step 2 with a gap `[2^64 - 4, 2^64 - 2)` at the far
end of the 64-bit range. -/
def far_gap_player : MediaPlayer ℚ :=
  { demo_player with
    timeline_ := { begin := 0, end_ := 2 ^ 64 - 2, first := 0, last := 2 ^ 64 - 2, step := 2,
                   gaps := [{ begin := 2 ^ 64 - 4, end_ := 2 ^ 64 - 2 }] }
    position_ := 2 ^ 64 - 4 }

/-- A clip of ten seconds whose file indicates no framerate. -/
def no_framerate_clip : DiscovererVideoInfo :=
  { is_image := false, duration := 10000000000, seekable := true,
    framerate_num := 0, framerate_denom := 0 }

/-- A player with rings of two slots in which the producer has written an end-of-stream
(slot 0) and then a sample (slot 1) that no tick has read yet: the write index
is back at the EOS and `vlast_index_` designates the sample. -/
def sample_behind_eos_player : MediaPlayer ℚ :=
  let p := { demo_player with vframe_ := List.replicate 2 {}, aframe_ := List.replicate 2 {} }
  let p := (fill_video_frame p none FrameStatus.EOS).2
  (fill_video_frame p (some good_buffer) FrameStatus.SAMPLE).2

/-- As `eos_player` (an unread end-of-stream at 9000, position 3000, step 1000), on a
timeline whose leading gap `[0, 8500)` ends less than one step before 9000. -/
def leading_gap_eos_player : MediaPlayer ℚ :=
  (fill_video_frame
    { demo_player with
      timeline_ := { begin := 0, end_ := 9000, first := 0, last := 9000, step := 1000,
                     gaps := [{ begin := 0, end_ := 8500 }] } }
    none FrameStatus.EOS).2

/-- As `demo_player`, at position 0, after the end-of-stream of the audio stream has been
written; the video ring is empty. -/
def audio_eos_at_start_player : MediaPlayer ℚ :=
  (fill_audio_frame { demo_player with position_ := 0 } none FrameStatus.EOS).2

/-- The descriptor of a seekable clip of 9000 ns with a frame step of 1000 ns. -/
def discovered_clip : MediaInfo :=
  { video_valid := true, seekable := true, end_ := 9000, dt := 1000 }

/-- The player built by the constructor with rings of three slots, after `open`. -/
def opening_player : MediaPlayer ℚ :=
  open_ (MediaPlayer.init 3 3) false discovered_clip

/-- The player `opening_player` after the tick that finds the discovery ready and opens the
media. -/
def opened_player : MediaPlayer ℚ :=
  (update opening_player {}).getD opening_player

/-- The player `opened_player` after an end-of-stream and a sample in the video ring. -/
def filled_player : MediaPlayer ℚ :=
  (fill_video_frame (fill_video_frame opened_player none FrameStatus.EOS).2
    (some good_buffer) FrameStatus.SAMPLE).2

/-- The player `filled_player` after a tick. -/
def ticked_player : MediaPlayer ℚ :=
  (update filled_player {}).getD filled_player

/-- The player built by the constructor with a video ring of `nv` slots, after the
producer has written two end-of-stream markers and then `k` samples. -/
def two_eos_then_samples (nv na : Nat) : Nat → MediaPlayer α
  | 0 =>
    (fill_video_frame (fill_video_frame (MediaPlayer.init nv na) none FrameStatus.EOS).2
      none FrameStatus.EOS).2
  | k + 1 =>
    (fill_video_frame (two_eos_then_samples nv na k) (some good_buffer) FrameStatus.SAMPLE).2

/-- A file system with the directory `/work` and the file `/clip.mp4`, and collaborators
that accept everything; the video stream lasts ten seconds. -/
def vidstab_env : VidstabEnv :=
  { IsDirectory := fun path => path == "/work"
    IsFile := fun path => path == "/clip.mp4"
    JoinPath := fun a b => a ++ "/" ++ b
    parser_created := true
    OpenImageSequence := fun _ _ _ _ _ _ => true
    Open := fun _ => true
    GetError := ""
    GetBestVideoStream := fun _ => some 10
    CreateVideoInstance := fun _ _ _ _ => true }

/-- A task description for the clip `/clip.mp4`. -/
def clip_task : JsonObject :=
  [("work_dir", JsonValue.string "/work"), ("source_url", JsonValue.string "/clip.mp4"),
   ("is_image_seq", JsonValue.boolean false), ("clip_start_offset", JsonValue.number 0),
   ("clip_length", JsonValue.number 5000)]

/-- A task description for an image sequence in the directory `/work`. -/
def image_seq_task : JsonObject :=
  [("work_dir", JsonValue.string "/work"), ("source_url", JsonValue.string "/work"),
   ("is_image_seq", JsonValue.boolean true), ("frame_rate_num", JsonValue.number 25),
   ("frame_rate_den", JsonValue.number 1), ("file_filter_regex", JsonValue.string ".+"),
   ("clip_start_offset", JsonValue.number 0), ("clip_length", JsonValue.number 5000)]

/-! ## Lemmas on the seek command -/

theorem ABS_eq_abs (a : α) : ABS a = |a| := by
  unfold ABS
  split_ifs with h
  · exact (abs_of_neg h).symm
  · exact (abs_of_nonneg (not_lt.mp h)).symm

theorem dispatched_self (p : MediaPlayer α) : dispatched p p = [] := by
  simp [dispatched]

/-- The seek command returns early: the state is unchanged. -/
theorem execute_seek_command_early (p : MediaPlayer α) (t : GstClockTime)
    (h : p.pipeline_ = none ∨ p.media_.seekable = false ∨
      (t ≠ GST_CLOCK_TIME_NONE ∧ ABS_DIFF t p.position_ < p.timeline_.step)) :
    execute_seek_command p t = p := by
  unfold execute_seek_command
  dsimp only
  split
  · rfl
  · rename_i pl hpl
    rcases h with h | h | h
    · simp [hpl] at h
    · simp [h]
    · simp [h]

/-- The seek command goes through: the event it builds is sent, and `seeking_` is set
when the pipeline accepts it. -/
theorem execute_seek_command_sends (p : MediaPlayer α) (t : GstClockTime) (pl : Pipeline α)
    (hpl : p.pipeline_ = some pl) (hs : p.media_.seekable = true)
    (ht : ¬ (t ≠ GST_CLOCK_TIME_NONE ∧ ABS_DIFF t p.position_ < p.timeline_.step))
    (hr : p.rate_ ≠ 0) :
    execute_seek_command p t =
      { p with
        pipeline_ := some
          { sent := pl.sent ++ [Request.seek_event
              { rate := p.rate_,
                flags := if ABS p.rate_ > 3 / 2
                  then GST_SEEK_FLAG_FLUSH ||| GST_SEEK_FLAG_TRICKMODE
                  else GST_SEEK_FLAG_FLUSH ||| GST_SEEK_FLAG_ACCURATE,
                start_type := GstSeekType.SET,
                start := if p.rate_ > 0
                  then (if t = GST_CLOCK_TIME_NONE then p.position_ else t) else 0,
                stop_type := if p.rate_ > 0 then GstSeekType.END else GstSeekType.SET,
                stop := if p.rate_ > 0 then 0
                  else (if t = GST_CLOCK_TIME_NONE then p.position_ else t) }],
            answers := pl.answers.tail },
        seeking_ := if pl.answers.headD true then true else p.seeking_ } := by
  unfold execute_seek_command
  simp only [hpl, hs, gst_event_new_seek, hr, gst_element_send_event]
  generalize pl.answers.headD true = b
  by_cases h0 : p.rate_ > 0 <;> by_cases h1 : ABS p.rate_ > 3 / 2 <;>
    cases b <;> simp [h0, h1, ht]

/-- The seek command goes through at rate zero: no event can be built, nothing is
sent and `seeking_` is set. -/
theorem execute_seek_command_rate_zero (p : MediaPlayer α) (t : GstClockTime) (pl : Pipeline α)
    (hpl : p.pipeline_ = some pl) (hs : p.media_.seekable = true)
    (ht : ¬ (t ≠ GST_CLOCK_TIME_NONE ∧ ABS_DIFF t p.position_ < p.timeline_.step))
    (hr : p.rate_ = 0) :
    execute_seek_command p t = { p with seeking_ := true } := by
  unfold execute_seek_command
  simp [hpl, hs, gst_event_new_seek, hr, ht]

/-- Every request sent by a seek command is the seek event built from the rate, the
position and the target. -/
theorem dispatched_execute_seek_command (p : MediaPlayer α) (t : GstClockTime)
    (r : Request α) (h : r ∈ dispatched p (execute_seek_command p t)) :
    r = Request.seek_event
      { rate := p.rate_,
        flags := if ABS p.rate_ > 3 / 2
          then GST_SEEK_FLAG_FLUSH ||| GST_SEEK_FLAG_TRICKMODE
          else GST_SEEK_FLAG_FLUSH ||| GST_SEEK_FLAG_ACCURATE,
        start_type := GstSeekType.SET,
        start := if p.rate_ > 0
          then (if t = GST_CLOCK_TIME_NONE then p.position_ else t) else 0,
        stop_type := if p.rate_ > 0 then GstSeekType.END else GstSeekType.SET,
        stop := if p.rate_ > 0 then 0
          else (if t = GST_CLOCK_TIME_NONE then p.position_ else t) } := by
  by_cases hearly : p.pipeline_ = none ∨ p.media_.seekable = false ∨
      (t ≠ GST_CLOCK_TIME_NONE ∧ ABS_DIFF t p.position_ < p.timeline_.step)
  · rw [execute_seek_command_early p t hearly, dispatched_self] at h
    simp at h
  · simp only [not_or] at hearly
    obtain ⟨h1, h2, h3⟩ := hearly
    obtain ⟨pl, hpl⟩ := Option.ne_none_iff_exists'.mp h1
    have hs : p.media_.seekable = true := by simpa using h2
    by_cases hr : p.rate_ = 0
    · rw [execute_seek_command_rate_zero p t pl hpl hs h3 hr] at h
      simp [dispatched, MediaPlayer.sent] at h
    · rw [execute_seek_command_sends p t pl hpl hs h3 hr] at h
      simpa [dispatched, MediaPlayer.sent, hpl] using h

/-- A seek command that sends something was not an early return, and the rate is
not zero. -/
theorem dispatched_execute_seek_command_ne_nil (p : MediaPlayer α) (t : GstClockTime)
    (h : dispatched p (execute_seek_command p t) ≠ []) :
    ∃ pl, p.pipeline_ = some pl ∧ p.media_.seekable = true
      ∧ ¬ (t ≠ GST_CLOCK_TIME_NONE ∧ ABS_DIFF t p.position_ < p.timeline_.step)
      ∧ p.rate_ ≠ 0 := by
  by_cases hearly : p.pipeline_ = none ∨ p.media_.seekable = false ∨
      (t ≠ GST_CLOCK_TIME_NONE ∧ ABS_DIFF t p.position_ < p.timeline_.step)
  · rw [execute_seek_command_early p t hearly, dispatched_self] at h
    exact absurd rfl h
  · simp only [not_or] at hearly
    obtain ⟨h1, h2, h3⟩ := hearly
    obtain ⟨pl, hpl⟩ := Option.ne_none_iff_exists'.mp h1
    have hs : p.media_.seekable = true := by simpa using h2
    refine ⟨pl, hpl, hs, h3, ?_⟩
    intro hr
    rw [execute_seek_command_rate_zero p t pl hpl hs h3 hr] at h
    simp [dispatched, MediaPlayer.sent] at h

theorem execute_seek_command_rate (p : MediaPlayer α) (t : GstClockTime) :
    (execute_seek_command p t).rate_ = p.rate_ := by
  unfold execute_seek_command
  dsimp only
  split
  · rfl
  · split_ifs <;> first | rfl | (split <;> first | rfl | (split_ifs <;> rfl))

theorem setPlaySpeed_rate (MIN MAX : α) (p : MediaPlayer α) (s : α)
    (himg : p.media_.isimage = false) :
    (setPlaySpeed MIN MAX p s).rate_ =
      if ABS (CLAMP s (-MAX) MAX) < MIN then SIGN (CLAMP s (-MAX) MAX) * MIN
      else CLAMP s (-MAX) MAX := by
  simp [setPlaySpeed, himg, execute_seek_command_rate]

theorem CLAMP_cases (x lo hi : Nat) (h : lo ≤ hi) :
    CLAMP x lo hi = if x < lo then lo else if x > hi then hi else x := by
  unfold CLAMP
  split_ifs <;> omega

theorem CLAMP_mem (x lo hi : Nat) (h : lo ≤ hi) : lo ≤ CLAMP x lo hi ∧ CLAMP x lo hi ≤ hi := by
  unfold CLAMP
  split_ifs <;> omega

/-- Clamping into an interval that contains `y` does not move `x` away from `y`. -/
theorem ABS_DIFF_CLAMP_le (x y lo hi : Nat) (h1 : lo ≤ y) (h2 : y ≤ hi) :
    ABS_DIFF (CLAMP x lo hi) y ≤ ABS_DIFF x y := by
  unfold CLAMP ABS_DIFF
  split_ifs <;> omega

/-! ## C1 - C7: play speed and seek -/

/-- C1: for a non-image media and constants `0 < MIN_PLAY_SPEED ≤ MAX_PLAY_SPEED`, after
`setPlaySpeed(s)` the stored rate has a magnitude in `[MIN_PLAY_SPEED, MAX_PLAY_SPEED]`,
the sign of `s` when `s` is not zero, the value `+MIN_PLAY_SPEED` when `s` is zero, is
never zero, and is `s` itself when the magnitude of `s` is already in range. -/
theorem setPlaySpeed_rate_in_range (MIN_PLAY_SPEED MAX_PLAY_SPEED : α) (p : MediaPlayer α) (s : α)
    (hmin : 0 < MIN_PLAY_SPEED) (hmax : MIN_PLAY_SPEED ≤ MAX_PLAY_SPEED)
    (himg : p.media_.isimage = false) :
    MIN_PLAY_SPEED ≤ |(setPlaySpeed MIN_PLAY_SPEED MAX_PLAY_SPEED p s).rate_|
    ∧ |(setPlaySpeed MIN_PLAY_SPEED MAX_PLAY_SPEED p s).rate_| ≤ MAX_PLAY_SPEED
    ∧ (0 < s → 0 < (setPlaySpeed MIN_PLAY_SPEED MAX_PLAY_SPEED p s).rate_)
    ∧ (s < 0 → (setPlaySpeed MIN_PLAY_SPEED MAX_PLAY_SPEED p s).rate_ < 0)
    ∧ (s = 0 → (setPlaySpeed MIN_PLAY_SPEED MAX_PLAY_SPEED p s).rate_ = MIN_PLAY_SPEED)
    ∧ (setPlaySpeed MIN_PLAY_SPEED MAX_PLAY_SPEED p s).rate_ ≠ 0
    ∧ (MIN_PLAY_SPEED ≤ |s| → |s| ≤ MAX_PLAY_SPEED →
        (setPlaySpeed MIN_PLAY_SPEED MAX_PLAY_SPEED p s).rate_ = s) := by
  rw [setPlaySpeed_rate _ _ _ _ himg]
  simp only [CLAMP, ABS, SIGN]
  split_ifs <;>
    refine ⟨?_, ?_, ?_, ?_, ?_, ?_, ?_⟩ <;>
    first
    | (rw [le_abs']; first | (left; linarith) | (right; linarith))
    | (rw [abs_le]; constructor <;> linarith)
    | (intro h; linarith)
    | (intro h1 h2; have h3 := le_abs'.mp h1; have h4 := abs_le.mp h2
       rcases h3 with h3 | h3 <;> linarith)

/-- Witness of C1: `setPlaySpeed(1/100)` with `MIN_PLAY_SPEED = 1/10` and `MAX_PLAY_SPEED = 20`. -/
theorem setPlaySpeed_rate_in_range_witness :
    (0 : ℚ) < 1 / 10 ∧ (1 / 10 : ℚ) ≤ 20 ∧ demo_player.media_.isimage = false
    ∧ (1 / 10 : ℚ) ≤ |(setPlaySpeed (1 / 10) 20 demo_player (1 / 100)).rate_|
    ∧ |(setPlaySpeed (1 / 10) 20 demo_player (1 / 100)).rate_| ≤ 20
    ∧ ((0 : ℚ) < 1 / 100 → 0 < (setPlaySpeed (1 / 10) 20 demo_player (1 / 100)).rate_)
    ∧ ((1 / 100 : ℚ) < 0 → (setPlaySpeed (1 / 10) 20 demo_player (1 / 100)).rate_ < 0)
    ∧ ((1 / 100 : ℚ) = 0 → (setPlaySpeed (1 / 10) 20 demo_player (1 / 100)).rate_ = 1 / 10)
    ∧ (setPlaySpeed (1 / 10) 20 demo_player (1 / 100)).rate_ ≠ 0
    ∧ ((1 / 10 : ℚ) ≤ |1 / 100| → |(1 / 100 : ℚ)| ≤ 20 →
        (setPlaySpeed (1 / 10) 20 demo_player (1 / 100)).rate_ = 1 / 100) :=
  ⟨by norm_num, by norm_num, rfl,
    setPlaySpeed_rate_in_range (1 / 10 : ℚ) 20 demo_player (1 / 100)
      (by norm_num) (by norm_num) rfl⟩

/-- Counterexample to C2 as stated: the player stands at 100, before its timeline
`[200, 1000]` of step 10.  `seek(105)` is within one step of the position, yet the
target is clamped to 200, a seek event is sent and `seeking_` becomes true. -/
theorem seek_near_position_not_suppressed :
    ABS_DIFF 105 off_timeline_player.position_ < off_timeline_player.timeline_.step
    ∧ off_timeline_player.seeking_ = false
    ∧ (seek off_timeline_player 105).seeking_ = true
    ∧ dispatched off_timeline_player (seek off_timeline_player 105) =
        [Request.seek_event (forward_event 200)] := by
  refine ⟨by decide, by decide, by decide, ?_⟩
  simp [dispatched, seek, execute_seek_command, MediaPlayer.sent, off_timeline_player,
    demo_player, MediaPlayer.init, CLAMP, ABS_DIFF, gst_event_new_seek, gst_element_send_event,
    ABS, forward_event, GST_CLOCK_TIME_NONE]
  norm_num

/-- C2 (amended): when the position lies inside `[timeline begin, timeline end]` and the
timeline end is known (below the sentinel), `seek(pos)` with `|pos - position| < step`
leaves the whole player unchanged: `seeking_` keeps its value and no event is sent. -/
theorem seek_suppressed_within_step (p : MediaPlayer α) (pos : GstClockTime)
    (hb : p.timeline_.begin ≤ p.position_) (he : p.position_ ≤ p.timeline_.end_)
    (hend : p.timeline_.end_ < GST_CLOCK_TIME_NONE)
    (h : ABS_DIFF pos p.position_ < p.timeline_.step) :
    seek p pos = p ∧ (seek p pos).seeking_ = p.seeking_ ∧ dispatched p (seek p pos) = [] := by
  have key : seek p pos = p := by
    unfold seek
    split_ifs
    · rfl
    · apply execute_seek_command_early
      right; right
      have h1 := ABS_DIFF_CLAMP_le pos p.position_ _ _ hb he
      have h2 := CLAMP_mem pos _ _ (hb.trans he)
      exact ⟨ne_of_lt (lt_of_le_of_lt h2.2 hend), lt_of_le_of_lt h1 h⟩
  rw [key]
  exact ⟨rfl, rfl, dispatched_self p⟩

/-- Witness of C2 (amended): `demo_player` at 3000, `seek(3400)` with step 1000. -/
theorem seek_suppressed_within_step_witness :
    demo_player.timeline_.begin ≤ demo_player.position_
    ∧ demo_player.position_ ≤ demo_player.timeline_.end_
    ∧ demo_player.timeline_.end_ < GST_CLOCK_TIME_NONE
    ∧ ABS_DIFF 3400 demo_player.position_ < demo_player.timeline_.step
    ∧ seek demo_player 3400 = demo_player
    ∧ (seek demo_player 3400).seeking_ = demo_player.seeking_
    ∧ dispatched demo_player (seek demo_player 3400) = [] :=
  ⟨by decide, by decide, by decide, by decide,
    seek_suppressed_within_step demo_player 3400 (by decide) (by decide) (by decide) (by decide)⟩

/-- C3: `seek(pos)` changes nothing when the player is disabled, the media is not
seekable or a seek is outstanding: the state is the same, so rate, position,
seeking, desired state and the rings are unchanged and no event is sent. -/
theorem seek_noop_when_guarded (p : MediaPlayer α) (pos : GstClockTime)
    (h : p.enabled_ = false ∨ p.media_.seekable = false ∨ p.seeking_ = true) :
    seek p pos = p ∧ dispatched p (seek p pos) = [] := by
  have key : seek p pos = p := by
    unfold seek
    rcases h with h | h | h <;> simp [h]
  rw [key]
  exact ⟨rfl, dispatched_self p⟩

/-- Witness of C3: a seek far away while a seek is outstanding. -/
theorem seek_noop_when_guarded_witness :
    (busy_player.enabled_ = false ∨ busy_player.media_.seekable = false
      ∨ busy_player.seeking_ = true)
    ∧ seek busy_player 8000 = busy_player
    ∧ dispatched busy_player (seek busy_player 8000) = [] :=
  ⟨Or.inr (Or.inr rfl), seek_noop_when_guarded busy_player 8000 (Or.inr (Or.inr rfl))⟩

/-- Counterexample to C4 as stated: the timeline `[100, GST_CLOCK_TIME_NONE]` has
`begin ≤ end`; `seek(GST_CLOCK_TIME_NONE)` is clamped to the sentinel, which the seek
command reads as "no target", and the event sent seeks to the current position 50,
outside the timeline. -/
theorem seek_sentinel_leaves_timeline :
    unknown_end_player.timeline_.begin ≤ unknown_end_player.timeline_.end_
    ∧ dispatched unknown_end_player (seek unknown_end_player GST_CLOCK_TIME_NONE) =
        [Request.seek_event (forward_event 50)]
    ∧ (forward_event 50).position = 50
    ∧ ¬ (unknown_end_player.timeline_.begin ≤ 50) := by
  refine ⟨by decide, ?_, by decide, by decide⟩
  simp [dispatched, seek, execute_seek_command, MediaPlayer.sent, unknown_end_player,
    demo_player, MediaPlayer.init, CLAMP, ABS_DIFF, gst_event_new_seek, gst_element_send_event,
    ABS, forward_event, GST_CLOCK_TIME_NONE]
  norm_num

/-- C4 (amended): for a timeline with `begin ≤ end`, the target `seek(pos)` hands to the
seek command is `pos` inside `[begin, end]`, `begin` below it and `end` above it, so it
lies in `[begin, end]`; and when that target is not the sentinel `GST_CLOCK_TIME_NONE`,
every seek event sent through `seek` seeks to a position inside `[begin, end]`. -/
theorem seek_target_within_timeline (p : MediaPlayer α) (pos : GstClockTime)
    (hbe : p.timeline_.begin ≤ p.timeline_.end_) :
    seek p pos =
      (if !p.enabled_ || !p.media_.seekable || p.seeking_ then p
       else execute_seek_command p (CLAMP pos p.timeline_.begin p.timeline_.end_))
    ∧ CLAMP pos p.timeline_.begin p.timeline_.end_ =
      (if pos < p.timeline_.begin then p.timeline_.begin
       else if pos > p.timeline_.end_ then p.timeline_.end_ else pos)
    ∧ p.timeline_.begin ≤ CLAMP pos p.timeline_.begin p.timeline_.end_
    ∧ CLAMP pos p.timeline_.begin p.timeline_.end_ ≤ p.timeline_.end_
    ∧ (CLAMP pos p.timeline_.begin p.timeline_.end_ ≠ GST_CLOCK_TIME_NONE →
        ∀ e, Request.seek_event e ∈ dispatched p (seek p pos) →
          p.timeline_.begin ≤ e.position ∧ e.position ≤ p.timeline_.end_) := by
  have hc := CLAMP_mem pos _ _ hbe
  refine ⟨rfl, ?_, hc.1, hc.2, ?_⟩
  · exact CLAMP_cases pos _ _ hbe
  · intro hne e he
    unfold seek at he
    split_ifs at he
    · rw [dispatched_self] at he
      simp at he
    · have h := dispatched_execute_seek_command p _ _ he
      injection h with h
      subst h
      unfold SeekEvent.position
      by_cases hr : p.rate_ > 0 <;> simp [hr, hne, hc.1, hc.2]

/-- Witness of C4 (amended): `seek(20000)` on `demo_player` is clamped to the end 9000. -/
theorem seek_target_within_timeline_witness :
    demo_player.timeline_.begin ≤ demo_player.timeline_.end_
    ∧ CLAMP 20000 demo_player.timeline_.begin demo_player.timeline_.end_ ≠ GST_CLOCK_TIME_NONE
    ∧ Request.seek_event (forward_event 9000) ∈ dispatched demo_player (seek demo_player 20000)
    ∧ demo_player.timeline_.begin ≤ (forward_event 9000).position
    ∧ (forward_event 9000).position ≤ demo_player.timeline_.end_ :=
  have hmem : Request.seek_event (forward_event 9000)
      ∈ dispatched demo_player (seek demo_player 20000) := by
    simp [dispatched, seek, execute_seek_command, MediaPlayer.sent,
      demo_player, MediaPlayer.init, CLAMP, ABS_DIFF, gst_event_new_seek, gst_element_send_event,
      ABS, forward_event, GST_CLOCK_TIME_NONE]
    norm_num
  ⟨by decide, by decide, hmem,
    (seek_target_within_timeline demo_player 20000 (by decide)).2.2.2.2 (by decide) _ hmem⟩

/-- C5: every request sent by a seek command is a seek event that carries the current
rate; with `p` the target, or the current position when no target is given
(`GST_CLOCK_TIME_NONE`), a forward rate frames it `start = p`, `stop = end of stream`
and a reverse rate frames it `start = 0`, `stop = p`. -/
theorem seek_event_framing (p : MediaPlayer α) (target : GstClockTime) (r : Request α)
    (h : r ∈ dispatched p (execute_seek_command p target)) :
    ∃ e, r = Request.seek_event e ∧ e.rate = p.rate_
      ∧ (p.rate_ > 0 →
          e.start_type = GstSeekType.SET
          ∧ e.start = (if target = GST_CLOCK_TIME_NONE then p.position_ else target)
          ∧ e.stop_type = GstSeekType.END ∧ e.stop = 0)
      ∧ (p.rate_ < 0 →
          e.start_type = GstSeekType.SET ∧ e.start = 0
          ∧ e.stop_type = GstSeekType.SET
          ∧ e.stop = (if target = GST_CLOCK_TIME_NONE then p.position_ else target)) := by
  refine ⟨_, dispatched_execute_seek_command p target r h, rfl, ?_, ?_⟩
  · intro hr
    simp [hr]
  · intro hr
    simp [not_lt.mpr hr.le]

/-- Witness of C5: the re-sync seek of `demo_player` (no target) starts at its position. -/
theorem seek_event_framing_witness :
    Request.seek_event (forward_event 3000)
      ∈ dispatched demo_player (execute_seek_command demo_player GST_CLOCK_TIME_NONE)
    ∧ ∃ e, Request.seek_event (forward_event 3000) = Request.seek_event e
      ∧ e.rate = demo_player.rate_
      ∧ (demo_player.rate_ > 0 →
          e.start_type = GstSeekType.SET
          ∧ e.start = (if GST_CLOCK_TIME_NONE = GST_CLOCK_TIME_NONE
              then demo_player.position_ else GST_CLOCK_TIME_NONE)
          ∧ e.stop_type = GstSeekType.END ∧ e.stop = 0)
      ∧ (demo_player.rate_ < 0 →
          e.start_type = GstSeekType.SET ∧ e.start = 0
          ∧ e.stop_type = GstSeekType.SET
          ∧ e.stop = (if GST_CLOCK_TIME_NONE = GST_CLOCK_TIME_NONE
              then demo_player.position_ else GST_CLOCK_TIME_NONE)) :=
  have hmem : Request.seek_event (forward_event 3000)
      ∈ dispatched demo_player (execute_seek_command demo_player GST_CLOCK_TIME_NONE) := by
    simp [dispatched, execute_seek_command, MediaPlayer.sent,
      demo_player, MediaPlayer.init, ABS_DIFF, gst_event_new_seek, gst_element_send_event,
      ABS, forward_event, GST_CLOCK_TIME_NONE]
    norm_num
  ⟨hmem, seek_event_framing demo_player GST_CLOCK_TIME_NONE _ hmem⟩

/-- C6: every request sent by a seek command is a seek event whose flags contain FLUSH
and exactly one of TRICKMODE and ACCURATE: TRICKMODE when `|rate| > 1.5`, ACCURATE
when `|rate| ≤ 1.5`. -/
theorem seek_event_flags (p : MediaPlayer α) (target : GstClockTime) (r : Request α)
    (h : r ∈ dispatched p (execute_seek_command p target)) :
    ∃ e, r = Request.seek_event e
      ∧ hasFlag e.flags GST_SEEK_FLAG_FLUSH = true
      ∧ (hasFlag e.flags GST_SEEK_FLAG_TRICKMODE = true ↔ |p.rate_| > 3 / 2)
      ∧ (hasFlag e.flags GST_SEEK_FLAG_ACCURATE = true ↔ |p.rate_| ≤ 3 / 2)
      ∧ hasFlag e.flags GST_SEEK_FLAG_TRICKMODE ≠ hasFlag e.flags GST_SEEK_FLAG_ACCURATE := by
  refine ⟨_, dispatched_execute_seek_command p target r h, ?_⟩
  rw [ABS_eq_abs]
  by_cases hr : |p.rate_| > 3 / 2
  · simp only [hr, if_true, not_le.mpr hr, iff_true, iff_false]
    decide
  · simp only [hr, if_false, not_lt.mp hr, iff_true, iff_false]
    decide

/-- Witness of C6: the seek event of `demo_player` at rate 1 is flushing and accurate. -/
theorem seek_event_flags_witness :
    Request.seek_event (forward_event 8000)
      ∈ dispatched demo_player (execute_seek_command demo_player 8000)
    ∧ ∃ e, Request.seek_event (forward_event 8000) = Request.seek_event e
      ∧ hasFlag e.flags GST_SEEK_FLAG_FLUSH = true
      ∧ (hasFlag e.flags GST_SEEK_FLAG_TRICKMODE = true ↔ |demo_player.rate_| > 3 / 2)
      ∧ (hasFlag e.flags GST_SEEK_FLAG_ACCURATE = true ↔ |demo_player.rate_| ≤ 3 / 2)
      ∧ hasFlag e.flags GST_SEEK_FLAG_TRICKMODE ≠ hasFlag e.flags GST_SEEK_FLAG_ACCURATE :=
  have hmem : Request.seek_event (forward_event 8000)
      ∈ dispatched demo_player (execute_seek_command demo_player 8000) := by
    simp [dispatched, execute_seek_command, MediaPlayer.sent,
      demo_player, MediaPlayer.init, ABS_DIFF, gst_event_new_seek, gst_element_send_event,
      ABS, forward_event, GST_CLOCK_TIME_NONE]
    norm_num
  ⟨hmem, seek_event_flags demo_player 8000 _ hmem⟩

/-- C7: a seek command whose event the pipeline accepts leaves `seeking_` true; a seek
command that returns early (no pipeline, media not seekable, or a given target
within one step of the position) changes nothing, and one whose event the
pipeline rejects leaves `seeking_` as it was. -/
theorem seek_command_seeking_flag (p : MediaPlayer α) (target : GstClockTime) :
    (dispatched p (execute_seek_command p target) ≠ [] → p.next_answer = true →
      (execute_seek_command p target).seeking_ = true)
    ∧ ((p.pipeline_ = none ∨ p.media_.seekable = false ∨
        (target ≠ GST_CLOCK_TIME_NONE ∧ ABS_DIFF target p.position_ < p.timeline_.step)) →
      execute_seek_command p target = p
      ∧ (execute_seek_command p target).seeking_ = p.seeking_)
    ∧ (dispatched p (execute_seek_command p target) ≠ [] → p.next_answer = false →
      (execute_seek_command p target).seeking_ = p.seeking_) := by
  refine ⟨?_, ?_, ?_⟩
  · intro hd ha
    obtain ⟨pl, hpl, hs, ht, hr⟩ := dispatched_execute_seek_command_ne_nil p target hd
    rw [execute_seek_command_sends p target pl hpl hs ht hr]
    simp only [MediaPlayer.next_answer, hpl] at ha
    simp only [ha]
    simp
  · intro h
    rw [execute_seek_command_early p target h]
    exact ⟨rfl, rfl⟩
  · intro hd ha
    obtain ⟨pl, hpl, hs, ht, hr⟩ := dispatched_execute_seek_command_ne_nil p target hd
    rw [execute_seek_command_sends p target pl hpl hs ht hr]
    simp only [MediaPlayer.next_answer, hpl] at ha
    simp only [ha]
    simp

/-- Witness of C7: an accepted seek to 8000, a suppressed seek to 3400 and a rejected
seek to 8000. -/
theorem seek_command_seeking_flag_witness :
    (dispatched demo_player (execute_seek_command demo_player 8000) ≠ []
      ∧ demo_player.next_answer = true
      ∧ (execute_seek_command demo_player 8000).seeking_ = true)
    ∧ ((demo_player.pipeline_ = none ∨ demo_player.media_.seekable = false ∨
        ((3400 : GstClockTime) ≠ GST_CLOCK_TIME_NONE
          ∧ ABS_DIFF 3400 demo_player.position_ < demo_player.timeline_.step))
      ∧ execute_seek_command demo_player 3400 = demo_player
      ∧ (execute_seek_command demo_player 3400).seeking_ = demo_player.seeking_)
    ∧ (dispatched rejecting_player (execute_seek_command rejecting_player 8000) ≠ []
      ∧ rejecting_player.next_answer = false
      ∧ (execute_seek_command rejecting_player 8000).seeking_ = rejecting_player.seeking_) :=
  have h1 : dispatched demo_player (execute_seek_command demo_player 8000) ≠ [] := by
    simp [dispatched, execute_seek_command, MediaPlayer.sent,
      demo_player, MediaPlayer.init, ABS_DIFF, gst_event_new_seek, gst_element_send_event,
      GST_CLOCK_TIME_NONE]
  have h2 : demo_player.pipeline_ = none ∨ demo_player.media_.seekable = false ∨
      ((3400 : GstClockTime) ≠ GST_CLOCK_TIME_NONE
        ∧ ABS_DIFF 3400 demo_player.position_ < demo_player.timeline_.step) :=
    Or.inr (Or.inr (by decide))
  have h3 : dispatched rejecting_player (execute_seek_command rejecting_player 8000) ≠ [] := by
    simp [dispatched, execute_seek_command, MediaPlayer.sent, rejecting_player,
      demo_player, MediaPlayer.init, ABS_DIFF, gst_event_new_seek, gst_element_send_event,
      GST_CLOCK_TIME_NONE]
  ⟨⟨h1, rfl, (seek_command_seeking_flag demo_player 8000).1 h1 rfl⟩,
   ⟨h2, (seek_command_seeking_flag demo_player 3400).2.1 h2⟩,
   ⟨h3, rfl, (seek_command_seeking_flag rejecting_player 8000).2.2 h3 rfl⟩⟩

/-! ## Lemmas on the producer -/

theorem fill_video_frame_eq (p : MediaPlayer α) (buf : Option GstBuffer) (status : FrameStatus) :
    fill_video_frame p buf status = fill_video_at p (vtarget p) buf status := rfl

theorem fill_audio_frame_eq (p : MediaPlayer α) (buf : Option GstBuffer) (status : FrameStatus) :
    fill_audio_frame p buf status = fill_audio_at p (atarget p) buf status := rfl

theorem vtarget_lt (p : MediaPlayer α) (h : p.vwrite_index_ < p.N_VFRAME) :
    vtarget p < p.N_VFRAME := by
  unfold vtarget
  split_ifs
  · exact Nat.mod_lt _ (by omega)
  · exact h

theorem atarget_lt (p : MediaPlayer α) (h : p.awrite_index_ < p.N_AFRAME) :
    atarget p < p.N_AFRAME := by
  unfold atarget
  split_ifs
  · exact Nat.mod_lt _ (by omega)
  · exact h

theorem getD_set_self (l : List Frame) (i : Nat) (f : Frame) (h : i < l.length) :
    (l.set i f).getD i {} = f := by
  simp [List.getD_eq_getElem?_getD, List.getElem?_set, h]

theorem getD_set_ne (l : List Frame) (i j : Nat) (f : Frame) (h : i ≠ j) :
    (l.set i f).getD j {} = l.getD j {} := by
  simp [List.getD_eq_getElem?_getD, List.getElem?_set, h]

/-- A slot that holds an EOS exists: its index is inside the ring. -/
theorem lt_length_of_status_EOS (l : List Frame) (i : Nat)
    (h : (l.getD i {}).status = FrameStatus.EOS) : i < l.length := by
  by_contra hlt
  rw [List.getD_eq_getElem?_getD, List.getElem?_eq_none (by omega)] at h
  simp at h

/-- What `fill_video_frame` does to the ring once its target slot `w` is known. -/
theorem fill_video_at_spec (p : MediaPlayer α) (w : Nat) (buf : Option GstBuffer)
    (status : FrameStatus) (hw : w < p.N_VFRAME) :
    (fill_video_at p w buf status).2.N_VFRAME = p.N_VFRAME
    ∧ ((fill_video_at p w buf status).2.vframe_.getD w {}).status = filled_status buf status
    ∧ (∀ i, i ≠ w → (fill_video_at p w buf status).2.vframe_.getD i {} = p.vframe_.getD i {})
    ∧ ((fill_video_at p w buf status).1 = true →
        (fill_video_at p w buf status).2.vlast_index_ = w
        ∧ (fill_video_at p w buf status).2.vwrite_index_ = (w + 1) % p.N_VFRAME
        ∧ filled_status buf status = (match buf with | some _ => status | none => FrameStatus.EOS))
    ∧ ((fill_video_at p w buf status).1 = false →
        (fill_video_at p w buf status).2.vlast_index_ = p.vlast_index_
        ∧ (fill_video_at p w buf status).2.vwrite_index_ = w
        ∧ filled_status buf status = FrameStatus.INVALID)
    ∧ (∀ b, buf = some b → (fill_video_at p w buf status).1 = true →
        (fill_video_at p w buf status).2.vframe_.getD w {} =
          { status := status, full := true, position := b.pts }) := by
  unfold MediaPlayer.N_VFRAME at *
  unfold fill_video_at filled_status
  cases buf with
  | none =>
    simp +contextual [getD_set_self, getD_set_ne, hw, Ne.symm, MediaPlayer.N_VFRAME]
  | some b =>
    dsimp only
    split_ifs <;>
      simp_all +contextual [getD_set_self, getD_set_ne, hw, Ne.symm, MediaPlayer.N_VFRAME]

/-- What `fill_audio_frame` does to the ring once its target slot `w` is known. -/
theorem fill_audio_at_spec (p : MediaPlayer α) (w : Nat) (buf : Option GstBuffer)
    (status : FrameStatus) (hw : w < p.N_AFRAME) :
    (fill_audio_at p w buf status).2.N_AFRAME = p.N_AFRAME
    ∧ ((fill_audio_at p w buf status).2.aframe_.getD w {}).status = filled_status buf status
    ∧ (∀ i, i ≠ w → (fill_audio_at p w buf status).2.aframe_.getD i {} = p.aframe_.getD i {})
    ∧ ((fill_audio_at p w buf status).1 = true →
        (fill_audio_at p w buf status).2.alast_index_ = w
        ∧ (fill_audio_at p w buf status).2.awrite_index_ = (w + 1) % p.N_AFRAME
        ∧ filled_status buf status = (match buf with | some _ => status | none => FrameStatus.EOS))
    ∧ ((fill_audio_at p w buf status).1 = false →
        (fill_audio_at p w buf status).2.alast_index_ = p.alast_index_
        ∧ (fill_audio_at p w buf status).2.awrite_index_ = w
        ∧ filled_status buf status = FrameStatus.INVALID)
    ∧ (∀ b, buf = some b → (fill_audio_at p w buf status).1 = true →
        (fill_audio_at p w buf status).2.aframe_.getD w {} =
          { status := status, full := true, position := b.pts }) := by
  unfold MediaPlayer.N_AFRAME at *
  unfold fill_audio_at filled_status
  cases buf with
  | none =>
    simp +contextual [getD_set_self, getD_set_ne, hw, Ne.symm, MediaPlayer.N_AFRAME]
  | some b =>
    dsimp only
    split_ifs <;>
      simp_all +contextual [getD_set_self, getD_set_ne, hw, Ne.symm, MediaPlayer.N_AFRAME]

theorem succ_mod_ne (w n : Nat) (hn : 2 ≤ n) (hw : w < n) : (w + 1) % n ≠ w := by
  by_cases h : w + 1 < n
  · rw [Nat.mod_eq_of_lt h]
    omega
  · have h1 : w + 1 = n := by omega
    rw [h1, Nat.mod_self]
    omega

/-! ## C8 - C9: the producer side of the rings -/

/-- C8: in both rings, for a write index inside the ring, after a fill call that returns
success `last_index` is the index of the one slot the call wrote (every other slot
is unchanged), that slot has the given status, or EOS for the null buffer, and
`write_index = (last_index + 1) mod N`. -/
theorem fill_frame_publishes_written_slot (p : MediaPlayer α) (buf : Option GstBuffer)
    (status : FrameStatus) :
    (p.vwrite_index_ < p.N_VFRAME → (fill_video_frame p buf status).1 = true →
      (fill_video_frame p buf status).2.vlast_index_ = vtarget p
      ∧ (fill_video_frame p buf status).2.vlast_index_ < p.N_VFRAME
      ∧ (∀ i, i ≠ (fill_video_frame p buf status).2.vlast_index_ →
          (fill_video_frame p buf status).2.vframe_.getD i {} = p.vframe_.getD i {})
      ∧ ((fill_video_frame p buf status).2.vframe_.getD
            (fill_video_frame p buf status).2.vlast_index_ {}).status
          = (match buf with | some _ => status | none => FrameStatus.EOS)
      ∧ (fill_video_frame p buf status).2.vwrite_index_
          = ((fill_video_frame p buf status).2.vlast_index_ + 1)
              % (fill_video_frame p buf status).2.N_VFRAME)
    ∧ (p.awrite_index_ < p.N_AFRAME → (fill_audio_frame p buf status).1 = true →
      (fill_audio_frame p buf status).2.alast_index_ = atarget p
      ∧ (fill_audio_frame p buf status).2.alast_index_ < p.N_AFRAME
      ∧ (∀ i, i ≠ (fill_audio_frame p buf status).2.alast_index_ →
          (fill_audio_frame p buf status).2.aframe_.getD i {} = p.aframe_.getD i {})
      ∧ ((fill_audio_frame p buf status).2.aframe_.getD
            (fill_audio_frame p buf status).2.alast_index_ {}).status
          = (match buf with | some _ => status | none => FrameStatus.EOS)
      ∧ (fill_audio_frame p buf status).2.awrite_index_
          = ((fill_audio_frame p buf status).2.alast_index_ + 1)
              % (fill_audio_frame p buf status).2.N_AFRAME) := by
  constructor
  · intro hw hok
    have ht := vtarget_lt p hw
    rw [fill_video_frame_eq] at hok ⊢
    obtain ⟨hN, hst, hother, hsucc, -, -⟩ := fill_video_at_spec p (vtarget p) buf status ht
    obtain ⟨hl, hwr, hfs⟩ := hsucc hok
    rw [hl, hN, hst, hfs]
    exact ⟨rfl, ht, hother, rfl, hwr⟩
  · intro hw hok
    have ht := atarget_lt p hw
    rw [fill_audio_frame_eq] at hok ⊢
    obtain ⟨hN, hst, hother, hsucc, -, -⟩ := fill_audio_at_spec p (atarget p) buf status ht
    obtain ⟨hl, hwr, hfs⟩ := hsucc hok
    rw [hl, hN, hst, hfs]
    exact ⟨rfl, ht, hother, rfl, hwr⟩

/-- Witness of C8: a sample written in both rings of `demo_player`. -/
theorem fill_frame_publishes_written_slot_witness :
    (demo_player.vwrite_index_ < demo_player.N_VFRAME
      ∧ (fill_video_frame demo_player (some good_buffer) FrameStatus.SAMPLE).1 = true
      ∧ (fill_video_frame demo_player (some good_buffer) FrameStatus.SAMPLE).2.vlast_index_ = 0
      ∧ (fill_video_frame demo_player (some good_buffer) FrameStatus.SAMPLE).2.vwrite_index_ = 1)
    ∧ (demo_player.awrite_index_ < demo_player.N_AFRAME
      ∧ (fill_audio_frame demo_player (some good_buffer) FrameStatus.SAMPLE).1 = true
      ∧ (fill_audio_frame demo_player (some good_buffer) FrameStatus.SAMPLE).2.alast_index_ = 0
      ∧ (fill_audio_frame demo_player (some good_buffer) FrameStatus.SAMPLE).2.awrite_index_ = 1) :=
  have hv := (fill_frame_publishes_written_slot demo_player (some good_buffer)
    FrameStatus.SAMPLE).1 (by decide) (by decide)
  have ha := (fill_frame_publishes_written_slot demo_player (some good_buffer)
    FrameStatus.SAMPLE).2 (by decide) (by decide)
  ⟨⟨by decide, by decide, hv.1.trans (by decide), hv.2.2.2.2.trans (by decide)⟩,
   ⟨by decide, by decide, ha.1.trans (by decide), ha.2.2.2.2.trans (by decide)⟩⟩

/-- C9: in both rings of size `N ≥ 2`, when the slot at `write_index` holds an EOS at the
start of a fill call, that slot is untouched by the call (status EOS, same
position), and the call targets slot `(write_index + 1) mod N` instead: it is the
only slot that can change, it receives the status of the call, a good buffer is
stored in it, and on success `last_index` points at it. -/
theorem fill_frame_skips_unread_eos (p : MediaPlayer α) (buf : Option GstBuffer)
    (status : FrameStatus) :
    (2 ≤ p.N_VFRAME → (p.vframe_.getD p.vwrite_index_ {}).status = FrameStatus.EOS →
      ((fill_video_frame p buf status).2.vframe_.getD p.vwrite_index_ {}).status = FrameStatus.EOS
      ∧ ((fill_video_frame p buf status).2.vframe_.getD p.vwrite_index_ {}).position
          = (p.vframe_.getD p.vwrite_index_ {}).position
      ∧ (p.vwrite_index_ + 1) % p.N_VFRAME ≠ p.vwrite_index_
      ∧ (∀ i, i ≠ (p.vwrite_index_ + 1) % p.N_VFRAME →
          (fill_video_frame p buf status).2.vframe_.getD i {} = p.vframe_.getD i {})
      ∧ ((fill_video_frame p buf status).2.vframe_.getD
            ((p.vwrite_index_ + 1) % p.N_VFRAME) {}).status = filled_status buf status
      ∧ (∀ b, buf = some b → (fill_video_frame p buf status).1 = true →
          (fill_video_frame p buf status).2.vframe_.getD ((p.vwrite_index_ + 1) % p.N_VFRAME) {}
            = { status := status, full := true, position := b.pts })
      ∧ ((fill_video_frame p buf status).1 = true →
          (fill_video_frame p buf status).2.vlast_index_ = (p.vwrite_index_ + 1) % p.N_VFRAME))
    ∧ (2 ≤ p.N_AFRAME → (p.aframe_.getD p.awrite_index_ {}).status = FrameStatus.EOS →
      ((fill_audio_frame p buf status).2.aframe_.getD p.awrite_index_ {}).status = FrameStatus.EOS
      ∧ ((fill_audio_frame p buf status).2.aframe_.getD p.awrite_index_ {}).position
          = (p.aframe_.getD p.awrite_index_ {}).position
      ∧ (p.awrite_index_ + 1) % p.N_AFRAME ≠ p.awrite_index_
      ∧ (∀ i, i ≠ (p.awrite_index_ + 1) % p.N_AFRAME →
          (fill_audio_frame p buf status).2.aframe_.getD i {} = p.aframe_.getD i {})
      ∧ ((fill_audio_frame p buf status).2.aframe_.getD
            ((p.awrite_index_ + 1) % p.N_AFRAME) {}).status = filled_status buf status
      ∧ (∀ b, buf = some b → (fill_audio_frame p buf status).1 = true →
          (fill_audio_frame p buf status).2.aframe_.getD ((p.awrite_index_ + 1) % p.N_AFRAME) {}
            = { status := status, full := true, position := b.pts })
      ∧ ((fill_audio_frame p buf status).1 = true →
          (fill_audio_frame p buf status).2.alast_index_ = (p.awrite_index_ + 1) % p.N_AFRAME)) := by
  constructor
  · intro hN hE
    have hw : p.vwrite_index_ < p.N_VFRAME := lt_length_of_status_EOS _ _ hE
    have hne := succ_mod_ne _ _ hN hw
    have htgt : vtarget p = (p.vwrite_index_ + 1) % p.N_VFRAME := by
      unfold vtarget
      rw [if_pos hE]
    have ht : (p.vwrite_index_ + 1) % p.N_VFRAME < p.N_VFRAME := Nat.mod_lt _ (by omega)
    rw [fill_video_frame_eq, htgt]
    obtain ⟨-, hst, hother, hsucc, -, hgood⟩ := fill_video_at_spec p _ buf status ht
    rw [hother _ (Ne.symm hne)]
    exact ⟨hE, rfl, hne, hother, hst, hgood, fun hok => (hsucc hok).1⟩
  · intro hN hE
    have hw : p.awrite_index_ < p.N_AFRAME := lt_length_of_status_EOS _ _ hE
    have hne := succ_mod_ne _ _ hN hw
    have htgt : atarget p = (p.awrite_index_ + 1) % p.N_AFRAME := by
      unfold atarget
      rw [if_pos hE]
    have ht : (p.awrite_index_ + 1) % p.N_AFRAME < p.N_AFRAME := Nat.mod_lt _ (by omega)
    rw [fill_audio_frame_eq, htgt]
    obtain ⟨-, hst, hother, hsucc, -, hgood⟩ := fill_audio_at_spec p _ buf status ht
    rw [hother _ (Ne.symm hne)]
    exact ⟨hE, rfl, hne, hother, hst, hgood, fun hok => (hsucc hok).1⟩

/-- Witness of C9: a sample filled while slot 0 of each ring of `eos_pending_player`
holds an EOS goes to slot 1. -/
theorem fill_frame_skips_unread_eos_witness :
    (2 ≤ eos_pending_player.N_VFRAME
      ∧ (eos_pending_player.vframe_.getD eos_pending_player.vwrite_index_ {}).status
          = FrameStatus.EOS
      ∧ ((fill_video_frame eos_pending_player (some good_buffer) FrameStatus.SAMPLE).2.vframe_.getD
          eos_pending_player.vwrite_index_ {}).status = FrameStatus.EOS
      ∧ ((fill_video_frame eos_pending_player (some good_buffer) FrameStatus.SAMPLE).2.vframe_.getD
          ((eos_pending_player.vwrite_index_ + 1) % eos_pending_player.N_VFRAME) {}).status
          = filled_status (some good_buffer) FrameStatus.SAMPLE)
    ∧ (2 ≤ eos_pending_player.N_AFRAME
      ∧ (eos_pending_player.aframe_.getD eos_pending_player.awrite_index_ {}).status
          = FrameStatus.EOS
      ∧ ((fill_audio_frame eos_pending_player (some good_buffer) FrameStatus.SAMPLE).2.aframe_.getD
          eos_pending_player.awrite_index_ {}).status = FrameStatus.EOS
      ∧ ((fill_audio_frame eos_pending_player (some good_buffer) FrameStatus.SAMPLE).2.aframe_.getD
          ((eos_pending_player.awrite_index_ + 1) % eos_pending_player.N_AFRAME) {}).status
          = filled_status (some good_buffer) FrameStatus.SAMPLE) :=
  have hv := (fill_frame_skips_unread_eos eos_pending_player (some good_buffer)
    FrameStatus.SAMPLE).1 (by decide) (by decide)
  have ha := (fill_frame_skips_unread_eos eos_pending_player (some good_buffer)
    FrameStatus.SAMPLE).2 (by decide) (by decide)
  ⟨⟨by decide, by decide, hv.1, hv.2.2.2.2.1⟩, ⟨by decide, by decide, ha.1, ha.2.2.2.2.1⟩⟩

/-! ## C10: the guard against overwriting an unread EOS -/

/-- A fill call that does not leave `INVALID` in its slot succeeded. -/
theorem fill_video_at_ok (p : MediaPlayer α) (w : Nat) (buf : Option GstBuffer)
    (status : FrameStatus) (hw : w < p.N_VFRAME)
    (h : filled_status buf status ≠ FrameStatus.INVALID) :
    (fill_video_at p w buf status).1 = true := by
  by_contra hf
  have hf2 : (fill_video_at p w buf status).1 = false := by simpa using hf
  exact h ((fill_video_at_spec p w buf status hw).2.2.2.2.1 hf2).2.2

/-- A fill call whose write slot `w` holds no EOS writes slot `w` and moves on. -/
theorem fill_video_frame_step (p : MediaPlayer α) (buf : Option GstBuffer)
    (status : FrameStatus) (w : Nat) (hwi : p.vwrite_index_ = w) (hw : w < p.N_VFRAME)
    (hne : (p.vframe_.getD w {}).status ≠ FrameStatus.EOS)
    (hfs : filled_status buf status ≠ FrameStatus.INVALID) :
    (fill_video_frame p buf status).2.N_VFRAME = p.N_VFRAME
    ∧ (fill_video_frame p buf status).2.vwrite_index_ = (w + 1) % p.N_VFRAME
    ∧ ((fill_video_frame p buf status).2.vframe_.getD w {}).status = filled_status buf status
    ∧ ∀ i, i ≠ w → (fill_video_frame p buf status).2.vframe_.getD i {} = p.vframe_.getD i {} := by
  have ht : vtarget p = w := by
    unfold vtarget
    rw [hwi, if_neg hne]
  rw [fill_video_frame_eq, ht]
  obtain ⟨hN, hst, hoth, hsucc, -, -⟩ := fill_video_at_spec p w buf status hw
  exact ⟨hN, (hsucc (fill_video_at_ok p w buf status hw hfs)).2.1, hst, hoth⟩

theorem init_getD (nv na i : Nat) :
    ((MediaPlayer.init nv na : MediaPlayer α).vframe_.getD i {}) = {} := by
  simp [MediaPlayer.init, List.getD_eq_getElem?_getD, List.getElem?_replicate]
  split_ifs <;> rfl

/-- The state after two end-of-stream markers and `k ≤ n` samples in a ring of `n + 2`
slots: slots 0 and 1 hold the markers, the slots from `k + 2` on are still
empty, and the write index is `(k + 2) mod (n + 2)`. -/
theorem two_eos_then_samples_inv (n na k : Nat) (hk : k ≤ n) :
    (two_eos_then_samples (n + 2) na k : MediaPlayer α).N_VFRAME = n + 2
    ∧ (two_eos_then_samples (n + 2) na k : MediaPlayer α).vwrite_index_ = (k + 2) % (n + 2)
    ∧ ((two_eos_then_samples (n + 2) na k : MediaPlayer α).vframe_.getD 0 {}).status
        = FrameStatus.EOS
    ∧ ((two_eos_then_samples (n + 2) na k : MediaPlayer α).vframe_.getD 1 {}).status
        = FrameStatus.EOS
    ∧ ∀ i, k + 2 ≤ i →
        (two_eos_then_samples (n + 2) na k : MediaPlayer α).vframe_.getD i {} = {} := by
  induction k with
  | zero =>
    have hN0 : (MediaPlayer.init (n + 2) na : MediaPlayer α).N_VFRAME = n + 2 := by
      simp [MediaPlayer.N_VFRAME, MediaPlayer.init]
    -- first marker, in slot 0
    obtain ⟨hN1, hw1, hs1, ho1⟩ := fill_video_frame_step
      (MediaPlayer.init (n + 2) na : MediaPlayer α) none FrameStatus.EOS 0 rfl
      (by rw [hN0]; omega) (by rw [init_getD]; decide) (by decide)
    rw [hN0] at hN1 hw1
    rw [Nat.mod_eq_of_lt (by omega : 0 + 1 < n + 2)] at hw1
    -- second marker, in slot 1
    obtain ⟨hN2, hw2, hs2, ho2⟩ := fill_video_frame_step
      (fill_video_frame (MediaPlayer.init (n + 2) na : MediaPlayer α) none FrameStatus.EOS).2
      none FrameStatus.EOS 1 hw1 (by rw [hN1]; omega)
      (by rw [ho1 1 (by omega), init_getD]; decide) (by decide)
    rw [hN1] at hN2 hw2
    refine ⟨hN2, hw2, ?_, hs2, ?_⟩
    · show ((fill_video_frame (fill_video_frame _ none FrameStatus.EOS).2 none
        FrameStatus.EOS).2.vframe_.getD 0 {}).status = FrameStatus.EOS
      rw [ho2 0 (by omega)]
      exact hs1
    · intro i hi
      show (fill_video_frame (fill_video_frame _ none FrameStatus.EOS).2 none
        FrameStatus.EOS).2.vframe_.getD i {} = {}
      rw [ho2 i (by omega), ho1 i (by omega), init_getD]
  | succ k ih =>
    obtain ⟨hN, hw, h0, h1, hrest⟩ := ih (by omega)
    rw [Nat.mod_eq_of_lt (by omega : k + 2 < n + 2)] at hw
    obtain ⟨hN', hw', -, ho'⟩ := fill_video_frame_step
      (two_eos_then_samples (n + 2) na k : MediaPlayer α) (some good_buffer) FrameStatus.SAMPLE
      (k + 2) hw (by rw [hN]; omega) (by rw [hrest _ (le_refl _)]; decide) (by decide)
    rw [hN] at hN' hw'
    refine ⟨hN', hw', ?_, ?_, ?_⟩
    · show ((fill_video_frame _ (some good_buffer) FrameStatus.SAMPLE).2.vframe_.getD 0 {}).status
        = FrameStatus.EOS
      rw [ho' 0 (by omega)]
      exact h0
    · show ((fill_video_frame _ (some good_buffer) FrameStatus.SAMPLE).2.vframe_.getD 1 {}).status
        = FrameStatus.EOS
      rw [ho' 1 (by omega)]
      exact h1
    · intro i hi
      show (fill_video_frame _ (some good_buffer) FrameStatus.SAMPLE).2.vframe_.getD i {} = {}
      rw [ho' i (by omega)]
      exact hrest i (by omega)

/-- C10 (defect): an unread EOS is overwritten.  In a freshly constructed player whose
video ring has `n + 2` slots, the producer writes two end-of-stream markers (slots
0 and 1) and then `n` samples, which brings the write index back to slot 0.  The
next sample finds the EOS of slot 0, steps over it once, and lands on slot 1:
the status of slot 1 goes from EOS to SAMPLE although no consumer tick read it. -/
theorem unread_eos_overwritten (n na : Nat) :
    ((two_eos_then_samples (n + 2) na n : MediaPlayer α).vframe_.getD 1 {}).status
      = FrameStatus.EOS
    ∧ ((fill_video_frame (two_eos_then_samples (n + 2) na n : MediaPlayer α)
          (some good_buffer) FrameStatus.SAMPLE).2.vframe_.getD 1 {}).status
      = FrameStatus.SAMPLE := by
  obtain ⟨hN, hw, h0, h1, -⟩ := @two_eos_then_samples_inv α _ n na n (le_refl n)
  refine ⟨h1, ?_⟩
  rw [Nat.mod_self] at hw
  have ht : vtarget (two_eos_then_samples (n + 2) na n : MediaPlayer α) = 1 := by
    unfold vtarget
    rw [hw, if_pos h0, hN]
    exact Nat.mod_eq_of_lt (by omega)
  rw [fill_video_frame_eq, ht]
  rw [(fill_video_at_spec _ 1 (some good_buffer) FrameStatus.SAMPLE (by rw [hN]; omega)).2.1]
  decide

/-! ## C11 - C12: rejected buffers and the end-of-stream marker -/

/-- A buffer that fails to map or has the wrong format makes `fill_video_frame` fail. -/
theorem fill_video_at_rejects (p : MediaPlayer α) (w : Nat) (b : GstBuffer) (status : FrameStatus)
    (hbad : b.maps = false ∨ b.format_ok = false) :
    (fill_video_at p w (some b) status).1 = false
    ∧ filled_status (some b) status = FrameStatus.INVALID := by
  unfold fill_video_at filled_status
  rcases hbad with h | h
  · simp [h]
  · cases hm : b.maps <;> simp [h, hm]

/-- A buffer that fails to map or has the wrong format makes `fill_audio_frame` fail. -/
theorem fill_audio_at_rejects (p : MediaPlayer α) (w : Nat) (b : GstBuffer) (status : FrameStatus)
    (hbad : b.maps = false ∨ b.format_ok = false) :
    (fill_audio_at p w (some b) status).1 = false := by
  unfold fill_audio_at
  rcases hbad with h | h
  · simp [h]
  · cases hm : b.maps <;> simp [h, hm]

/-- The slot written for the null buffer. -/
theorem fill_video_at_null (p : MediaPlayer α) (w : Nat) (status : FrameStatus)
    (hw : w < p.N_VFRAME) :
    (fill_video_at p w none status).2.vframe_.getD w {} =
      { status := FrameStatus.EOS, full := false,
        position := if p.rate_ > 0 then p.timeline_.end_ else p.timeline_.begin } := by
  unfold MediaPlayer.N_VFRAME at hw
  simp [fill_video_at, getD_set_self, hw, Frame.unmap]

/-- The slot written for the null buffer. -/
theorem fill_audio_at_null (p : MediaPlayer α) (w : Nat) (status : FrameStatus)
    (hw : w < p.N_AFRAME) :
    (fill_audio_at p w none status).2.aframe_.getD w {} =
      { status := FrameStatus.EOS, full := (p.aframe_.getD w {}).full,
        position := if p.rate_ > 0 then p.timeline_.end_ else p.timeline_.begin } := by
  unfold MediaPlayer.N_AFRAME at hw
  simp [fill_audio_at, getD_set_self, hw]

/-- C12: in both rings, for a write index inside the ring, a fill call with the null
buffer succeeds whatever the status argument is, and the slot it writes gets the
status EOS and the position timeline end when `rate > 0`, timeline begin when
`rate < 0`. -/
theorem fill_frame_null_buffer_is_eos (p : MediaPlayer α) (status : FrameStatus) :
    (p.vwrite_index_ < p.N_VFRAME →
      (fill_video_frame p none status).1 = true
      ∧ (fill_video_frame p none status).2.vlast_index_ = vtarget p
      ∧ ((fill_video_frame p none status).2.vframe_.getD (vtarget p) {}).status = FrameStatus.EOS
      ∧ (p.rate_ > 0 →
          ((fill_video_frame p none status).2.vframe_.getD (vtarget p) {}).position
            = p.timeline_.end_)
      ∧ (p.rate_ < 0 →
          ((fill_video_frame p none status).2.vframe_.getD (vtarget p) {}).position
            = p.timeline_.begin))
    ∧ (p.awrite_index_ < p.N_AFRAME →
      (fill_audio_frame p none status).1 = true
      ∧ (fill_audio_frame p none status).2.alast_index_ = atarget p
      ∧ ((fill_audio_frame p none status).2.aframe_.getD (atarget p) {}).status = FrameStatus.EOS
      ∧ (p.rate_ > 0 →
          ((fill_audio_frame p none status).2.aframe_.getD (atarget p) {}).position
            = p.timeline_.end_)
      ∧ (p.rate_ < 0 →
          ((fill_audio_frame p none status).2.aframe_.getD (atarget p) {}).position
            = p.timeline_.begin)) := by
  constructor
  · intro hw
    have ht := vtarget_lt p hw
    rw [fill_video_frame_eq, fill_video_at_null p _ status ht]
    refine ⟨rfl, rfl, rfl, ?_, ?_⟩
    · intro hr
      simp [hr]
    · intro hr
      simp [not_lt.mpr hr.le]
  · intro hw
    have ht := atarget_lt p hw
    rw [fill_audio_frame_eq, fill_audio_at_null p _ status ht]
    refine ⟨rfl, rfl, rfl, ?_, ?_⟩
    · intro hr
      simp [hr]
    · intro hr
      simp [not_lt.mpr hr.le]

/-- Witness of C12: an end-of-stream written with the status argument SAMPLE while
playing backward gets the position timeline begin. -/
theorem fill_frame_null_buffer_is_eos_witness :
    (reverse_player.vwrite_index_ < reverse_player.N_VFRAME
      ∧ reverse_player.rate_ < 0
      ∧ ((fill_video_frame reverse_player none FrameStatus.SAMPLE).2.vframe_.getD
          (vtarget reverse_player) {}).status = FrameStatus.EOS
      ∧ ((fill_video_frame reverse_player none FrameStatus.SAMPLE).2.vframe_.getD
          (vtarget reverse_player) {}).position = reverse_player.timeline_.begin)
    ∧ (demo_player.awrite_index_ < demo_player.N_AFRAME
      ∧ demo_player.rate_ > 0
      ∧ ((fill_audio_frame demo_player none FrameStatus.SAMPLE).2.aframe_.getD
          (atarget demo_player) {}).status = FrameStatus.EOS
      ∧ ((fill_audio_frame demo_player none FrameStatus.SAMPLE).2.aframe_.getD
          (atarget demo_player) {}).position = demo_player.timeline_.end_) :=
  have hv := (fill_frame_null_buffer_is_eos reverse_player FrameStatus.SAMPLE).1 (by decide)
  have ha := (fill_frame_null_buffer_is_eos demo_player FrameStatus.SAMPLE).2 (by decide)
  ⟨⟨by decide, by decide, hv.2.2.1, hv.2.2.2.2 (by decide)⟩,
   ⟨by decide, by decide, ha.2.2.1, ha.2.2.2.1 (by decide)⟩⟩

/-! ## Lemmas on the controller and the tick -/

/-- The seek command changes the pipeline and `seeking_` only. -/
theorem execute_seek_command_frame (p : MediaPlayer α) (t : GstClockTime) :
    ∃ pl s, execute_seek_command p t = { p with pipeline_ := pl, seeking_ := s } := by
  by_cases hearly : p.pipeline_ = none ∨ p.media_.seekable = false ∨
      (t ≠ GST_CLOCK_TIME_NONE ∧ ABS_DIFF t p.position_ < p.timeline_.step)
  · exact ⟨p.pipeline_, p.seeking_, execute_seek_command_early p t hearly⟩
  · simp only [not_or] at hearly
    obtain ⟨h1, h2, h3⟩ := hearly
    obtain ⟨pl, hpl⟩ := Option.ne_none_iff_exists'.mp h1
    have hs : p.media_.seekable = true := by simpa using h2
    by_cases hr : p.rate_ = 0
    · exact ⟨p.pipeline_, true, execute_seek_command_rate_zero p t pl hpl hs h3 hr⟩
    · exact ⟨_, _, execute_seek_command_sends p t pl hpl hs h3 hr⟩

/-- The seek command keeps a pipeline when there is one. -/
theorem execute_seek_command_pipeline (p : MediaPlayer α) (t : GstClockTime) (pl : Pipeline α)
    (hpl : p.pipeline_ = some pl) :
    ∃ pl2, (execute_seek_command p t).pipeline_ = some pl2 := by
  by_cases hearly : p.pipeline_ = none ∨ p.media_.seekable = false ∨
      (t ≠ GST_CLOCK_TIME_NONE ∧ ABS_DIFF t p.position_ < p.timeline_.step)
  · exact ⟨pl, by rw [execute_seek_command_early p t hearly, hpl]⟩
  · simp only [not_or] at hearly
    obtain ⟨-, h2, h3⟩ := hearly
    have hs : p.media_.seekable = true := by simpa using h2
    by_cases hr : p.rate_ = 0
    · exact ⟨pl, by rw [execute_seek_command_rate_zero p t pl hpl hs h3 hr]; exact hpl⟩
    · exact ⟨_, by rw [execute_seek_command_sends p t pl hpl hs h3 hr]⟩

/-- A seek changes the pipeline and `seeking_` only. -/
theorem seek_frame (p : MediaPlayer α) (pos : GstClockTime) :
    ∃ pl s, seek p pos = { p with pipeline_ := pl, seeking_ := s } := by
  unfold seek
  split_ifs
  · exact ⟨p.pipeline_, p.seeking_, rfl⟩
  · exact execute_seek_command_frame p _

/-- A rewind changes the pipeline and `seeking_` only. -/
theorem rewind_default_frame (p : MediaPlayer α) :
    ∃ pl s, rewind_default p = { p with pipeline_ := pl, seeking_ := s } := by
  unfold rewind_default
  split_ifs
  · exact ⟨p.pipeline_, p.seeking_, rfl⟩
  · exact execute_seek_command_frame p _
  · exact execute_seek_command_frame p _

/-- A rewind keeps a pipeline when there is one. -/
theorem rewind_default_pipeline (p : MediaPlayer α) (pl : Pipeline α)
    (hpl : p.pipeline_ = some pl) :
    ∃ pl2, (rewind_default p).pipeline_ = some pl2 := by
  unfold rewind_default
  split_ifs
  · exact ⟨pl, hpl⟩
  · exact execute_seek_command_pipeline p _ pl hpl
  · exact execute_seek_command_pipeline p _ pl hpl

/-- The method `play` as a chain of its guards, the optional rewind and the state change. -/
theorem play_eq (p : MediaPlayer α) (on_ : Bool) :
    play p on_ =
      if !p.enabled_ || p.media_.isimage then p
      else if p.desired_state_ = (if on_ then GstState.PLAYING else GstState.PAUSED) then p
      else match p.pipeline_ with
        | none => { p with desired_state_ := if on_ then GstState.PLAYING else GstState.PAUSED }
        | some _ =>
          apply_desired_state
            (if (if on_ then GstState.PLAYING else GstState.PAUSED) = GstState.PLAYING ∧
                at_loop_boundary p
             then rewind_default
               { p with desired_state_ := if on_ then GstState.PLAYING else GstState.PAUSED }
             else { p with desired_state_ := if on_ then GstState.PLAYING else GstState.PAUSED }) :=
  rfl

theorem controller_only_refl (p : MediaPlayer α) : controller_only p p := by
  simp [controller_only]

theorem controller_only_trans (p q r : MediaPlayer α) (h1 : controller_only p q)
    (h2 : controller_only q r) : controller_only p r := by
  unfold controller_only at *
  obtain ⟨a1, a2, a3, a4, a5, a6, a7, a8, a9, a10, a11, a12, a13, a14, a15, a16, a17, a18⟩ := h1
  obtain ⟨b1, b2, b3, b4, b5, b6, b7, b8, b9, b10, b11, b12, b13, b14, b15, b16, b17, b18⟩ := h2
  exact ⟨b1.trans a1, b2.trans a2, b3.trans a3, b4.trans a4, b5.trans a5, b6.trans a6,
    b7.trans a7, b8.trans a8, b9.trans a9, b10.trans a10, b11.trans a11, b12.trans a12,
    b13.trans a13, b14.trans a14, b15.trans a15, b16.trans a16, b17.trans a17, b18.trans a18⟩

theorem controller_only_execute_seek_command (p : MediaPlayer α) (t : GstClockTime) :
    controller_only p (execute_seek_command p t) := by
  obtain ⟨pl, s, h⟩ := execute_seek_command_frame p t
  rw [h]
  simp [controller_only]

theorem controller_only_seek (p : MediaPlayer α) (pos : GstClockTime) :
    controller_only p (seek p pos) := by
  obtain ⟨pl, s, h⟩ := seek_frame p pos
  rw [h]
  simp [controller_only]

theorem controller_only_rewind_default (p : MediaPlayer α) :
    controller_only p (rewind_default p) := by
  obtain ⟨pl, s, h⟩ := rewind_default_frame p
  rw [h]
  simp [controller_only]

theorem controller_only_apply_desired_state (p : MediaPlayer α) :
    controller_only p (apply_desired_state p) := by
  unfold apply_desired_state
  split
  · exact controller_only_refl p
  · dsimp only
    split_ifs <;> simp [controller_only]

theorem controller_only_play (p : MediaPlayer α) (on_ : Bool) :
    controller_only p (play p on_) := by
  rw [play_eq]
  generalize (if on_ = true then GstState.PLAYING else GstState.PAUSED) = req
  by_cases h1 : (!p.enabled_ || p.media_.isimage) = true
  · rw [if_pos h1]
    exact controller_only_refl p
  · rw [if_neg h1]
    by_cases h2 : p.desired_state_ = req
    · rw [if_pos h2]
      exact controller_only_refl p
    · rw [if_neg h2]
      split
      · simp [controller_only]
      · by_cases h3 : req = GstState.PLAYING ∧ at_loop_boundary p
        · rw [if_pos h3]
          refine controller_only_trans _ _ _ ?_ (controller_only_apply_desired_state _)
          refine controller_only_trans _ _ _ ?_ (controller_only_rewind_default _)
          simp [controller_only]
        · rw [if_neg h3]
          refine controller_only_trans _ _ _ ?_ (controller_only_apply_desired_state _)
          simp [controller_only]

theorem controller_only_execute_loop_command (p : MediaPlayer α) :
    controller_only p (execute_loop_command p) := by
  unfold execute_loop_command
  split_ifs
  · exact controller_only_rewind_default p
  · refine controller_only_trans _ _ _ ?_ (controller_only_execute_seek_command _ _)
    simp [controller_only]
  · exact controller_only_play p false

/-- The seek decision of a tick that starts while a seek is outstanding. -/
theorem update_decide_seeking (p : MediaPlayer α) (nl : Bool) (hs : p.seeking_ = true) :
    update_decide p nl = some ({ p with seeking_ := false }, nl) := by
  simp [update_decide, hs]

/-- The seek decision of a tick whose position lies in a valid gap. -/
theorem update_decide_gap (p : MediaPlayer α) (nl : Bool) (gap : TimeInterval)
    (hs : p.seeking_ = false) (hpos : p.position_ ≠ GST_CLOCK_TIME_NONE)
    (hgap : p.timeline_.getGapAt p.position_ = some gap) (hvalid : gap.is_valid = true)
    (hstep : p.timeline_.step ≠ 0) :
    update_decide p nl =
      if tick_jump p gap > p.timeline_.first ∧ tick_jump p gap < p.timeline_.last
      then some (seek p (tick_jump p gap), nl) else some (p, true) := by
  simp [update_decide, hs, hpos, hgap, hvalid, hstep]

/-- The seek decision of a tick whose position is unknown or lies in no valid gap. -/
theorem update_decide_no_gap (p : MediaPlayer α) (nl : Bool)
    (hs : p.seeking_ = false)
    (h : p.position_ = GST_CLOCK_TIME_NONE ∨ p.timeline_.getGapAt p.position_ = none
      ∨ ∃ gap, p.timeline_.getGapAt p.position_ = some gap ∧ gap.is_valid = false) :
    update_decide p nl = some (p, nl) := by
  rcases h with h | h | ⟨gap, h, hv⟩
  · simp [update_decide, hs, h]
  · simp [update_decide, hs, h]
  · simp [update_decide, hs, h, hv]

/-- The seek decision of the tick changes the pipeline and `seeking_` only. -/
theorem update_decide_frame (p : MediaPlayer α) (nl : Bool) (q : MediaPlayer α) (l : Bool)
    (h : update_decide p nl = some (q, l)) :
    ∃ pl s, q = { p with pipeline_ := pl, seeking_ := s } := by
  cases hs : p.seeking_ with
  | true =>
    rw [update_decide_seeking p nl hs] at h
    simp only [Option.some.injEq, Prod.mk.injEq] at h
    exact ⟨_, _, h.1.symm⟩
  | false =>
    by_cases hg : p.position_ = GST_CLOCK_TIME_NONE ∨ p.timeline_.getGapAt p.position_ = none
      ∨ ∃ gap, p.timeline_.getGapAt p.position_ = some gap ∧ gap.is_valid = false
    · rw [update_decide_no_gap p nl hs hg] at h
      simp only [Option.some.injEq, Prod.mk.injEq] at h
      exact ⟨p.pipeline_, p.seeking_, h.1.symm⟩
    · simp only [not_or, not_exists, not_and] at hg
      obtain ⟨hpos, hne, hval⟩ := hg
      obtain ⟨gap, hgap⟩ := Option.ne_none_iff_exists'.mp hne
      have hvalid : gap.is_valid = true := by simpa using hval gap hgap
      by_cases hstep : p.timeline_.step = 0
      · simp [update_decide, hs, hpos, hgap, hvalid, hstep] at h
      · rw [update_decide_gap p nl gap hs hpos hgap hvalid hstep] at h
        split_ifs at h
        · simp only [Option.some.injEq, Prod.mk.injEq] at h
          obtain ⟨pl, s, hsk⟩ := seek_frame p (tick_jump p gap)
          exact ⟨pl, s, h.1.symm.trans hsk⟩
        · simp only [Option.some.injEq, Prod.mk.injEq] at h
          exact ⟨p.pipeline_, p.seeking_, h.1.symm⟩

/-- With a positive step the seek decision of the tick is defined. -/
theorem update_decide_defined (p : MediaPlayer α) (nl : Bool) (hstep : p.timeline_.step ≠ 0) :
    ∃ q l, update_decide p nl = some (q, l) := by
  unfold update_decide
  split_ifs
  · exact ⟨_, _, rfl⟩
  · split
    · split_ifs <;> exact ⟨_, _, rfl⟩
    · exact ⟨_, _, rfl⟩
  · exact ⟨_, _, rfl⟩

theorem update_manage_eq (p : MediaPlayer α) (nl : Bool) :
    update_manage p nl =
      match update_decide p nl with
      | none => none
      | some (q, l) => if l then some (execute_loop_command q) else some q := rfl

/-- A tick that runs its slot passes is the two passes followed by the seek and loop
decisions. -/
theorem update_of_runs_passes (p : MediaPlayer α) (env : OpenEnv α)
    (h : runs_passes p = true) :
    update p env = update_manage (update_passes p).1 (update_passes p).2 := by
  unfold runs_passes at h
  simp only [Bool.and_eq_true, Bool.not_eq_true', Bool.and_eq_false_imp] at h
  obtain ⟨⟨⟨h1, h2⟩, h3⟩, h4⟩ := h
  unfold update update_passes
  have h5 : (p.media_.isimage && p.VMat.isSome) = false := by
    cases hi : p.media_.isimage
    · rfl
    · simpa using h4 hi
  simp only [h1, h2, h3, h5]
  rfl

/-- With a positive step the seek and loop decisions of the tick are defined, and they
change the controller fields only. -/
theorem update_manage_controller_only (p : MediaPlayer α) (nl : Bool)
    (hstep : p.timeline_.step ≠ 0) :
    ∃ q, update_manage p nl = some q ∧ controller_only p q := by
  obtain ⟨q0, l, hd⟩ := update_decide_defined p nl hstep
  obtain ⟨pl, s, hq0⟩ := update_decide_frame p nl q0 l hd
  have h0 : controller_only p q0 := by
    rw [hq0]
    simp [controller_only]
  rw [update_manage_eq, hd]
  cases l with
  | true =>
    exact ⟨_, rfl, controller_only_trans _ _ _ h0 (controller_only_execute_loop_command q0)⟩
  | false => exact ⟨_, rfl, h0⟩

/-- A slot with unread content lies inside the ring. -/
theorem lt_length_of_status_ne_INVALID (l : List Frame) (i : Nat)
    (h : (l.getD i {}).status ≠ FrameStatus.INVALID) : i < l.length := by
  by_contra hlt
  rw [List.getD_eq_getElem?_getD, List.getElem?_eq_none (by omega)] at h
  simp at h

/-- The video pass on an empty slot does nothing. -/
theorem update_video_idle (p : MediaPlayer α) (h : (vread p).status = FrameStatus.INVALID) :
    update_video p = (p, false) := by
  unfold vread at h
  unfold update_video
  dsimp only
  rw [if_neg (not_not.mpr h)]

/-- The audio pass on an empty slot does nothing. -/
theorem update_audio_idle (p : MediaPlayer α) (nl : Bool)
    (h : (aread p).status = FrameStatus.INVALID) :
    update_audio p nl = (p, nl) := by
  unfold aread at h
  unfold update_audio
  dsimp only
  rw [if_neg (not_not.mpr h)]

/-- What the video pass does: the slot read is left empty, and unmapped when it held a
frame; the position is the one of the slot when it had unread content; the loop
is needed for an EOS; the audio ring, the timeline and the controller fields
are untouched. -/
theorem update_video_spec (p : MediaPlayer α) :
    ((update_video p).1.vframe_.getD p.vlast_index_ {}).status = FrameStatus.INVALID
    ∧ ((vread p).status ≠ FrameStatus.INVALID → (vread p).status ≠ FrameStatus.EOS →
        ((update_video p).1.vframe_.getD p.vlast_index_ {}).full = false)
    ∧ (update_video p).1.position_ =
        (if (vread p).status ≠ FrameStatus.INVALID then (vread p).position else p.position_)
    ∧ (update_video p).2 = decide ((vread p).status = FrameStatus.EOS)
    ∧ (update_video p).1.vlast_index_ = p.vlast_index_
    ∧ (update_video p).1.aframe_ = p.aframe_
    ∧ (update_video p).1.alast_index_ = p.alast_index_
    ∧ (update_video p).1.timeline_ = p.timeline_
    ∧ (update_video p).1.seeking_ = p.seeking_
    ∧ (update_video p).1.rate_ = p.rate_
    ∧ (update_video p).1.desired_state_ = p.desired_state_
    ∧ (update_video p).1.pipeline_ = p.pipeline_
    ∧ (update_video p).1.media_ = p.media_
    ∧ (update_video p).1.loop_ = p.loop_
    ∧ (update_video p).1.enabled_ = p.enabled_
    ∧ (update_video p).1.failed_ = p.failed_
    ∧ (update_video p).1.opened_ = p.opened_ := by
  by_cases h : (vread p).status = FrameStatus.INVALID
  · rw [update_video_idle p h]
    refine ⟨h, fun h1 => absurd h h1, ?_, ?_, rfl, rfl, rfl, rfl, rfl, rfl, rfl, rfl, rfl, rfl,
      rfl, rfl, rfl⟩
    · rw [if_neg (not_not.mpr h)]
    · rw [h]
      rfl
  · have hlt := lt_length_of_status_ne_INVALID _ _ h
    rw [if_pos h]
    unfold vread at h ⊢
    unfold update_video
    dsimp only
    rw [if_pos h]
    by_cases hE : (p.vframe_.getD p.vlast_index_ {}).status = FrameStatus.EOS
    · rw [if_pos hE]
      dsimp only
      rw [getD_set_self _ _ _ hlt]
      exact ⟨rfl, fun _ h2 => absurd hE h2, rfl, (decide_eq_true hE).symm, rfl, rfl, rfl, rfl, rfl,
        rfl, rfl, rfl, rfl, rfl, rfl, rfl, rfl⟩
    · rw [if_neg hE]
      by_cases hf : (p.vframe_.getD p.vlast_index_ {}).full = true
      · rw [if_pos hf]
        dsimp only
        rw [getD_set_self _ _ _ hlt]
        exact ⟨rfl, fun _ _ => rfl, rfl, (decide_eq_false hE).symm, rfl, rfl, rfl, rfl, rfl,
          rfl, rfl, rfl, rfl, rfl, rfl, rfl, rfl⟩
      · rw [if_neg hf]
        dsimp only
        rw [getD_set_self _ _ _ hlt]
        exact ⟨rfl, fun _ _ => by simpa using hf, rfl, (decide_eq_false hE).symm, rfl, rfl, rfl,
          rfl, rfl, rfl, rfl, rfl, rfl, rfl, rfl, rfl, rfl⟩

/-- What the video pass does to the matrix and the conversion counter: a conversion
happens exactly for a full slot that holds a frame. -/
theorem update_video_matrix (p : MediaPlayer α) :
    (update_video p).1.AMat = p.AMat
    ∧ (update_video p).1.n_fill_audio = p.n_fill_audio
    ∧ (((vread p).status = FrameStatus.INVALID ∨ (vread p).status = FrameStatus.EOS
          ∨ (vread p).full = false) →
        (update_video p).1.VMat = p.VMat ∧ (update_video p).1.n_fill_video = p.n_fill_video)
    ∧ ((vread p).status ≠ FrameStatus.INVALID → (vread p).status ≠ FrameStatus.EOS →
        (vread p).full = true →
        (update_video p).1.VMat = some (vread p).position
        ∧ (update_video p).1.n_fill_video =
            (if (vread p).status = FrameStatus.PREROLL ∨ p.seeking_ = true
             then p.n_fill_video + 2 else p.n_fill_video + 1)) := by
  unfold vread update_video
  dsimp only
  by_cases h : (p.vframe_.getD p.vlast_index_ {}).status = FrameStatus.INVALID
  · rw [if_neg (not_not.mpr h)]
    exact ⟨rfl, rfl, fun _ => ⟨rfl, rfl⟩, fun h1 => absurd h h1⟩
  · rw [if_pos h]
    by_cases hE : (p.vframe_.getD p.vlast_index_ {}).status = FrameStatus.EOS
    · rw [if_pos hE]
      exact ⟨rfl, rfl, fun _ => ⟨rfl, rfl⟩, fun _ h2 => absurd hE h2⟩
    · rw [if_neg hE]
      by_cases hf : (p.vframe_.getD p.vlast_index_ {}).full = true
      · rw [if_pos hf]
        refine ⟨rfl, rfl, ?_, fun _ _ _ => ⟨rfl, rfl⟩⟩
        rintro (h1 | h1 | h1)
        · exact absurd h1 h
        · exact absurd h1 hE
        · rw [hf] at h1
          exact absurd h1 (by decide)
      · rw [if_neg hf]
        exact ⟨rfl, rfl, fun _ => ⟨rfl, rfl⟩, fun _ _ h3 => absurd h3 hf⟩

/-- What the audio pass does: the slot read is left empty, and unmapped when it held a
frame; the position is the one of the slot when it had unread content and no
position was known; the loop is needed for an EOS; the video ring, the timeline
and the controller fields are untouched. -/
theorem update_audio_spec (p : MediaPlayer α) (nl : Bool) :
    ((update_audio p nl).1.aframe_.getD p.alast_index_ {}).status = FrameStatus.INVALID
    ∧ ((aread p).status ≠ FrameStatus.INVALID → (aread p).status ≠ FrameStatus.EOS →
        ((update_audio p nl).1.aframe_.getD p.alast_index_ {}).full = false)
    ∧ (update_audio p nl).1.position_ =
        (if (aread p).status ≠ FrameStatus.INVALID ∧ p.position_ = GST_CLOCK_TIME_NONE
         then (aread p).position else p.position_)
    ∧ (update_audio p nl).2 = (nl || decide ((aread p).status = FrameStatus.EOS))
    ∧ (update_audio p nl).1.alast_index_ = p.alast_index_
    ∧ (update_audio p nl).1.vframe_ = p.vframe_
    ∧ (update_audio p nl).1.vlast_index_ = p.vlast_index_
    ∧ (update_audio p nl).1.timeline_ = p.timeline_
    ∧ (update_audio p nl).1.seeking_ = p.seeking_
    ∧ (update_audio p nl).1.rate_ = p.rate_
    ∧ (update_audio p nl).1.desired_state_ = p.desired_state_
    ∧ (update_audio p nl).1.pipeline_ = p.pipeline_
    ∧ (update_audio p nl).1.media_ = p.media_
    ∧ (update_audio p nl).1.loop_ = p.loop_
    ∧ (update_audio p nl).1.enabled_ = p.enabled_
    ∧ (update_audio p nl).1.failed_ = p.failed_
    ∧ (update_audio p nl).1.opened_ = p.opened_ := by
  by_cases h : (aread p).status = FrameStatus.INVALID
  · rw [update_audio_idle p nl h]
    refine ⟨h, fun h1 => absurd h h1, ?_, ?_, rfl, rfl, rfl, rfl, rfl, rfl, rfl, rfl, rfl, rfl,
      rfl, rfl, rfl⟩
    · rw [if_neg (fun hc => hc.1 h)]
    · rw [h]
      simp
  · have hlt := lt_length_of_status_ne_INVALID _ _ h
    have hpos : (if (aread p).status ≠ FrameStatus.INVALID ∧ p.position_ = GST_CLOCK_TIME_NONE
        then (aread p).position else p.position_)
        = (if p.position_ = GST_CLOCK_TIME_NONE then (aread p).position else p.position_) := by
      by_cases hp : p.position_ = GST_CLOCK_TIME_NONE
      · rw [if_pos ⟨h, hp⟩, if_pos hp]
      · rw [if_neg (fun hc => hp hc.2), if_neg hp]
    rw [hpos]
    unfold aread at h ⊢
    unfold update_audio
    dsimp only
    rw [if_pos h]
    by_cases hE : (p.aframe_.getD p.alast_index_ {}).status = FrameStatus.EOS
    · rw [if_pos hE]
      dsimp only
      rw [getD_set_self _ _ _ hlt]
      exact ⟨rfl, fun _ h2 => absurd hE h2, rfl, by rw [decide_eq_true hE, Bool.or_true], rfl,
        rfl, rfl, rfl, rfl,
        rfl, rfl, rfl, rfl, rfl, rfl, rfl, rfl⟩
    · rw [if_neg hE]
      by_cases hf : (p.aframe_.getD p.alast_index_ {}).full = true
      · rw [if_pos hf]
        dsimp only
        rw [getD_set_self _ _ _ hlt]
        exact ⟨rfl, fun _ _ => rfl, rfl, by rw [decide_eq_false hE, Bool.or_false], rfl, rfl,
          rfl, rfl, rfl,
          rfl, rfl, rfl, rfl, rfl, rfl, rfl, rfl⟩
      · rw [if_neg hf]
        dsimp only
        rw [getD_set_self _ _ _ hlt]
        exact ⟨rfl, fun _ _ => by simpa using hf, rfl,
          by rw [decide_eq_false hE, Bool.or_false], rfl, rfl, rfl,
          rfl, rfl, rfl, rfl, rfl, rfl, rfl, rfl, rfl, rfl⟩

/-- What the audio pass does to the matrix and the conversion counter: a conversion
happens exactly for a full slot that holds a frame. -/
theorem update_audio_matrix (p : MediaPlayer α) (nl : Bool) :
    (update_audio p nl).1.VMat = p.VMat
    ∧ (update_audio p nl).1.n_fill_video = p.n_fill_video
    ∧ (((aread p).status = FrameStatus.INVALID ∨ (aread p).status = FrameStatus.EOS
          ∨ (aread p).full = false) →
        (update_audio p nl).1.AMat = p.AMat
        ∧ (update_audio p nl).1.n_fill_audio = p.n_fill_audio)
    ∧ ((aread p).status ≠ FrameStatus.INVALID → (aread p).status ≠ FrameStatus.EOS →
        (aread p).full = true →
        (update_audio p nl).1.AMat = some (aread p).position
        ∧ (update_audio p nl).1.n_fill_audio =
            (if (aread p).status = FrameStatus.PREROLL ∨ p.seeking_ = true
             then p.n_fill_audio + 2 else p.n_fill_audio + 1)) := by
  unfold aread update_audio
  dsimp only
  by_cases h : (p.aframe_.getD p.alast_index_ {}).status = FrameStatus.INVALID
  · rw [if_neg (not_not.mpr h)]
    exact ⟨rfl, rfl, fun _ => ⟨rfl, rfl⟩, fun h1 => absurd h h1⟩
  · rw [if_pos h]
    by_cases hE : (p.aframe_.getD p.alast_index_ {}).status = FrameStatus.EOS
    · rw [if_pos hE]
      exact ⟨rfl, rfl, fun _ => ⟨rfl, rfl⟩, fun _ h2 => absurd hE h2⟩
    · rw [if_neg hE]
      by_cases hf : (p.aframe_.getD p.alast_index_ {}).full = true
      · rw [if_pos hf]
        refine ⟨rfl, rfl, ?_, fun _ _ _ => ⟨rfl, rfl⟩⟩
        rintro (h1 | h1 | h1)
        · exact absurd h1 h
        · exact absurd h1 hE
        · rw [hf] at h1
          exact absurd h1 (by decide)
      · rw [if_neg hf]
        exact ⟨rfl, rfl, fun _ => ⟨rfl, rfl⟩, fun _ _ h3 => absurd h3 hf⟩

/-- The audio slot read by the audio pass is the one the tick started with. -/
theorem aread_update_video (p : MediaPlayer α) : aread (update_video p).1 = aread p := by
  obtain ⟨-, -, -, -, -, h1, h2, -⟩ := update_video_spec p
  unfold aread
  rw [h1, h2]

/-- The two slot passes: position, loop flag, and the fields they leave alone. -/
theorem update_passes_spec (p : MediaPlayer α) :
    (update_passes p).1.position_ =
        (if (aread p).status ≠ FrameStatus.INVALID ∧
            (if (vread p).status ≠ FrameStatus.INVALID then (vread p).position else p.position_)
              = GST_CLOCK_TIME_NONE
         then (aread p).position
         else (if (vread p).status ≠ FrameStatus.INVALID then (vread p).position
               else p.position_))
    ∧ (update_passes p).2 =
        (decide ((vread p).status = FrameStatus.EOS) || decide ((aread p).status = FrameStatus.EOS))
    ∧ (vread (update_passes p).1).status = FrameStatus.INVALID
    ∧ (aread (update_passes p).1).status = FrameStatus.INVALID
    ∧ (update_passes p).1.vlast_index_ = p.vlast_index_
    ∧ (update_passes p).1.alast_index_ = p.alast_index_
    ∧ (update_passes p).1.timeline_ = p.timeline_
    ∧ (update_passes p).1.seeking_ = p.seeking_
    ∧ (update_passes p).1.rate_ = p.rate_
    ∧ (update_passes p).1.desired_state_ = p.desired_state_
    ∧ (update_passes p).1.pipeline_ = p.pipeline_
    ∧ (update_passes p).1.media_ = p.media_
    ∧ (update_passes p).1.loop_ = p.loop_
    ∧ (update_passes p).1.enabled_ = p.enabled_
    ∧ (update_passes p).1.failed_ = p.failed_
    ∧ (update_passes p).1.opened_ = p.opened_ := by
  obtain ⟨v1, -, v3, v4, v5, v6, v7, v8, v9, v10, v11, v12, v13, v14, v15, v16, v17⟩ :=
    update_video_spec p
  obtain ⟨a1, -, a3, a4, a5, a6, a7, a8, a9, a10, a11, a12, a13, a14, a15, a16, a17⟩ :=
    update_audio_spec (update_video p).1 (update_video p).2
  have hread := aread_update_video p
  unfold update_passes
  refine ⟨?_, ?_, ?_, ?_, a7.trans v5, a5.trans v7, a8.trans v8, a9.trans v9, a10.trans v10,
    a11.trans v11, a12.trans v12, a13.trans v13, a14.trans v14, a15.trans v15, a16.trans v16,
    a17.trans v17⟩
  · rw [a3, hread, v3]
  · rw [a4, hread, v4]
  · unfold vread
    rw [a6, a7, v5]
    exact v1
  · unfold aread
    rw [a5]
    exact a1

/-- A tick that runs its slot passes on a timeline of positive step returns, and after
the passes it changes the controller fields only. -/
theorem update_defined (p : MediaPlayer α) (env : OpenEnv α)
    (hrun : runs_passes p = true) (hstep : p.timeline_.step ≠ 0) :
    ∃ q, update p env = some q ∧ controller_only (update_passes p).1 q := by
  rw [update_of_runs_passes p env hrun]
  apply update_manage_controller_only
  rw [(update_passes_spec p).2.2.2.2.2.2.1]
  exact hstep

/-! ## C14 - C16: the consumer tick -/

/-- Counterexample to C14 as stated: the video slot read is empty, the audio slot read
holds the unread sample of time stamp 7000, and the position 3000 is known from
an earlier tick: the tick leaves the position at 3000. -/
theorem audio_position_not_taken :
    runs_passes audio_pending_player = true
    ∧ (vread audio_pending_player).status = FrameStatus.INVALID
    ∧ (aread audio_pending_player).status = FrameStatus.SAMPLE
    ∧ (aread audio_pending_player).position = 7000
    ∧ audio_pending_player.position_ = 3000
    ∧ (update_passes audio_pending_player).1.position_ = 3000
    ∧ (update audio_pending_player {}).map (fun q => q.position_) = some 3000 := by
  decide

/-- C14 (amended): for a tick that runs its slot passes (timeline step positive): if the
video slot read has unread content and a known position, the position after the
tick is that position whatever the audio slot holds; if the video slot read is
empty and the audio slot read has unread content, the position becomes the audio
slot's position when no position was known before the tick, and a position
known from an earlier tick is kept. -/
theorem tick_position (p : MediaPlayer α) (env : OpenEnv α)
    (hrun : runs_passes p = true) (hstep : p.timeline_.step ≠ 0) :
    ∃ q, update p env = some q
      ∧ q.position_ = (update_passes p).1.position_
      ∧ ((vread p).status ≠ FrameStatus.INVALID → (vread p).position ≠ GST_CLOCK_TIME_NONE →
          q.position_ = (vread p).position)
      ∧ ((vread p).status = FrameStatus.INVALID → (aread p).status ≠ FrameStatus.INVALID →
          p.position_ = GST_CLOCK_TIME_NONE → q.position_ = (aread p).position)
      ∧ ((vread p).status = FrameStatus.INVALID → p.position_ ≠ GST_CLOCK_TIME_NONE →
          q.position_ = p.position_) := by
  obtain ⟨q, hq, hc⟩ := update_defined p env hrun hstep
  have hpos : q.position_ = (update_passes p).1.position_ := hc.2.2.2.1
  refine ⟨q, hq, hpos, ?_, ?_, ?_⟩
  · intro hv hk
    rw [hpos, (update_passes_spec p).1, if_pos hv, if_neg (fun hc2 => hk hc2.2)]
  · intro hv ha hp
    rw [hpos, (update_passes_spec p).1, if_neg (not_not.mpr hv), if_pos ⟨ha, hp⟩]
  · intro hv hp
    rw [hpos, (update_passes_spec p).1, if_neg (not_not.mpr hv), if_neg (fun hc2 => hp hc2.2)]

/-- Witness of C14 (amended): the audio sample of `audio_pending_player`, whose position
3000 is known already. -/
theorem tick_position_witness :
    runs_passes audio_pending_player = true
    ∧ audio_pending_player.timeline_.step ≠ 0
    ∧ ∃ q, update audio_pending_player {} = some q
      ∧ q.position_ = (update_passes audio_pending_player).1.position_
      ∧ ((vread audio_pending_player).status ≠ FrameStatus.INVALID →
          (vread audio_pending_player).position ≠ GST_CLOCK_TIME_NONE →
          q.position_ = (vread audio_pending_player).position)
      ∧ ((vread audio_pending_player).status = FrameStatus.INVALID →
          (aread audio_pending_player).status ≠ FrameStatus.INVALID →
          audio_pending_player.position_ = GST_CLOCK_TIME_NONE →
          q.position_ = (aread audio_pending_player).position)
      ∧ ((vread audio_pending_player).status = FrameStatus.INVALID →
          audio_pending_player.position_ ≠ GST_CLOCK_TIME_NONE →
          q.position_ = audio_pending_player.position_) :=
  ⟨by decide, by decide, tick_position audio_pending_player {} (by decide) (by decide)⟩

/-- Counterexample to C15 as stated: a short clip classified as a still image whose video
matrix is filled is open, enabled and not failed; a tick that starts with
`seeking_` true returns at once and `seeking_` is still true. -/
theorem seeking_not_cleared_on_image :
    seeking_image_player.opened_ = true ∧ seeking_image_player.enabled_ = true
    ∧ seeking_image_player.failed_ = false ∧ seeking_image_player.seeking_ = true
    ∧ (vread seeking_image_player).status ≠ FrameStatus.EOS
    ∧ (aread seeking_image_player).status ≠ FrameStatus.EOS
    ∧ update seeking_image_player {} = some seeking_image_player
    ∧ (update seeking_image_player {}).map (fun q => q.seeking_) = some true := by
  decide

/-- C15 (amended): for a tick that runs its slot passes (player not failed, open, enabled,
and not a still image whose video matrix is filled), starts with `seeking_` true
and reads no EOS slot: the tick returns the state left by the slot passes with
`seeking_` cleared; it sends nothing to the pipeline and runs no loop command
(pipeline, rate and desired state are unchanged), whatever the position. -/
theorem tick_clears_seeking (p : MediaPlayer α) (env : OpenEnv α)
    (hrun : runs_passes p = true) (hseek : p.seeking_ = true)
    (hv : (vread p).status ≠ FrameStatus.EOS) (ha : (aread p).status ≠ FrameStatus.EOS) :
    update p env = some { (update_passes p).1 with seeking_ := false }
    ∧ ∃ q, update p env = some q ∧ q.seeking_ = false ∧ dispatched p q = []
      ∧ q.pipeline_ = p.pipeline_ ∧ q.rate_ = p.rate_ ∧ q.desired_state_ = p.desired_state_
      ∧ q.failed_ = p.failed_ := by
  obtain ⟨-, hnl, -, -, -, -, -, hs, hr, hd, hpl, -, -, -, hf, -⟩ := update_passes_spec p
  have hnl2 : (update_passes p).2 = false := by
    rw [hnl, decide_eq_false hv, decide_eq_false ha]
    rfl
  have hu : update p env = some { (update_passes p).1 with seeking_ := false } := by
    rw [update_of_runs_passes p env hrun, update_manage_eq,
      update_decide_seeking _ _ (hs.trans hseek), hnl2]
    rfl
  refine ⟨hu, _, hu, rfl, ?_, hpl, hr, hd, hf⟩
  simp [dispatched, MediaPlayer.sent, hpl]

/-- Witness of C15 (amended): a tick of `busy_player`, which has a seek outstanding. -/
theorem tick_clears_seeking_witness :
    runs_passes busy_player = true ∧ busy_player.seeking_ = true
    ∧ (vread busy_player).status ≠ FrameStatus.EOS
    ∧ (aread busy_player).status ≠ FrameStatus.EOS
    ∧ update busy_player {} = some { (update_passes busy_player).1 with seeking_ := false } :=
  ⟨by decide, by decide, by decide, by decide,
    (tick_clears_seeking busy_player {} (by decide) (by decide) (by decide) (by decide)).1⟩

/-- C16: for a tick that runs its slot passes, starts with `seeking_` false and reads no
EOS slot, with `s` the state after the slot passes: when the position of `s` is
known and lies in a valid gap (timeline step positive), with `j` the jump target
computed for the gap, the tick is `seek(j)` on `s` and nothing else when
`first < j < last`, and is the loop command on `s`, without any seek for the
gap, otherwise; when the position lies in no gap the tick ends with `s`. -/
theorem tick_gap_decision (p : MediaPlayer α) (env : OpenEnv α)
    (hrun : runs_passes p = true) (hseek : p.seeking_ = false)
    (hv : (vread p).status ≠ FrameStatus.EOS) (ha : (aread p).status ≠ FrameStatus.EOS) :
    (∀ gap, (update_passes p).1.position_ ≠ GST_CLOCK_TIME_NONE →
        p.timeline_.getGapAt (update_passes p).1.position_ = some gap →
        gap.is_valid = true → p.timeline_.step ≠ 0 →
        ((p.timeline_.first < tick_jump (update_passes p).1 gap
            ∧ tick_jump (update_passes p).1 gap < p.timeline_.last →
          update p env = some (seek (update_passes p).1 (tick_jump (update_passes p).1 gap)))
        ∧ (¬ (p.timeline_.first < tick_jump (update_passes p).1 gap
            ∧ tick_jump (update_passes p).1 gap < p.timeline_.last) →
          update p env = some (execute_loop_command (update_passes p).1))))
    ∧ (p.timeline_.getGapAt (update_passes p).1.position_ = none →
        update p env = some (update_passes p).1) := by
  obtain ⟨-, hnl, -, -, -, -, htl, hs, -⟩ := update_passes_spec p
  have hnl2 : (update_passes p).2 = false := by
    rw [hnl, decide_eq_false hv, decide_eq_false ha]
    rfl
  rw [update_of_runs_passes p env hrun, update_manage_eq, hnl2]
  constructor
  · intro gap hpos hgap hvalid hstep
    rw [← htl] at hgap hstep
    rw [update_decide_gap _ _ gap (hs.trans hseek) hpos hgap hvalid hstep, htl]
    constructor
    · intro hj
      rw [if_pos hj]
      rfl
    · intro hj
      rw [if_neg hj]
      rfl
  · intro hgap
    rw [← htl] at hgap
    rw [update_decide_no_gap _ _ (hs.trans hseek) (Or.inr (Or.inl hgap))]
    rfl

/-- Witness of C16: `gap_player` stands at 3000 in the gap `[2000, 5000)`; the jump target
6000 lies between first 0 and last 9000, and the tick is `seek(6000)`. -/
theorem tick_gap_decision_witness :
    runs_passes gap_player = true ∧ gap_player.seeking_ = false
    ∧ (vread gap_player).status ≠ FrameStatus.EOS
    ∧ (aread gap_player).status ≠ FrameStatus.EOS
    ∧ (update_passes gap_player).1.position_ ≠ GST_CLOCK_TIME_NONE
    ∧ gap_player.timeline_.getGapAt (update_passes gap_player).1.position_
        = some { begin := 2000, end_ := 5000 }
    ∧ tick_jump (update_passes gap_player).1 { begin := 2000, end_ := 5000 } = 6000
    ∧ update gap_player {} = some (seek (update_passes gap_player).1
        (tick_jump (update_passes gap_player).1 { begin := 2000, end_ := 5000 })) :=
  ⟨by decide, by decide, by decide, by decide, by decide, by decide, by decide,
    ((tick_gap_decision gap_player {} (by decide) (by decide) (by decide) (by decide)).1
      { begin := 2000, end_ := 5000 } (by decide) (by decide) (by decide) (by decide)).1
      (by decide)⟩

/-- The fields `fill_video_frame` leaves alone. -/
theorem fill_video_at_frame (p : MediaPlayer α) (w : Nat) (buf : Option GstBuffer)
    (status : FrameStatus) :
    (fill_video_at p w buf status).2.failed_ = p.failed_
    ∧ (fill_video_at p w buf status).2.opened_ = p.opened_
    ∧ (fill_video_at p w buf status).2.enabled_ = p.enabled_
    ∧ (fill_video_at p w buf status).2.media_ = p.media_
    ∧ (fill_video_at p w buf status).2.VMat = p.VMat
    ∧ (fill_video_at p w buf status).2.timeline_.step = p.timeline_.step
    ∧ (fill_video_at p w buf status).2.position_ = p.position_
    ∧ (fill_video_at p w buf status).2.aframe_ = p.aframe_
    ∧ (fill_video_at p w buf status).2.alast_index_ = p.alast_index_ := by
  unfold fill_video_at
  cases buf with
  | none => exact ⟨rfl, rfl, rfl, rfl, rfl, rfl, rfl, rfl, rfl⟩
  | some b =>
    dsimp only
    split_ifs <;> exact ⟨rfl, rfl, rfl, rfl, rfl, rfl, rfl, rfl, rfl⟩

/-- The fields `fill_audio_frame` leaves alone. -/
theorem fill_audio_at_frame (p : MediaPlayer α) (w : Nat) (buf : Option GstBuffer)
    (status : FrameStatus) :
    (fill_audio_at p w buf status).2.failed_ = p.failed_
    ∧ (fill_audio_at p w buf status).2.opened_ = p.opened_
    ∧ (fill_audio_at p w buf status).2.enabled_ = p.enabled_
    ∧ (fill_audio_at p w buf status).2.media_ = p.media_
    ∧ (fill_audio_at p w buf status).2.VMat = p.VMat
    ∧ (fill_audio_at p w buf status).2.timeline_.step = p.timeline_.step
    ∧ (fill_audio_at p w buf status).2.position_ = p.position_
    ∧ (fill_audio_at p w buf status).2.vframe_ = p.vframe_
    ∧ (fill_audio_at p w buf status).2.vlast_index_ = p.vlast_index_ := by
  unfold fill_audio_at
  cases buf with
  | none => exact ⟨rfl, rfl, rfl, rfl, rfl, rfl, rfl, rfl, rfl⟩
  | some b =>
    dsimp only
    split_ifs <;> exact ⟨rfl, rfl, rfl, rfl, rfl, rfl, rfl, rfl, rfl⟩

/-- Whether the tick runs its slot passes depends on four fields only. -/
theorem runs_passes_congr (p q : MediaPlayer α) (h1 : q.failed_ = p.failed_)
    (h2 : q.opened_ = p.opened_) (h3 : q.enabled_ = p.enabled_) (h4 : q.media_ = p.media_)
    (h5 : q.VMat = p.VMat) : runs_passes q = runs_passes p := by
  unfold runs_passes
  rw [h1, h2, h3, h4, h5]

/-- A tick that does not run its slot passes on an open player changes nothing. -/
theorem update_skipped (q : MediaPlayer α) (env : OpenEnv α)
    (hopen : q.opened_ = true) (h : runs_passes q = false) :
    update q env = some q := by
  unfold runs_passes at h
  unfold update
  cases hf : q.failed_
  · cases he : q.enabled_
    · simp [hopen]
    · have hi : (q.media_.isimage && q.VMat.isSome) = true := by
        simpa [hf, hopen, he] using h
      simp [hopen, hi]
  · simp

/-- A tick of an open player that finds both slots empty (timeline step positive)
returns, and changes the controller fields only: no conversion, same matrices,
same rings. -/
theorem update_idle (q : MediaPlayer α) (env : OpenEnv α)
    (hopen : q.opened_ = true) (hstep : q.timeline_.step ≠ 0)
    (hv : (vread q).status = FrameStatus.INVALID)
    (ha : (aread q).status = FrameStatus.INVALID) :
    ∃ r, update q env = some r ∧ controller_only q r := by
  cases hrun : runs_passes q
  · exact ⟨q, update_skipped q env hopen hrun, controller_only_refl q⟩
  · obtain ⟨r, hr, hc⟩ := update_defined q env hrun hstep
    have hp : update_passes q = (q, false) := by
      unfold update_passes
      rw [update_video_idle q hv]
      exact update_audio_idle q false ha
    rw [hp] at hc
    exact ⟨r, hr, hc⟩

theorem opened_of_runs_passes (p : MediaPlayer α) (h : runs_passes p = true) :
    p.opened_ = true := by
  unfold runs_passes at h
  simp only [Bool.and_eq_true] at h
  exact h.1.1.2

/-- A tick that runs its slot passes, followed by a second tick without any fill in
between (timeline step positive): both return, the first changes only the
controller fields after its slot passes, the second changes only the controller
fields. -/
theorem update_then_idle (f : MediaPlayer α) (env env2 : OpenEnv α)
    (hrun : runs_passes f = true) (hstep : f.timeline_.step ≠ 0) :
    ∃ q, update f env = some q ∧ controller_only (update_passes f).1 q
      ∧ ∃ r, update q env2 = some r ∧ controller_only q r := by
  obtain ⟨q, hq, hc⟩ := update_defined f env hrun hstep
  refine ⟨q, hq, hc, ?_⟩
  obtain ⟨-, -, hv, ha, -, -, htl, -, -, -, -, -, -, -, -, hop⟩ := update_passes_spec f
  obtain ⟨c1, -, -, -, -, -, c7, -, c9, -, c11, c12, -, c14, -⟩ := hc
  apply update_idle q env2
  · rw [c1, hop]
    exact opened_of_runs_passes f hrun
  · rw [c7, htl]
    exact hstep
  · unfold vread at hv ⊢
    rw [c9, c11]
    exact hv
  · unfold aread at ha ⊢
    rw [c12, c14]
    exact ha

/-! ## C13: consume once -/

/-- Counterexample to C13 as stated.  First, a successful `fill_audio_frame` of a sample
of time stamp 7000 on `demo_player`, whose position 3000 is known, followed by a
tick: the slot is consumed but the position stays 3000.  Second, a successful
`fill_video_frame` on a still image whose video matrix is filled: the tick
returns at once and the slot keeps the status SAMPLE and its mapped buffer. -/
theorem consumed_frame_position_not_reported :
    (runs_passes demo_player = true
      ∧ (fill_audio_frame demo_player (some good_buffer) FrameStatus.SAMPLE).1 = true
      ∧ good_buffer.pts = 7000
      ∧ (update (fill_audio_frame demo_player (some good_buffer) FrameStatus.SAMPLE).2 {}).map
          (fun q => ((q.aframe_.getD 0 {}).status, q.position_))
        = some (FrameStatus.INVALID, 3000))
    ∧ (still_image_player.opened_ = true ∧ still_image_player.enabled_ = true
      ∧ still_image_player.failed_ = false
      ∧ (fill_video_frame still_image_player (some good_buffer) FrameStatus.SAMPLE).1 = true
      ∧ (update (fill_video_frame still_image_player (some good_buffer) FrameStatus.SAMPLE).2 {}).map
          (fun q => q.vframe_.getD 0 {})
        = some { status := FrameStatus.SAMPLE, full := true, position := 7000 }) := by
  decide

/-- C13 (amended): on a player whose tick runs its slot passes (not failed, open, enabled,
not a still image whose video matrix is filled), with a positive timeline step and
write indices inside the rings.  After a successful `fill_video_frame` of a buffer
with status SAMPLE followed by one tick, the slot that was read has status
INVALID and `full = false`, the video matrix holds the frame, and the position
is the frame's time stamp when that is known.  After a successful
`fill_audio_frame` followed by one tick the same holds for the audio slot and
matrix, but the position takes the frame's time stamp only when the video slot
read was empty and no position was known; a known position is kept.  In both
cases a second tick with no fill in between returns, performs no conversion and
leaves the video and audio matrices and both rings unchanged. -/
theorem consume_once (p : MediaPlayer α) (b : GstBuffer) (env env2 : OpenEnv α)
    (hrun : runs_passes p = true) (hstep : p.timeline_.step ≠ 0) :
    (p.vwrite_index_ < p.N_VFRAME →
      (fill_video_frame p (some b) FrameStatus.SAMPLE).1 = true →
      ∃ q, update (fill_video_frame p (some b) FrameStatus.SAMPLE).2 env = some q
        ∧ (q.vframe_.getD (vtarget p) {}).status = FrameStatus.INVALID
        ∧ (q.vframe_.getD (vtarget p) {}).full = false
        ∧ q.VMat = some b.pts
        ∧ (b.pts ≠ GST_CLOCK_TIME_NONE → q.position_ = b.pts)
        ∧ ∃ r, update q env2 = some r
          ∧ r.n_fill_video = q.n_fill_video ∧ r.n_fill_audio = q.n_fill_audio
          ∧ r.VMat = q.VMat ∧ r.AMat = q.AMat
          ∧ r.vframe_ = q.vframe_ ∧ r.aframe_ = q.aframe_)
    ∧ (p.awrite_index_ < p.N_AFRAME →
      (fill_audio_frame p (some b) FrameStatus.SAMPLE).1 = true →
      ∃ q, update (fill_audio_frame p (some b) FrameStatus.SAMPLE).2 env = some q
        ∧ (q.aframe_.getD (atarget p) {}).status = FrameStatus.INVALID
        ∧ (q.aframe_.getD (atarget p) {}).full = false
        ∧ q.AMat = some b.pts
        ∧ ((vread p).status = FrameStatus.INVALID → p.position_ = GST_CLOCK_TIME_NONE →
            q.position_ = b.pts)
        ∧ ((vread p).status = FrameStatus.INVALID → p.position_ ≠ GST_CLOCK_TIME_NONE →
            q.position_ = p.position_)
        ∧ ∃ r, update q env2 = some r
          ∧ r.n_fill_video = q.n_fill_video ∧ r.n_fill_audio = q.n_fill_audio
          ∧ r.VMat = q.VMat ∧ r.AMat = q.AMat
          ∧ r.vframe_ = q.vframe_ ∧ r.aframe_ = q.aframe_) := by
  constructor
  · intro hw hok
    have ht := vtarget_lt p hw
    rw [fill_video_frame_eq] at hok ⊢
    obtain ⟨-, -, -, hsucc, -, hgood⟩ := fill_video_at_spec p (vtarget p) (some b)
      FrameStatus.SAMPLE ht
    obtain ⟨f1, f2, f3, f4, f5, f6, -, -, -⟩ := fill_video_at_frame p (vtarget p) (some b)
      FrameStatus.SAMPLE
    have hslot := hgood b rfl hok
    have hlast := (hsucc hok).1
    generalize (fill_video_at p (vtarget p) (some b) FrameStatus.SAMPLE).2 = f at *
    have hrunf : runs_passes f = true := (runs_passes_congr p f f1 f2 f3 f4 f5).trans hrun
    have hread : vread f = { status := FrameStatus.SAMPLE, full := true, position := b.pts } := by
      unfold vread
      rw [hlast]
      exact hslot
    obtain ⟨q, hq, hc, r, hr, hcr⟩ := update_then_idle f env env2 hrunf (by rw [f6]; exact hstep)
    obtain ⟨v1, v2, -⟩ := update_video_spec f
    obtain ⟨-, -, -, hconv⟩ := update_video_matrix f
    obtain ⟨-, -, -, -, -, a6, -⟩ := update_audio_spec (update_video f).1 (update_video f).2
    obtain ⟨am1, -⟩ := update_audio_matrix (update_video f).1 (update_video f).2
    have hqv : q.vframe_ = (update_video f).1.vframe_ := hc.2.2.2.2.2.2.2.2.1.trans a6
    have hqm : q.VMat = (update_video f).1.VMat := hc.2.2.2.2.2.2.2.2.2.2.2.2.2.2.1.trans am1
    rw [hlast] at v1 v2
    rw [hread] at v2 hconv
    refine ⟨q, hq, ?_, ?_, ?_, ?_, r, hr, hcr.2.2.2.2.2.2.2.2.2.2.2.2.2.2.2.2.1,
      hcr.2.2.2.2.2.2.2.2.2.2.2.2.2.2.2.2.2, hcr.2.2.2.2.2.2.2.2.2.2.2.2.2.2.1,
      hcr.2.2.2.2.2.2.2.2.2.2.2.2.2.2.2.1, hcr.2.2.2.2.2.2.2.2.1, hcr.2.2.2.2.2.2.2.2.2.2.2.1⟩
    · rw [hqv]
      exact v1
    · rw [hqv]
      exact v2 (by simp) (by simp)
    · rw [hqm]
      exact (hconv (by simp) (by simp) rfl).1
    · intro hk
      rw [hc.2.2.2.1, (update_passes_spec f).1, hread]
      rw [if_neg (fun hc2 => hk (by simpa using hc2.2))]
      simp
  · intro hw hok
    have ht := atarget_lt p hw
    rw [fill_audio_frame_eq] at hok ⊢
    obtain ⟨-, -, -, hsucc, -, hgood⟩ := fill_audio_at_spec p (atarget p) (some b)
      FrameStatus.SAMPLE ht
    obtain ⟨f1, f2, f3, f4, f5, f6, f7, f8, f9⟩ := fill_audio_at_frame p (atarget p) (some b)
      FrameStatus.SAMPLE
    have hslot := hgood b rfl hok
    have hlast := (hsucc hok).1
    generalize (fill_audio_at p (atarget p) (some b) FrameStatus.SAMPLE).2 = f at *
    have hrunf : runs_passes f = true := (runs_passes_congr p f f1 f2 f3 f4 f5).trans hrun
    have hread : aread f = { status := FrameStatus.SAMPLE, full := true, position := b.pts } := by
      unfold aread
      rw [hlast]
      exact hslot
    have hvread : vread f = vread p := by
      unfold vread
      rw [f8, f9]
    obtain ⟨q, hq, hc, r, hr, hcr⟩ := update_then_idle f env env2 hrunf (by rw [f6]; exact hstep)
    obtain ⟨-, -, -, -, -, -, v7, -⟩ := update_video_spec f
    obtain ⟨vm1, -⟩ := update_video_matrix f
    have hread2 := (aread_update_video f).trans hread
    obtain ⟨a1, a2, -⟩ := update_audio_spec (update_video f).1 (update_video f).2
    obtain ⟨-, -, -, hconv⟩ := update_audio_matrix (update_video f).1 (update_video f).2
    have hqa : q.aframe_ = (update_passes f).1.aframe_ := hc.2.2.2.2.2.2.2.2.2.2.2.1
    have hqm : q.AMat = (update_passes f).1.AMat := hc.2.2.2.2.2.2.2.2.2.2.2.2.2.2.2.1
    rw [v7, hlast] at a1 a2
    rw [hread2] at a2 hconv
    refine ⟨q, hq, ?_, ?_, ?_, ?_, ?_, r, hr, hcr.2.2.2.2.2.2.2.2.2.2.2.2.2.2.2.2.1,
      hcr.2.2.2.2.2.2.2.2.2.2.2.2.2.2.2.2.2, hcr.2.2.2.2.2.2.2.2.2.2.2.2.2.2.1,
      hcr.2.2.2.2.2.2.2.2.2.2.2.2.2.2.2.1, hcr.2.2.2.2.2.2.2.2.1, hcr.2.2.2.2.2.2.2.2.2.2.2.1⟩
    · rw [hqa]
      exact a1
    · rw [hqa]
      exact a2 (by simp) (by simp)
    · rw [hqm]
      exact (hconv (by simp) (by simp) rfl).1
    · intro hv hp
      rw [hc.2.2.2.1, (update_passes_spec f).1, hread, hvread, if_neg (not_not.mpr hv), f7,
        if_pos ⟨by simp, hp⟩]
    · intro hv hp
      rw [hc.2.2.2.1, (update_passes_spec f).1, hread, hvread, if_neg (not_not.mpr hv), f7,
        if_neg (fun hc2 => hp hc2.2)]

/-- Witness of C13 (amended): the sample of time stamp 7000 written in the video ring and
in the audio ring of `demo_player`. -/
theorem consume_once_witness :
    runs_passes demo_player = true ∧ demo_player.timeline_.step ≠ 0
    ∧ (demo_player.vwrite_index_ < demo_player.N_VFRAME
      ∧ (fill_video_frame demo_player (some good_buffer) FrameStatus.SAMPLE).1 = true
      ∧ ∃ q, update (fill_video_frame demo_player (some good_buffer) FrameStatus.SAMPLE).2 {}
            = some q
        ∧ (q.vframe_.getD (vtarget demo_player) {}).status = FrameStatus.INVALID
        ∧ (q.vframe_.getD (vtarget demo_player) {}).full = false
        ∧ q.VMat = some good_buffer.pts
        ∧ (good_buffer.pts ≠ GST_CLOCK_TIME_NONE → q.position_ = good_buffer.pts)
        ∧ ∃ r, update q {} = some r
          ∧ r.n_fill_video = q.n_fill_video ∧ r.n_fill_audio = q.n_fill_audio
          ∧ r.VMat = q.VMat ∧ r.AMat = q.AMat
          ∧ r.vframe_ = q.vframe_ ∧ r.aframe_ = q.aframe_)
    ∧ (demo_player.awrite_index_ < demo_player.N_AFRAME
      ∧ (fill_audio_frame demo_player (some good_buffer) FrameStatus.SAMPLE).1 = true
      ∧ ∃ q, update (fill_audio_frame demo_player (some good_buffer) FrameStatus.SAMPLE).2 {}
            = some q
        ∧ (q.aframe_.getD (atarget demo_player) {}).status = FrameStatus.INVALID
        ∧ (q.aframe_.getD (atarget demo_player) {}).full = false
        ∧ q.AMat = some good_buffer.pts
        ∧ ((vread demo_player).status = FrameStatus.INVALID →
            demo_player.position_ = GST_CLOCK_TIME_NONE → q.position_ = good_buffer.pts)
        ∧ ((vread demo_player).status = FrameStatus.INVALID →
            demo_player.position_ ≠ GST_CLOCK_TIME_NONE → q.position_ = demo_player.position_)
        ∧ ∃ r, update q {} = some r
          ∧ r.n_fill_video = q.n_fill_video ∧ r.n_fill_audio = q.n_fill_audio
          ∧ r.VMat = q.VMat ∧ r.AMat = q.AMat
          ∧ r.vframe_ = q.vframe_ ∧ r.aframe_ = q.aframe_) :=
  ⟨by decide, by decide,
    ⟨by decide, by decide,
      (consume_once demo_player good_buffer {} {} (by decide) (by decide)).1
        (by decide) (by decide)⟩,
    ⟨by decide, by decide,
      (consume_once demo_player good_buffer {} {} (by decide) (by decide)).2
        (by decide) (by decide)⟩⟩

/-! ## C17: the target of a jump out of a gap -/

/-- The forward jump target of the tick for a gap end that is a multiple of the step. -/
theorem forward_jump_arith (step ke : Nat) (hstep : 0 < step) :
    (step * ((step * ke / step + 1) % 2 ^ 64)) % 2 ^ 64 = (step * ke + step) % 2 ^ 64 := by
  rw [Nat.mul_div_cancel_left ke hstep, Nat.mul_mod, Nat.mod_mod, ← Nat.mul_mod, Nat.mul_add,
    Nat.mul_one]

/-- The backward jump target of the tick for a gap begin that is a multiple of the step. -/
theorem backward_jump_arith (step kb : Nat) (hstep : 0 < step) :
    (step * (step * kb / step)) % 2 ^ 64 = (step * kb) % 2 ^ 64 := by
  rw [Nat.mul_div_cancel_left kb hstep]

/-- Counterexample to C17 as stated: `gap_player` plays forward at 3000 inside the gap
`[2000, 5000)`, whose boundaries are multiples of the step 1000.  The gap check of
the tick computes the target 6000, not the gap's end 5000, and the seek event
sent starts at 6000. -/
theorem tick_jumps_past_gap_end :
    gap_player.rate_ > 0
    ∧ gap_player.timeline_.getGapAt gap_player.position_ = some { begin := 2000, end_ := 5000 }
    ∧ (2000 : Nat) = gap_player.timeline_.step * 2 ∧ (5000 : Nat) = gap_player.timeline_.step * 5
    ∧ tick_jump gap_player { begin := 2000, end_ := 5000 } = 6000
    ∧ (update gap_player {}).map (fun q => dispatched gap_player q)
        = some [Request.seek_event (forward_event 6000)] := by
  refine ⟨by decide, by decide, by decide, by decide, by decide, ?_⟩
  simp [update, update_video, update_audio, update_manage, execute_loop_command, rewind_default,
    Timeline.next, Timeline.previous, Timeline.getGapAt, gap_player, fill_video_frame,
    dispatched, seek, execute_seek_command, MediaPlayer.sent, demo_player, MediaPlayer.init,
    MediaPlayer.N_VFRAME, Frame.unmap, TimeInterval.is_valid,
    CLAMP, ABS_DIFF, gst_event_new_seek, gst_element_send_event, ABS, forward_event,
    GST_CLOCK_TIME_NONE]
  norm_num

/-- C17 (amended): for a valid gap `[b, e)` whose boundaries are multiples of a positive
timeline step.  In the gap check of the tick (position known and inside the
gap, no seek outstanding) the target is `e + step` modulo `2^64` for forward
playback, one step past the gap's end, and `b` modulo `2^64` for backward
playback: the tick seeks to it when it lies strictly between first and last
and runs the loop command otherwise.  In `go_to(pos)` with `pos` inside the gap
the target is the gap's end `e` for forward playback and the gap's begin `b` for
backward playback. -/
theorem gap_jump_targets (p : MediaPlayer α) (gap : TimeInterval) (kb ke : Nat)
    (hstep : 0 < p.timeline_.step)
    (hb : gap.begin = p.timeline_.step * kb) (he : gap.end_ = p.timeline_.step * ke)
    (hvalid : gap.is_valid = true) :
    (p.rate_ > 0 → tick_jump p gap = (gap.end_ + p.timeline_.step) % 2 ^ 64)
    ∧ (p.rate_ < 0 → tick_jump p gap = gap.begin % 2 ^ 64)
    ∧ (p.seeking_ = false → p.position_ ≠ GST_CLOCK_TIME_NONE →
        p.timeline_.getGapAt p.position_ = some gap →
        update_manage p false =
          some (if p.timeline_.first < tick_jump p gap ∧ tick_jump p gap < p.timeline_.last
                then seek p (tick_jump p gap) else execute_loop_command p))
    ∧ (∀ pos, pos ≠ GST_CLOCK_TIME_NONE → p.timeline_.getGapAt pos = some gap →
        (p.rate_ > 0 →
          go_to p pos =
            if ABS_DIFF p.position_ gap.end_ > (2 * p.timeline_.step) % 2 ^ 64
            then (true, seek p gap.end_) else (false, p))
        ∧ (p.rate_ < 0 →
          go_to p pos =
            if ABS_DIFF p.position_ gap.begin > (2 * p.timeline_.step) % 2 ^ 64
            then (true, seek p gap.begin) else (false, p))) := by
  refine ⟨?_, ?_, ?_, ?_⟩
  · intro hr
    unfold tick_jump
    rw [if_pos hr, he]
    exact forward_jump_arith _ _ hstep
  · intro hr
    unfold tick_jump
    rw [if_neg (not_lt.mpr hr.le), hb]
    exact backward_jump_arith _ _ hstep
  · intro hs hpos hgap
    rw [update_manage_eq, update_decide_gap p false gap hs hpos hgap hvalid (Nat.pos_iff_ne_zero.mp hstep)]
    by_cases hj : tick_jump p gap > p.timeline_.first ∧ tick_jump p gap < p.timeline_.last
    · rw [if_pos hj, if_pos hj]
      rfl
    · rw [if_neg hj, if_neg hj]
      rfl
  · intro pos hpos hgap
    constructor
    · intro hr
      unfold go_to
      simp only [hpos, ne_eq, not_false_eq_true, if_true, hgap, hvalid, hr]
    · intro hr
      unfold go_to
      simp only [hpos, ne_eq, not_false_eq_true, if_true, hgap, hvalid, not_lt.mpr hr.le, if_false]

/-- Witness of C17 (amended): the gap `[2000, 5000)` of `gap_player`, step 1000. -/
theorem gap_jump_targets_witness :
    0 < gap_player.timeline_.step
    ∧ (2000 : Nat) = gap_player.timeline_.step * 2 ∧ (5000 : Nat) = gap_player.timeline_.step * 5
    ∧ TimeInterval.is_valid { begin := 2000, end_ := 5000 } = true
    ∧ gap_player.rate_ > 0
    ∧ tick_jump gap_player { begin := 2000, end_ := 5000 }
        = (5000 + gap_player.timeline_.step) % 2 ^ 64 :=
  ⟨by decide, by decide, by decide, by decide, by decide,
    (gap_jump_targets gap_player { begin := 2000, end_ := 5000 } 2 5 (by decide) (by decide)
      (by decide) (by decide)).1 (by decide)⟩

/-! ## C18 - C20: loop command and play -/

/-- A loop flag raised by the slot passes is still raised after the seek decision. -/
theorem update_decide_keeps_loop (p : MediaPlayer α) (s : MediaPlayer α) (l : Bool)
    (h : update_decide p true = some (s, l)) : l = true := by
  cases hs : p.seeking_ with
  | true =>
    rw [update_decide_seeking p true hs] at h
    simp only [Option.some.injEq, Prod.mk.injEq] at h
    exact h.2.symm
  | false =>
    by_cases hg : p.position_ = GST_CLOCK_TIME_NONE ∨ p.timeline_.getGapAt p.position_ = none
      ∨ ∃ gap, p.timeline_.getGapAt p.position_ = some gap ∧ gap.is_valid = false
    · rw [update_decide_no_gap p true hs hg] at h
      simp only [Option.some.injEq, Prod.mk.injEq] at h
      exact h.2.symm
    · simp only [not_or, not_exists, not_and] at hg
      obtain ⟨hpos, hne, hval⟩ := hg
      obtain ⟨gap, hgap⟩ := Option.ne_none_iff_exists'.mp hne
      have hvalid : gap.is_valid = true := by simpa using hval gap hgap
      by_cases hstep : p.timeline_.step = 0
      · simp [update_decide, hs, hpos, hgap, hvalid, hstep] at h
      · rw [update_decide_gap p true gap hs hpos hgap hvalid hstep] at h
        split_ifs at h <;>
          (simp only [Option.some.injEq, Prod.mk.injEq] at h; exact h.2.symm)

/-- On an enabled player with seekable media, `rewind()` is the seek command to the loop
target of the direction. -/
theorem rewind_default_eq (s : MediaPlayer α) (he : s.enabled_ = true)
    (hs : s.media_.seekable = true) :
    rewind_default s = execute_seek_command s
      (if s.rate_ > 0 then s.timeline_.next 0 else s.timeline_.previous s.timeline_.last) := by
  unfold rewind_default
  simp only [he, hs, Bool.not_true, Bool.or_false, Bool.false_eq_true, if_false]
  split_ifs <;> rfl

theorem enabled_of_runs_passes (p : MediaPlayer α) (h : runs_passes p = true) :
    p.enabled_ = true := by
  unfold runs_passes at h
  simp only [Bool.and_eq_true] at h
  exact h.1.2

/-- The state change of `play` keeps the desired state and the rate. -/
theorem apply_desired_state_frame (q : MediaPlayer α) :
    ∃ pl f, apply_desired_state q = { q with pipeline_ := pl, failed_ := f } := by
  unfold apply_desired_state
  split
  · exact ⟨_, _, rfl⟩
  · dsimp only
    split_ifs <;> exact ⟨_, _, rfl⟩

theorem apply_desired_state_desired (q : MediaPlayer α) :
    (apply_desired_state q).desired_state_ = q.desired_state_ := by
  obtain ⟨pl, f, h⟩ := apply_desired_state_frame q
  rw [h]

/-- The state change of `play` sends the desired state to the pipeline. -/
theorem dispatched_apply_desired_state (q : MediaPlayer α) (pl : Pipeline α)
    (hpl : q.pipeline_ = some pl) :
    dispatched q (apply_desired_state q) = [Request.set_state q.desired_state_] := by
  unfold apply_desired_state
  rw [hpl]
  dsimp only
  split_ifs <;> simp [dispatched, MediaPlayer.sent, hpl, gst_element_set_state]

/-- The call `play(on)` changes the pipeline, `seeking_`, the desired state and `failed_`
only. -/
theorem play_frame (p : MediaPlayer α) (on_ : Bool) :
    ∃ pl s d f, play p on_ =
      { p with pipeline_ := pl, seeking_ := s, desired_state_ := d, failed_ := f } := by
  rw [play_eq]
  generalize (if on_ = true then GstState.PLAYING else GstState.PAUSED) = req
  by_cases h1 : (!p.enabled_ || p.media_.isimage) = true
  · rw [if_pos h1]
    exact ⟨_, _, _, _, rfl⟩
  · rw [if_neg h1]
    by_cases h2 : p.desired_state_ = req
    · rw [if_pos h2]
      exact ⟨_, _, _, _, rfl⟩
    · rw [if_neg h2]
      split
      · exact ⟨_, _, _, _, rfl⟩
      · by_cases h3 : req = GstState.PLAYING ∧ at_loop_boundary p
        · rw [if_pos h3]
          obtain ⟨pl, s, hr⟩ := rewind_default_frame ({ p with desired_state_ := req })
          rw [hr]
          obtain ⟨pl2, f, ha⟩ := apply_desired_state_frame
            ({ ({ p with desired_state_ := req } : MediaPlayer α) with
                pipeline_ := pl, seeking_ := s })
          rw [ha]
          exact ⟨_, _, _, _, rfl⟩
        · rw [if_neg h3]
          obtain ⟨pl2, f, ha⟩ := apply_desired_state_frame ({ p with desired_state_ := req })
          rw [ha]
          exact ⟨_, _, _, _, rfl⟩

/-- The call `play(false)` on an enabled player whose media is not an image leaves the
desired state Paused. -/
theorem play_false_desired (p : MediaPlayer α) (he : p.enabled_ = true)
    (hi : p.media_.isimage = false) : (play p false).desired_state_ = GstState.PAUSED := by
  rw [play_eq]
  simp only [he, hi, Bool.not_true, Bool.or_false, Bool.false_eq_true, if_false]
  by_cases h2 : p.desired_state_ = GstState.PAUSED
  · rw [if_pos h2]
    exact h2
  · rw [if_neg h2]
    split
    · rfl
    · rw [if_neg (fun hc => absurd hc.1 (by decide)), apply_desired_state_desired]

/-- Counterexample to C19 as stated: in loop mode BIDIRECTIONAL on a media that is not
seekable the loop command negates the rate and sends no seek event. -/
theorem bidirectional_loop_without_seek :
    unseekable_bidirectional_player.loop_ = LoopMode.LOOP_BIDIRECTIONAL
    ∧ unseekable_bidirectional_player.rate_ = 1
    ∧ (execute_loop_command unseekable_bidirectional_player).rate_ = -1
    ∧ dispatched unseekable_bidirectional_player
        (execute_loop_command unseekable_bidirectional_player) = [] := by
  refine ⟨by decide, by decide, ?_, ?_⟩ <;>
    simp [execute_loop_command, unseekable_bidirectional_player, execute_seek_command,
      demo_player, MediaPlayer.init, dispatched, MediaPlayer.sent]

/-- C19 (amended): with loop mode BIDIRECTIONAL every loop command replaces rate by
`-rate` (same magnitude; two loop commands in a row restore the rate), keeps the
position, and is the seek command without target on the negated rate: when a
pipeline exists, the media is seekable and the rate is not zero it sends one
seek event at the current position framed for the new direction, whatever the
step (no within-one-step suppression); without pipeline or on media that is
not seekable it sends nothing.  With loop mode NONE the loop command changes
neither rate nor position; it leaves the desired state Paused when the player
is enabled and the media is not an image, and changes nothing otherwise. -/
theorem loop_command_modes (p : MediaPlayer α) :
    (p.loop_ = LoopMode.LOOP_BIDIRECTIONAL →
      (execute_loop_command p).rate_ = -p.rate_
      ∧ |(execute_loop_command p).rate_| = |p.rate_|
      ∧ (execute_loop_command (execute_loop_command p)).rate_ = p.rate_
      ∧ (execute_loop_command p).position_ = p.position_
      ∧ execute_loop_command p
          = execute_seek_command { p with rate_ := -p.rate_ } GST_CLOCK_TIME_NONE
      ∧ (∀ pl, p.pipeline_ = some pl → p.media_.seekable = true → p.rate_ ≠ 0 →
          dispatched p (execute_loop_command p) =
            [Request.seek_event
              { rate := -p.rate_,
                flags := if ABS (-p.rate_) > 3 / 2
                  then GST_SEEK_FLAG_FLUSH ||| GST_SEEK_FLAG_TRICKMODE
                  else GST_SEEK_FLAG_FLUSH ||| GST_SEEK_FLAG_ACCURATE,
                start_type := GstSeekType.SET,
                start := if -p.rate_ > 0 then p.position_ else 0,
                stop_type := if -p.rate_ > 0 then GstSeekType.END else GstSeekType.SET,
                stop := if -p.rate_ > 0 then 0 else p.position_ }])
      ∧ ((p.pipeline_ = none ∨ p.media_.seekable = false) →
          dispatched p (execute_loop_command p) = []))
    ∧ (p.loop_ = LoopMode.LOOP_NONE →
      (execute_loop_command p).rate_ = p.rate_
      ∧ (execute_loop_command p).position_ = p.position_
      ∧ (p.enabled_ = true → p.media_.isimage = false →
          (execute_loop_command p).desired_state_ = GstState.PAUSED)
      ∧ ((p.enabled_ = false ∨ p.media_.isimage = true) → execute_loop_command p = p)) := by
  constructor
  · intro hl
    have hE : execute_loop_command p
        = execute_seek_command { p with rate_ := -p.rate_ } GST_CLOCK_TIME_NONE := by
      unfold execute_loop_command
      rw [if_neg (by rw [hl]; decide), if_pos hl, mul_neg_one]
    have hrate : (execute_loop_command p).rate_ = -p.rate_ := by
      rw [hE, execute_seek_command_rate]
    have hloop : (execute_loop_command p).loop_ = LoopMode.LOOP_BIDIRECTIONAL :=
      (controller_only_execute_loop_command p).2.2.2.2.1.trans hl
    refine ⟨hrate, by rw [hrate, abs_neg], ?_, (controller_only_execute_loop_command p).2.2.2.1,
      hE, ?_, ?_⟩
    · have hE2 : execute_loop_command (execute_loop_command p)
          = execute_seek_command
              { execute_loop_command p with rate_ := -(execute_loop_command p).rate_ }
              GST_CLOCK_TIME_NONE := by
        generalize execute_loop_command p = q at hloop ⊢
        unfold execute_loop_command
        rw [if_neg (by rw [hloop]; decide), if_pos hloop, mul_neg_one]
      rw [hE2, execute_seek_command_rate]
      show -(execute_loop_command p).rate_ = p.rate_
      rw [hrate, neg_neg]
    · intro pl hpl hs hr
      rw [hE, execute_seek_command_sends { p with rate_ := -p.rate_ } GST_CLOCK_TIME_NONE pl
        hpl hs (fun hc => hc.1 rfl) (neg_ne_zero.mpr hr)]
      simp [dispatched, MediaPlayer.sent, hpl]
    · intro hno
      rw [hE, execute_seek_command_early { p with rate_ := -p.rate_ } GST_CLOCK_TIME_NONE
        (by rcases hno with h | h
            · exact Or.inl h
            · exact Or.inr (Or.inl h))]
      simp [dispatched, MediaPlayer.sent]
  · intro hl
    have hE : execute_loop_command p = play p false := by
      unfold execute_loop_command
      rw [if_neg (by rw [hl]; decide), if_neg (by rw [hl]; decide)]
    rw [hE]
    obtain ⟨pl, s, d, f, hp⟩ := play_frame p false
    refine ⟨by rw [hp], by rw [hp], play_false_desired p, ?_⟩
    intro hg
    rw [play_eq]
    rcases hg with h | h <;> simp [h]

/-- Witness of C19 (amended): the non-seekable player in loop mode BIDIRECTIONAL, and a
playing player in loop mode NONE. -/
theorem loop_command_modes_witness :
    (unseekable_bidirectional_player.loop_ = LoopMode.LOOP_BIDIRECTIONAL
      ∧ (unseekable_bidirectional_player.pipeline_ = none
          ∨ unseekable_bidirectional_player.media_.seekable = false)
      ∧ (execute_loop_command unseekable_bidirectional_player).rate_
          = -unseekable_bidirectional_player.rate_
      ∧ dispatched unseekable_bidirectional_player
          (execute_loop_command unseekable_bidirectional_player) = [])
    ∧ (loop_none_player.loop_ = LoopMode.LOOP_NONE
      ∧ loop_none_player.enabled_ = true ∧ loop_none_player.media_.isimage = false
      ∧ loop_none_player.desired_state_ = GstState.PLAYING
      ∧ (execute_loop_command loop_none_player).desired_state_ = GstState.PAUSED
      ∧ (execute_loop_command loop_none_player).rate_ = loop_none_player.rate_) :=
  have h := (loop_command_modes unseekable_bidirectional_player).1 (by decide)
  have h2 := (loop_command_modes loop_none_player).2 (by decide)
  ⟨⟨by decide, Or.inr (by decide), h.1, h.2.2.2.2.2.2 (Or.inr (by decide))⟩,
   ⟨by decide, by decide, by decide, by decide, h2.2.2.1 (by decide) (by decide), h2.1⟩⟩

/-- C20: for an enabled, non-image player with a pipeline whose desired state is Paused,
`play(true)` sets the desired state to Playing, performs a rewind exactly when
`(rate > 0 and position ≥ previous(last()))` or `(rate < 0 and position ≤ next(0))`,
and then sends the state Playing to the pipeline.  `play(on)` changes nothing
when the player is disabled, the media is an image, or the requested state is
the desired state already; without pipeline it only records the desired state. -/
theorem play_contract (p : MediaPlayer α) (on_ : Bool) :
    (p.enabled_ = true → p.media_.isimage = false → (∃ pl, p.pipeline_ = some pl) →
      p.desired_state_ = GstState.PAUSED →
      (((p.rate_ > 0 ∧ p.position_ ≥ p.timeline_.previous p.timeline_.last)
          ∨ (p.rate_ < 0 ∧ p.position_ ≤ p.timeline_.next 0)) →
        play p true = apply_desired_state
          (rewind_default { p with desired_state_ := GstState.PLAYING }))
      ∧ (¬ ((p.rate_ > 0 ∧ p.position_ ≥ p.timeline_.previous p.timeline_.last)
          ∨ (p.rate_ < 0 ∧ p.position_ ≤ p.timeline_.next 0)) →
        play p true = apply_desired_state { p with desired_state_ := GstState.PLAYING })
      ∧ (play p true).desired_state_ = GstState.PLAYING
      ∧ dispatched (rewind_default { p with desired_state_ := GstState.PLAYING })
          (apply_desired_state (rewind_default { p with desired_state_ := GstState.PLAYING }))
          = [Request.set_state GstState.PLAYING]
      ∧ dispatched { p with desired_state_ := GstState.PLAYING }
          (apply_desired_state { p with desired_state_ := GstState.PLAYING })
          = [Request.set_state GstState.PLAYING])
    ∧ ((p.enabled_ = false ∨ p.media_.isimage = true
          ∨ p.desired_state_ = (if on_ then GstState.PLAYING else GstState.PAUSED)) →
        play p on_ = p)
    ∧ (p.enabled_ = true → p.media_.isimage = false → p.pipeline_ = none →
        p.desired_state_ ≠ (if on_ then GstState.PLAYING else GstState.PAUSED) →
        play p on_ =
          { p with desired_state_ := if on_ then GstState.PLAYING else GstState.PAUSED }) := by
  refine ⟨?_, ?_, ?_⟩
  · intro he hi hpl hd
    obtain ⟨pl, hpl⟩ := hpl
    have hcomm : at_loop_boundary p ↔
        ((p.rate_ > 0 ∧ p.position_ ≥ p.timeline_.previous p.timeline_.last)
          ∨ (p.rate_ < 0 ∧ p.position_ ≤ p.timeline_.next 0)) := or_comm
    have hplay : play p true = apply_desired_state
        (if at_loop_boundary p then rewind_default { p with desired_state_ := GstState.PLAYING }
         else { p with desired_state_ := GstState.PLAYING }) := by
      rw [play_eq]
      simp only [he, hi, hd, hpl, Bool.not_true, Bool.or_false, Bool.false_eq_true, if_false,
        if_true, true_and]
      rw [if_neg (by decide)]
    obtain ⟨pl2, hpl2⟩ := rewind_default_pipeline
      ({ p with desired_state_ := GstState.PLAYING }) pl hpl
    obtain ⟨plr, sr, hrw⟩ := rewind_default_frame ({ p with desired_state_ := GstState.PLAYING })
    have hrd : (rewind_default { p with desired_state_ := GstState.PLAYING }).desired_state_
        = GstState.PLAYING := by rw [hrw]
    refine ⟨?_, ?_, ?_, ?_, ?_⟩
    · intro hc
      rw [hplay, if_pos (hcomm.mpr hc)]
    · intro hc
      rw [hplay, if_neg (fun h => hc (hcomm.mp h))]
    · rw [hplay, apply_desired_state_desired]
      split_ifs
      · exact hrd
      · rfl
    · rw [dispatched_apply_desired_state _ pl2 hpl2, hrd]
    · rw [dispatched_apply_desired_state ({ p with desired_state_ := GstState.PLAYING }) pl hpl]
  · intro hg
    rw [play_eq]
    rcases hg with h | h | h
    · simp [h]
    · simp [h]
    · rw [if_pos h]
      simp
  · intro he hi hpl hd
    rw [play_eq]
    simp only [he, hi, hpl, Bool.not_true, Bool.or_false, Bool.false_eq_true, if_false]
    rw [if_neg hd]

/-- Witness of C20: `play(true)` on `at_end_player`, stopped at the end of its timeline,
rewinds first; `play(false)` on `demo_player`, which is paused already, changes
nothing. -/
theorem play_contract_witness :
    (at_end_player.enabled_ = true ∧ at_end_player.media_.isimage = false
      ∧ (∃ pl, at_end_player.pipeline_ = some pl)
      ∧ at_end_player.desired_state_ = GstState.PAUSED
      ∧ ((at_end_player.rate_ > 0
            ∧ at_end_player.position_ ≥ at_end_player.timeline_.previous at_end_player.timeline_.last)
          ∨ (at_end_player.rate_ < 0
            ∧ at_end_player.position_ ≤ at_end_player.timeline_.next 0))
      ∧ play at_end_player true = apply_desired_state
          (rewind_default { at_end_player with desired_state_ := GstState.PLAYING })
      ∧ (play at_end_player true).desired_state_ = GstState.PLAYING)
    ∧ ((demo_player.enabled_ = false ∨ demo_player.media_.isimage = true
          ∨ demo_player.desired_state_ = (if false then GstState.PLAYING else GstState.PAUSED))
      ∧ play demo_player false = demo_player) :=
  have h := (play_contract at_end_player true).1 (by decide) (by decide) ⟨_, rfl⟩ (by decide)
  ⟨⟨by decide, by decide, ⟨_, rfl⟩, by decide, Or.inl (by decide),
      h.1 (Or.inl (by decide)), h.2.2.1⟩,
   ⟨Or.inr (Or.inr (by decide)),
      (play_contract demo_player false).2.1 (Or.inr (Or.inr (by decide)))⟩⟩

/-! ## Lemmas on the requests a state change makes -/

theorem sent_of_pipeline (p : MediaPlayer α) (pl : Pipeline α) (h : p.pipeline_ = some pl) :
    p.sent = pl.sent := by
  simp [MediaPlayer.sent, h]

theorem answers_of_pipeline (p : MediaPlayer α) (pl : Pipeline α) (h : p.pipeline_ = some pl) :
    p.answers = pl.answers := by
  simp [MediaPlayer.answers, h]

theorem tracks_of_eq (p q : MediaPlayer α) (hp : q.pipeline_ = p.pipeline_)
    (hf : p.failed_ = true → q.failed_ = true) : tracks p q := by
  refine ⟨hf, by rw [hp], [], ?_, ?_, ?_⟩
  · simp [MediaPlayer.sent, hp]
  · simp [MediaPlayer.answers, hp]
  · intro i s h
    simp at h

theorem tracks_refl (p : MediaPlayer α) : tracks p p := tracks_of_eq p p rfl id

theorem tracks_trans (p q r : MediaPlayer α) (h1 : tracks p q) (h2 : tracks q r) :
    tracks p r := by
  obtain ⟨hf1, hs1, r1, hsent1, hans1, hrej1⟩ := h1
  obtain ⟨hf2, hs2, r2, hsent2, hans2, hrej2⟩ := h2
  refine ⟨fun h => hf2 (hf1 h), by rw [hs2, hs1], r1 ++ r2, ?_, ?_, ?_⟩
  · rw [hsent2, hsent1, List.append_assoc]
  · rw [hans2, hans1, List.drop_drop, List.length_append, Nat.add_comm]
  · intro i s hi ha
    by_cases hlt : i < r1.length
    · rw [List.getElem?_append_left hlt] at hi
      exact hf2 (hrej1 i s hi ha)
    · have hle : r1.length ≤ i := Nat.le_of_not_lt hlt
      rw [List.getElem?_append_right hle] at hi
      refine hrej2 (i - r1.length) s hi ?_
      unfold MediaPlayer.answer_at at ha ⊢
      rw [hans1, List.getD_eq_getElem?_getD, List.getElem?_drop, Nat.add_sub_cancel' hle,
        ← List.getD_eq_getElem?_getD]
      exact ha

/-- One request `r` goes to the pipeline between `p` and `q`. -/
theorem tracks_send (p q : MediaPlayer α) (pl : Pipeline α) (r : Request α)
    (hp : p.pipeline_ = some pl)
    (hq : q.pipeline_ = some { sent := pl.sent ++ [r], answers := pl.answers.tail })
    (hf : p.failed_ = true → q.failed_ = true)
    (hrej : ∀ s, r = Request.set_state s → pl.answers.headD true = false → q.failed_ = true) :
    tracks p q := by
  refine ⟨hf, by rw [hp, hq]; rfl, [r], ?_, ?_, ?_⟩
  · rw [sent_of_pipeline p pl hp, sent_of_pipeline q _ hq]
  · rw [answers_of_pipeline p pl hp, answers_of_pipeline q _ hq]
    simp
  · intro i s hi ha
    cases i with
    | zero =>
      simp only [List.getElem?_cons_zero, Option.some.injEq] at hi
      refine hrej s hi ?_
      unfold MediaPlayer.answer_at at ha
      rw [answers_of_pipeline p pl hp] at ha
      cases hl : pl.answers with
      | nil => rw [hl] at ha; simp at ha
      | cons a t => rw [hl] at ha; simpa using ha
    | succ n => simp at hi

theorem tracks_execute_seek_command (p : MediaPlayer α) (t : GstClockTime) :
    tracks p (execute_seek_command p t) := by
  by_cases h : p.pipeline_ = none ∨ p.media_.seekable = false ∨
      (t ≠ GST_CLOCK_TIME_NONE ∧ ABS_DIFF t p.position_ < p.timeline_.step)
  · rw [execute_seek_command_early p t h]
    exact tracks_refl p
  · simp only [not_or] at h
    obtain ⟨hpl, hs, ht⟩ := h
    obtain ⟨pl, hpl⟩ := Option.ne_none_iff_exists'.mp hpl
    have hs : p.media_.seekable = true := by simpa using hs
    by_cases hr : p.rate_ = 0
    · rw [execute_seek_command_rate_zero p t pl hpl hs ht hr]
      exact tracks_of_eq _ _ rfl id
    · rw [execute_seek_command_sends p t pl hpl hs ht hr]
      refine tracks_send _ _ pl _ hpl rfl id ?_
      intro s hs
      cases hs

theorem execute_seek_command_failed (p : MediaPlayer α) (t : GstClockTime) :
    (execute_seek_command p t).failed_ = p.failed_ := by
  obtain ⟨pl, s, h⟩ := execute_seek_command_frame p t
  rw [h]

theorem execute_seek_command_desired (p : MediaPlayer α) (t : GstClockTime) :
    (execute_seek_command p t).desired_state_ = p.desired_state_ := by
  obtain ⟨pl, s, h⟩ := execute_seek_command_frame p t
  rw [h]

theorem tracks_seek (p : MediaPlayer α) (pos : GstClockTime) : tracks p (seek p pos) := by
  unfold seek
  split_ifs
  · exact tracks_refl p
  · exact tracks_execute_seek_command p _

theorem tracks_rewind_default (p : MediaPlayer α) : tracks p (rewind_default p) := by
  unfold rewind_default
  split_ifs
  · exact tracks_refl p
  · exact tracks_execute_seek_command p _
  · exact tracks_execute_seek_command p _

theorem tracks_request_state (q : MediaPlayer α) (s : GstState) :
    tracks q (request_state q s) := by
  unfold request_state
  split
  · next h => exact ⟨fun _ => rfl, by simp [h], [], by simp [MediaPlayer.sent, h],
      by simp [MediaPlayer.answers, h], fun _ _ _ _ => rfl⟩
  · next pl h =>
    dsimp only
    by_cases ha : (gst_element_set_state pl s).1 = true
    · rw [if_pos ha]
      refine tracks_send _ _ pl (Request.set_state s) h rfl id ?_
      intro _ _ hrej
      have ha2 : pl.answers.headD true = true := ha
      rw [hrej] at ha2
      cases ha2
    · rw [if_neg ha]
      exact tracks_send _ _ pl (Request.set_state s) h rfl (fun _ => rfl) (fun _ _ _ => rfl)

theorem tracks_apply_desired_state (q : MediaPlayer α) :
    tracks q (apply_desired_state q) := by
  unfold apply_desired_state
  split
  · exact tracks_refl q
  · next pl h =>
    dsimp only
    by_cases ha : (gst_element_set_state pl q.desired_state_).1 = true
    · rw [if_pos ha]
      refine tracks_send _ _ pl (Request.set_state q.desired_state_) h rfl id ?_
      intro _ _ hrej
      have ha2 : pl.answers.headD true = true := ha
      rw [hrej] at ha2
      cases ha2
    · rw [if_neg ha]
      exact tracks_send _ _ pl (Request.set_state q.desired_state_) h rfl
        (fun _ => rfl) (fun _ _ _ => rfl)

theorem tracks_play (p : MediaPlayer α) (on_ : Bool) : tracks p (play p on_) := by
  rw [play_eq]
  generalize (if on_ = true then GstState.PLAYING else GstState.PAUSED) = req
  by_cases h1 : (!p.enabled_ || p.media_.isimage) = true
  · rw [if_pos h1]
    exact tracks_refl p
  · rw [if_neg h1]
    by_cases h2 : p.desired_state_ = req
    · rw [if_pos h2]
      exact tracks_refl p
    · rw [if_neg h2]
      split
      · exact tracks_of_eq _ _ rfl id
      · by_cases h3 : req = GstState.PLAYING ∧ at_loop_boundary p
        · rw [if_pos h3]
          refine tracks_trans _ _ _ ?_ (tracks_apply_desired_state _)
          refine tracks_trans _ _ _ ?_ (tracks_rewind_default _)
          exact tracks_of_eq _ _ rfl id
        · rw [if_neg h3]
          refine tracks_trans _ _ _ ?_ (tracks_apply_desired_state _)
          exact tracks_of_eq _ _ rfl id

theorem tracks_execute_loop_command (p : MediaPlayer α) :
    tracks p (execute_loop_command p) := by
  unfold execute_loop_command
  split_ifs
  · exact tracks_rewind_default p
  · refine tracks_trans _ _ _ ?_ (tracks_execute_seek_command _ _)
    exact tracks_of_eq _ _ rfl id
  · exact tracks_play p false

/-- The seek decision of the tick clears `seeking_`, seeks, or changes nothing. -/
theorem update_decide_cases (p : MediaPlayer α) (nl : Bool) (q : MediaPlayer α) (l : Bool)
    (h : update_decide p nl = some (q, l)) :
    q = { p with seeking_ := false } ∨ q = p ∨ ∃ t, q = seek p t := by
  cases hs : p.seeking_ with
  | true =>
    rw [update_decide_seeking p nl hs] at h
    simp only [Option.some.injEq, Prod.mk.injEq] at h
    exact Or.inl h.1.symm
  | false =>
    by_cases hg : p.position_ = GST_CLOCK_TIME_NONE ∨ p.timeline_.getGapAt p.position_ = none
      ∨ ∃ gap, p.timeline_.getGapAt p.position_ = some gap ∧ gap.is_valid = false
    · rw [update_decide_no_gap p nl hs hg] at h
      simp only [Option.some.injEq, Prod.mk.injEq] at h
      exact Or.inr (Or.inl h.1.symm)
    · simp only [not_or, not_exists, not_and] at hg
      obtain ⟨hpos, hne, hval⟩ := hg
      obtain ⟨gap, hgap⟩ := Option.ne_none_iff_exists'.mp hne
      have hvalid : gap.is_valid = true := by simpa using hval gap hgap
      by_cases hstep : p.timeline_.step = 0
      · simp [update_decide, hs, hpos, hgap, hvalid, hstep] at h
      · rw [update_decide_gap p nl gap hs hpos hgap hvalid hstep] at h
        by_cases hj : tick_jump p gap > p.timeline_.first ∧ tick_jump p gap < p.timeline_.last
        · rw [if_pos hj] at h
          simp only [Option.some.injEq, Prod.mk.injEq] at h
          exact Or.inr (Or.inr ⟨_, h.1.symm⟩)
        · rw [if_neg hj] at h
          simp only [Option.some.injEq, Prod.mk.injEq] at h
          exact Or.inr (Or.inl h.1.symm)

theorem tracks_update_decide (p : MediaPlayer α) (nl : Bool) (q : MediaPlayer α) (l : Bool)
    (h : update_decide p nl = some (q, l)) : tracks p q := by
  rcases update_decide_cases p nl q l h with h | h | ⟨t, h⟩
  · rw [h]; exact tracks_of_eq _ _ rfl id
  · rw [h]; exact tracks_refl p
  · rw [h]; exact tracks_seek p t

theorem tracks_update_manage (p : MediaPlayer α) (nl : Bool) (q : MediaPlayer α)
    (h : update_manage p nl = some q) : tracks p q := by
  rw [update_manage_eq] at h
  cases hd : update_decide p nl with
  | none => rw [hd] at h; simp at h
  | some r =>
    obtain ⟨s, l⟩ := r
    rw [hd] at h
    have h1 := tracks_update_decide p nl s l hd
    cases l with
    | true =>
      simp only [if_true, Option.some.injEq] at h
      rw [← h]
      exact tracks_trans _ _ _ h1 (tracks_execute_loop_command s)
    | false =>
      simp only [Bool.false_eq_true, if_false, Option.some.injEq] at h
      rw [← h]
      exact h1

/-- A tick of an open player sends its requests to the pipeline it has. -/
theorem tracks_update (p q : MediaPlayer α) (env : OpenEnv α) (hopen : p.opened_ = true)
    (h : update p env = some q) : tracks p q := by
  cases hr : runs_passes p with
  | false =>
    rw [update_skipped p env hopen hr] at h
    simp only [Option.some.injEq] at h
    rw [← h]
    exact tracks_refl p
  | true =>
    rw [update_of_runs_passes p env hr] at h
    have hs := update_passes_spec p
    refine tracks_trans _ _ _ ?_ (tracks_update_manage _ _ _ h)
    refine tracks_of_eq _ _ hs.2.2.2.2.2.2.2.2.2.2.1 ?_
    rw [hs.2.2.2.2.2.2.2.2.2.2.2.2.2.2.1]
    exact id

/-! ## Lemmas on `rewind`, `enable` and `close` -/

theorem rewind_false (p : MediaPlayer α) (env : OpenEnv α) :
    rewind p false env = some (rewind_default p) := by
  unfold rewind rewind_default
  split_ifs <;> simp_all

theorem rewind_true (p : MediaPlayer α) (env : OpenEnv α) :
    rewind p true env =
      if (!p.enabled_ || !p.media_.seekable) = true then some p
      else update (rewind_default p) env := by
  unfold rewind rewind_default
  split_ifs <;> simp_all

theorem rewind_default_opened (p : MediaPlayer α) :
    (rewind_default p).opened_ = p.opened_ ∧ (rewind_default p).timeline_ = p.timeline_
    ∧ (rewind_default p).desired_state_ = p.desired_state_
    ∧ (rewind_default p).loop_ = p.loop_ ∧ (rewind_default p).failed_ = p.failed_
    ∧ (rewind_default p).enabled_ = p.enabled_ ∧ (rewind_default p).rate_ = p.rate_ := by
  obtain ⟨pl, s, h⟩ := rewind_default_frame p
  rw [h]
  simp

theorem update_manage_some (p : MediaPlayer α) (nl : Bool) (q : MediaPlayer α)
    (h : update_manage p nl = some q) : controller_only p q := by
  rw [update_manage_eq] at h
  cases hd : update_decide p nl with
  | none => rw [hd] at h; simp at h
  | some r =>
    obtain ⟨s, l⟩ := r
    rw [hd] at h
    obtain ⟨pl, sk, hs⟩ := update_decide_frame p nl s l hd
    have h1 : controller_only p s := by rw [hs]; simp [controller_only]
    cases l with
    | true =>
      simp only [if_true, Option.some.injEq] at h
      rw [← h]
      exact controller_only_trans _ _ _ h1 (controller_only_execute_loop_command s)
    | false =>
      simp only [Bool.false_eq_true, if_false, Option.some.injEq] at h
      rw [← h]
      exact h1

/-- A tick of an open player keeps it open. -/
theorem update_opened (p q : MediaPlayer α) (env : OpenEnv α) (hopen : p.opened_ = true)
    (h : update p env = some q) : q.opened_ = true := by
  cases hr : runs_passes p with
  | false =>
    rw [update_skipped p env hopen hr] at h
    simp only [Option.some.injEq] at h
    rw [← h]; exact hopen
  | true =>
    rw [update_of_runs_passes p env hr] at h
    have hc := update_manage_some _ _ _ h
    have hs := update_passes_spec p
    rw [hc.1, hs.2.2.2.2.2.2.2.2.2.2.2.2.2.2.2]
    exact hopen

theorem execute_loop_command_desired (p : MediaPlayer α) (h : p.loop_ ≠ LoopMode.LOOP_NONE) :
    (execute_loop_command p).desired_state_ = p.desired_state_ := by
  unfold execute_loop_command
  by_cases h1 : p.loop_ = LoopMode.LOOP_REWIND
  · rw [if_pos h1]
    exact (rewind_default_opened p).2.2.1
  · rw [if_neg h1]
    by_cases h2 : p.loop_ = LoopMode.LOOP_BIDIRECTIONAL
    · rw [if_pos h2, execute_seek_command_desired]
    · cases hl : p.loop_ <;> simp_all

/-- A tick of an open player whose loop mode is not NONE keeps the desired state. -/
theorem update_desired (p q : MediaPlayer α) (env : OpenEnv α) (hopen : p.opened_ = true)
    (hloop : p.loop_ ≠ LoopMode.LOOP_NONE) (h : update p env = some q) :
    q.desired_state_ = p.desired_state_ := by
  cases hr : runs_passes p with
  | false =>
    rw [update_skipped p env hopen hr] at h
    simp only [Option.some.injEq] at h
    rw [← h]
  | true =>
    rw [update_of_runs_passes p env hr, update_manage_eq] at h
    obtain ⟨-, -, -, -, -, -, -, -, -, hdes, -, -, hlp, -, -, -⟩ := update_passes_spec p
    cases hd : update_decide (update_passes p).1 (update_passes p).2 with
    | none => rw [hd] at h; simp at h
    | some r =>
      obtain ⟨s, l⟩ := r
      rw [hd] at h
      obtain ⟨pl, sk, hs⟩ := update_decide_frame _ _ s l hd
      have hsd : s.desired_state_ = p.desired_state_ := by rw [hs]; exact hdes
      have hsl : s.loop_ ≠ LoopMode.LOOP_NONE := by rw [hs]; dsimp only; rw [hlp]; exact hloop
      cases l with
      | true =>
        simp only [if_true, Option.some.injEq] at h
        rw [← h, execute_loop_command_desired s hsl, hsd]
      | false =>
        simp only [Bool.false_eq_true, if_false, Option.some.injEq] at h
        rw [← h, hsd]

/-- A tick of an open player returns when the timeline step is not zero. -/
theorem update_returns (p : MediaPlayer α) (env : OpenEnv α) (hopen : p.opened_ = true)
    (hstep : p.timeline_.step ≠ 0) : ∃ q, update p env = some q := by
  cases hr : runs_passes p with
  | false => exact ⟨p, update_skipped p env hopen hr⟩
  | true =>
    obtain ⟨q, hq, -⟩ := update_defined p env hr hstep
    exact ⟨q, hq⟩

/-- The forced rewind of an open player: it returns when the timeline step is not
zero, the player stays open on the same pipeline, and the desired state is kept
when the loop mode is not NONE. -/
theorem rewind_true_spec (p q : MediaPlayer α) (env : OpenEnv α) (hopen : p.opened_ = true)
    (h : rewind p true env = some q) :
    tracks p q ∧ q.opened_ = true
    ∧ (p.loop_ ≠ LoopMode.LOOP_NONE → q.desired_state_ = p.desired_state_) := by
  rw [rewind_true] at h
  by_cases hg : (!p.enabled_ || !p.media_.seekable) = true
  · rw [if_pos hg] at h
    simp only [Option.some.injEq] at h
    rw [← h]
    exact ⟨tracks_refl p, hopen, fun _ => rfl⟩
  · rw [if_neg hg] at h
    obtain ⟨ho, -, hd, hl, -, -, -⟩ := rewind_default_opened p
    have ho2 : (rewind_default p).opened_ = true := by rw [ho]; exact hopen
    refine ⟨tracks_trans _ _ _ (tracks_rewind_default p) (tracks_update _ _ env ho2 h),
      update_opened _ _ env ho2 h, ?_⟩
    intro hloop
    rw [update_desired _ _ env ho2 (by rw [hl]; exact hloop) h, hd]

theorem rewind_true_returns (p : MediaPlayer α) (env : OpenEnv α) (hopen : p.opened_ = true)
    (hstep : p.timeline_.step ≠ 0) : ∃ q, rewind p true env = some q := by
  rw [rewind_true]
  by_cases hg : (!p.enabled_ || !p.media_.seekable) = true
  · rw [if_pos hg]; exact ⟨p, rfl⟩
  · rw [if_neg hg]
    obtain ⟨ho, ht, -⟩ := rewind_default_opened p
    exact update_returns _ env (by rw [ho]; exact hopen) (by rw [ht]; exact hstep)

/-- A state change requested of an existing pipeline: the request is sent, and only the
pipeline and `failed_` change. -/
theorem request_state_spec (q : MediaPlayer α) (s : GstState) (pl : Pipeline α)
    (h : q.pipeline_ = some pl) :
    ∃ f, request_state q s =
      { q with pipeline_ := some { sent := pl.sent ++ [Request.set_state s],
                                   answers := pl.answers.tail },
               failed_ := f } := by
  unfold request_state
  rw [h]
  dsimp only
  by_cases ha : (gst_element_set_state pl s).1 = true
  · rw [if_pos ha]
    exact ⟨q.failed_, rfl⟩
  · rw [if_neg ha]
    exact ⟨true, rfl⟩

theorem dispatched_request_state (q : MediaPlayer α) (s : GstState) (pl : Pipeline α)
    (h : q.pipeline_ = some pl) :
    dispatched q (request_state q s) = [Request.set_state s] := by
  obtain ⟨f, hf⟩ := request_state_spec q s pl h
  rw [hf]
  simp [dispatched, MediaPlayer.sent, h]

/-- The method `enable` on a player that is not open, has no pipeline, or is already in the
requested state. -/
theorem enable_noop (p : MediaPlayer α) (on_ : Bool) (env : OpenEnv α)
    (h : p.opened_ = false ∨ p.pipeline_ = none ∨ p.enabled_ = on_) :
    enable p on_ env = some p := by
  unfold enable
  rcases h with h | h | h
  · simp [h]
  · simp [h]
  · split_ifs <;> simp_all

/-- The method `enable` when it changes `enabled_`, in terms of the forced rewind and the
final state change. -/
theorem enable_eq (p : MediaPlayer α) (on_ : Bool) (env : OpenEnv α) (pl : Pipeline α)
    (hopen : p.opened_ = true) (hpl : p.pipeline_ = some pl) (hen : p.enabled_ ≠ on_) :
    enable p on_ env =
      match (if (!on_ && p.rewind_on_disable_ && p.desired_state_ = GstState.PLAYING) = true
             then rewind p true env else some p) with
      | none => none
      | some p1 =>
        some (request_state { p1 with enabled_ := on_ }
          (if on_ = true then p1.desired_state_ else GstState.PAUSED)) := by
  unfold enable
  simp only [hopen, hpl, Option.isNone_some, Bool.not_true, Bool.or_self, Bool.false_eq_true,
    if_false, if_pos hen]

/-- Enabling a disabled open player: one state change to the desired state. -/
theorem enable_true (q : MediaPlayer α) (env : OpenEnv α) (pl : Pipeline α)
    (hopen : q.opened_ = true) (hpl : q.pipeline_ = some pl) (hen : q.enabled_ = false) :
    enable q true env = some (request_state { q with enabled_ := true } q.desired_state_) := by
  rw [enable_eq q true env pl hopen hpl (by rw [hen]; simp)]
  simp

theorem dispatched_of_sent (p q : MediaPlayer α) (reqs : List (Request α))
    (h : q.sent = p.sent ++ reqs) : dispatched p q = reqs := by
  simp [dispatched, h]

/-- The last two statements of `enable`: `enabled_` is assigned and one state change is
requested of the pipeline. -/
theorem enable_step (p1 : MediaPlayer α) (on_ : Bool) (s : GstState) (pl1 : Pipeline α)
    (h : p1.pipeline_ = some pl1) :
    (request_state { p1 with enabled_ := on_ } s).enabled_ = on_
    ∧ (request_state { p1 with enabled_ := on_ } s).desired_state_ = p1.desired_state_
    ∧ (request_state { p1 with enabled_ := on_ } s).opened_ = p1.opened_
    ∧ (request_state { p1 with enabled_ := on_ } s).sent = p1.sent ++ [Request.set_state s]
    ∧ ∃ pl2, (request_state { p1 with enabled_ := on_ } s).pipeline_ = some pl2 := by
  obtain ⟨f, hf⟩ := request_state_spec { p1 with enabled_ := on_ } s pl1 h
  rw [hf]
  refine ⟨rfl, rfl, rfl, ?_, _, rfl⟩
  simp [MediaPlayer.sent, h]

/-! ## C21: enable -/

/-- C21, as stated, fails: on an open, enabled player that rewinds when it is disabled,
plays in loop mode NONE and has an unread end-of-stream in its video ring,
`enable(false)` runs the forced rewind, whose tick pauses playback: the desired
state goes from Playing to Paused. -/
theorem enable_false_changes_desired_state :
    rewind_on_disable_player.opened_ = true
    ∧ rewind_on_disable_player.pipeline_.isSome = true
    ∧ rewind_on_disable_player.enabled_ = true
    ∧ rewind_on_disable_player.desired_state_ = GstState.PLAYING
    ∧ (enable rewind_on_disable_player false {}).map (fun q => q.desired_state_)
        = some GstState.PAUSED
    ∧ (enable rewind_on_disable_player false {}).map
        (fun q => dispatched rewind_on_disable_player q)
        = some [Request.seek_event (forward_event 0), Request.set_state GstState.PAUSED,
                Request.set_state GstState.PAUSED] := by
  refine ⟨by decide, by decide, by decide, by decide, ?_, ?_⟩
  · simp [enable, rewind, request_state, rewind_on_disable_player, eos_player, update,
      update_video, update_audio, update_manage, execute_loop_command, play, rewind_default,
      Timeline.next, Timeline.previous, Timeline.getGapAt, fill_video_frame, dispatched, seek,
      execute_seek_command, MediaPlayer.sent, demo_player, MediaPlayer.init,
      MediaPlayer.N_VFRAME, Frame.unmap, TimeInterval.is_valid, CLAMP, ABS_DIFF,
      gst_event_new_seek, gst_element_send_event, gst_element_set_state, ABS, forward_event,
      GST_CLOCK_TIME_NONE]
  · simp [enable, rewind, request_state, rewind_on_disable_player, eos_player, update,
      update_video, update_audio, update_manage, execute_loop_command, play, rewind_default,
      Timeline.next, Timeline.previous, Timeline.getGapAt, fill_video_frame, dispatched, seek,
      execute_seek_command, MediaPlayer.sent, demo_player, MediaPlayer.init,
      MediaPlayer.N_VFRAME, Frame.unmap, TimeInterval.is_valid, CLAMP, ABS_DIFF,
      gst_event_new_seek, gst_element_send_event, gst_element_set_state, ABS, forward_event,
      GST_CLOCK_TIME_NONE]
    norm_num

/-- C21 (amended): on an open player with a pipeline, `enable(false)` while enabled returns
(the timeline step being non-zero when the rewind-on-disable policy runs), leaves
the player disabled and ends by requesting the Paused pipeline state whatever the
desired state is; that request is the only one when the policy does not run
(`rewind_on_disable_` unset or desired state not Playing); the desired state is
unchanged unless the policy runs in loop mode NONE; a following `enable(true)`
sends exactly the request for the desired state then held and keeps it.
`enable(x)` when `enabled_` already equals `x`, or when the player is not open,
changes nothing (so it requests nothing). -/
theorem enable_contract (p : MediaPlayer α) (env : OpenEnv α) :
    (p.opened_ = true → p.pipeline_.isSome = true → p.enabled_ = true →
      (p.timeline_.step ≠ 0
        ∨ ¬ (p.rewind_on_disable_ = true ∧ p.desired_state_ = GstState.PLAYING)) →
      ∃ q, enable p false env = some q ∧ q.enabled_ = false
        ∧ (∃ reqs, dispatched p q = reqs ++ [Request.set_state GstState.PAUSED])
        ∧ (¬ (p.rewind_on_disable_ = true ∧ p.desired_state_ = GstState.PLAYING) →
            dispatched p q = [Request.set_state GstState.PAUSED])
        ∧ (¬ (p.rewind_on_disable_ = true ∧ p.desired_state_ = GstState.PLAYING
              ∧ p.loop_ = LoopMode.LOOP_NONE) → q.desired_state_ = p.desired_state_)
        ∧ ∃ r, enable q true env = some r ∧ r.enabled_ = true
            ∧ r.desired_state_ = q.desired_state_
            ∧ dispatched q r = [Request.set_state q.desired_state_])
    ∧ enable p p.enabled_ env = some p
    ∧ (p.opened_ = false → ∀ x, enable p x env = some p) := by
  refine ⟨?_, enable_noop p _ env (Or.inr (Or.inr rfl)),
    fun h x => enable_noop p x env (Or.inl h)⟩
  intro hopen hsome hen hstep
  obtain ⟨pl, hpl⟩ := Option.isSome_iff_exists.mp hsome
  have hne : p.enabled_ ≠ false := by rw [hen]; simp
  -- the state `p1` reached before `enabled_` is assigned
  have key : ∃ (p1 : MediaPlayer α) (pl1 : Pipeline α) (reqs : List (Request α)),
      enable p false env =
        some (request_state { p1 with enabled_ := false } GstState.PAUSED)
      ∧ p1.pipeline_ = some pl1 ∧ p1.opened_ = true ∧ p1.sent = p.sent ++ reqs
      ∧ (¬ (p.rewind_on_disable_ = true ∧ p.desired_state_ = GstState.PLAYING) → reqs = [])
      ∧ (¬ (p.rewind_on_disable_ = true ∧ p.desired_state_ = GstState.PLAYING
            ∧ p.loop_ = LoopMode.LOOP_NONE) → p1.desired_state_ = p.desired_state_) := by
    rw [enable_eq p false env pl hopen hpl hne]
    by_cases hpol : p.rewind_on_disable_ = true ∧ p.desired_state_ = GstState.PLAYING
    · have hs : p.timeline_.step ≠ 0 := by
        rcases hstep with h | h
        · exact h
        · exact absurd hpol h
      obtain ⟨p1, hp1⟩ := rewind_true_returns p env hopen hs
      obtain ⟨⟨-, hsm, reqs, hsent, -, -⟩, hop1, hdes⟩ := rewind_true_spec p p1 env hopen hp1
      have hsome1 : p1.pipeline_.isSome = true := by rw [hsm, hsome]
      obtain ⟨pl1, hpl1⟩ := Option.isSome_iff_exists.mp hsome1
      refine ⟨p1, pl1, reqs, ?_, hpl1, hop1, hsent, fun h => absurd hpol h, ?_⟩
      · simp [hpol.1, hpol.2, hp1]
      · intro hn
        apply hdes
        intro hl
        exact hn ⟨hpol.1, hpol.2, hl⟩
    · refine ⟨p, pl, [], ?_, hpl, hopen, by simp, fun _ => rfl, fun _ => rfl⟩
      simp [hpol]
  obtain ⟨p1, pl1, reqs, hq, hpl1, hop1, hsent, hoff, hdes⟩ := key
  obtain ⟨he, hd, ho, hs, pl2, hpl2⟩ := enable_step p1 false GstState.PAUSED pl1 hpl1
  refine ⟨_, hq, he, ⟨reqs, ?_⟩, ?_, ?_, ?_⟩
  · exact dispatched_of_sent _ _ _ (by rw [hs, hsent, List.append_assoc])
  · intro hn
    refine dispatched_of_sent _ _ _ ?_
    rw [hs, hsent, hoff hn, List.append_nil]
  · intro hn
    rw [hd, hdes hn]
  · rw [enable_true _ env pl2 (by rw [ho]; exact hop1) hpl2 he]
    obtain ⟨he2, hd2, -, hs2, -⟩ :=
      enable_step (request_state { p1 with enabled_ := false } GstState.PAUSED) true
        (request_state { p1 with enabled_ := false } GstState.PAUSED).desired_state_ pl2 hpl2
    exact ⟨_, rfl, he2, hd2, dispatched_of_sent _ _ _ hs2⟩

/-- C21 on `demo_player` (open, enabled, desired state Paused, no rewind on disable). -/
theorem enable_contract_witness :
    ∃ q, enable demo_player false {} = some q ∧ q.enabled_ = false
      ∧ (∃ reqs, dispatched demo_player q = reqs ++ [Request.set_state GstState.PAUSED])
      ∧ dispatched demo_player q = [Request.set_state GstState.PAUSED]
      ∧ q.desired_state_ = demo_player.desired_state_
      ∧ ∃ r, enable q true {} = some r ∧ r.enabled_ = true
          ∧ r.desired_state_ = q.desired_state_
          ∧ dispatched q r = [Request.set_state q.desired_state_] :=
  Exists.elim
    ((enable_contract demo_player {}).1 (by decide) (by decide) (by decide)
      (Or.inl (by decide)))
    (fun q hq => ⟨q, hq.1, hq.2.1, hq.2.2.1, hq.2.2.2.1 (by decide),
      hq.2.2.2.2.1 (by decide), hq.2.2.2.2.2⟩)

/-! ## C22: what a failed player still does -/

theorem update_failed (p : MediaPlayer α) (env : OpenEnv α) (hf : p.failed_ = true) :
    update p env = some p := by
  simp [update, hf]

/-- On a failed player `rewind`, forced or not, is the seek of `rewind()`: the tick of
the forced rewind returns at once. -/
theorem rewind_failed (p : MediaPlayer α) (force : Bool) (env : OpenEnv α)
    (hf : p.failed_ = true) : rewind p force env = some (rewind_default p) := by
  cases force with
  | false => exact rewind_false p env
  | true =>
    rw [rewind_true]
    by_cases hg : (!p.enabled_ || !p.media_.seekable) = true
    · rw [if_pos hg]
      unfold rewind_default
      rw [if_pos hg]
    · rw [if_neg hg]
      exact update_failed _ env (by rw [(rewind_default_opened p).2.2.2.2.1]; exact hf)

theorem controller_only_setPlaySpeed (MIN MAX : α) (p : MediaPlayer α) (s : α) :
    controller_only p (setPlaySpeed MIN MAX p s)
    ∧ (setPlaySpeed MIN MAX p s).failed_ = p.failed_
    ∧ (setPlaySpeed MIN MAX p s).desired_state_ = p.desired_state_ := by
  unfold setPlaySpeed
  split_ifs
  · exact ⟨controller_only_refl p, rfl, rfl⟩
  · refine ⟨controller_only_trans _ _ _ ?_ (controller_only_execute_seek_command _ _), ?_, ?_⟩
    · simp [controller_only]
    · rw [execute_seek_command_failed]
    · rw [execute_seek_command_desired]

/-- The state `enable` leaves differs from a failed `p` at most in `enabled_`, the pipeline
and `seeking_`. -/
theorem enable_failed (p : MediaPlayer α) (on_ : Bool) (env : OpenEnv α)
    (hf : p.failed_ = true) :
    ∃ q, enable p on_ env = some q ∧ q.failed_ = true
      ∧ controller_only p { q with enabled_ := p.enabled_ }
      ∧ q.rate_ = p.rate_ ∧ q.desired_state_ = p.desired_state_ := by
  by_cases h : p.opened_ = false ∨ p.pipeline_ = none ∨ p.enabled_ = on_
  · rw [enable_noop p on_ env h]
    exact ⟨p, rfl, hf, controller_only_refl p, rfl, rfl⟩
  · simp only [not_or] at h
    obtain ⟨ho, hpl, hen⟩ := h
    have ho : p.opened_ = true := by simpa using ho
    obtain ⟨pl, hpl⟩ := Option.ne_none_iff_exists'.mp hpl
    rw [enable_eq p on_ env pl ho hpl hen, rewind_failed p true env hf]
    -- the state before `enabled_` is assigned
    have key : ∀ p1 : MediaPlayer α, controller_only p p1 → p1.failed_ = true →
        p1.rate_ = p.rate_ → p1.desired_state_ = p.desired_state_ →
        ∀ s, (request_state { p1 with enabled_ := on_ } s).failed_ = true
          ∧ controller_only p
              { request_state { p1 with enabled_ := on_ } s with enabled_ := p.enabled_ }
          ∧ (request_state { p1 with enabled_ := on_ } s).rate_ = p.rate_
          ∧ (request_state { p1 with enabled_ := on_ } s).desired_state_ = p.desired_state_ := by
      intro p1 hc hf1 hr hd s
      have ht := tracks_request_state { p1 with enabled_ := on_ } s
      refine ⟨ht.1 hf1, ?_, ?_, ?_⟩
      · unfold controller_only at hc
        obtain ⟨a1, -, a3⟩ := hc
        unfold request_state
        split
        · exact ⟨a1, rfl, a3⟩
        · dsimp only
          split_ifs
          · exact ⟨a1, rfl, a3⟩
          · exact ⟨a1, rfl, a3⟩
      · unfold request_state
        split
        · exact hr
        · dsimp only
          split_ifs <;> exact hr
      · unfold request_state
        split
        · exact hd
        · dsimp only
          split_ifs <;> exact hd
    obtain ⟨-, -, hd, -, hf2, -, hr⟩ := rewind_default_opened p
    by_cases hpol : (!on_ && p.rewind_on_disable_ && decide (p.desired_state_ = GstState.PLAYING))
        = true
    · rw [if_pos hpol]
      obtain ⟨a, b, c, d⟩ := key (rewind_default p) (controller_only_rewind_default p)
        (by rw [hf2]; exact hf) hr hd
        (if on_ = true then (rewind_default p).desired_state_ else GstState.PAUSED)
      exact ⟨_, rfl, a, b, c, d⟩
    · rw [if_neg hpol]
      obtain ⟨a, b, c, d⟩ := key p (controller_only_refl p) hf rfl rfl
        (if on_ = true then p.desired_state_ else GstState.PAUSED)
      exact ⟨_, rfl, a, b, c, d⟩

/-- C22, as stated, fails: only `update` tests `failed_`.  On the failed `failed_player`,
`setPlaySpeed(2)` changes the rate from 1 to 2 and sends a seek event, `play(true)`
changes the desired state and sends the state change, `seek(7000)` sends a seek
event and sets `seeking_`, and `enable(false)` disables the player. -/
theorem failed_player_still_operates :
    failed_player.failed_ = true
    ∧ failed_player.rate_ = 1
    ∧ (setPlaySpeed (1 / 10) 20 failed_player 2).rate_ = 2
    ∧ (dispatched failed_player (setPlaySpeed (1 / 10) 20 failed_player 2)).length = 1
    ∧ failed_player.desired_state_ = GstState.PAUSED
    ∧ (play failed_player true).desired_state_ = GstState.PLAYING
    ∧ dispatched failed_player (play failed_player true)
        = [Request.set_state GstState.PLAYING]
    ∧ failed_player.seeking_ = false
    ∧ (seek failed_player 7000).seeking_ = true
    ∧ dispatched failed_player (seek failed_player 7000)
        = [Request.seek_event (forward_event 7000)]
    ∧ failed_player.enabled_ = true
    ∧ (enable failed_player false {}).map (fun q => q.enabled_) = some false := by
  refine ⟨by decide, by decide, ?_, ?_, by decide, ?_, ?_, by decide, ?_, ?_, by decide, ?_⟩
  all_goals
    simp [enable, rewind, request_state, failed_player, update, setPlaySpeed, SIGN,
      update_video, update_audio, update_manage, execute_loop_command, play, rewind_default,
      Timeline.next, Timeline.previous, Timeline.getGapAt, dispatched, seek,
      execute_seek_command, MediaPlayer.sent, demo_player, MediaPlayer.init,
      MediaPlayer.N_VFRAME, Frame.unmap, TimeInterval.is_valid, CLAMP, ABS_DIFF,
      gst_event_new_seek, gst_element_send_event, gst_element_set_state, ABS, forward_event,
      GST_CLOCK_TIME_NONE]
  all_goals norm_num

/-- C22 (amended): on a player with `failed_ = true`, `update` changes nothing (and sends
nothing); `play`, `seek`, `setPlaySpeed`, `rewind` and `enable` do not test
`failed_`: each returns, leaves `failed_` true and keeps the position, the
rings, their indices and the matrices (`controller_only`); `play` keeps the rate,
`seek` and `rewind` keep the rate and the desired state, `setPlaySpeed` keeps the
desired state, `enable` keeps the rate and the desired state and changes, besides
the pipeline and `seeking_`, only `enabled_`. -/
theorem failed_is_sticky (MIN MAX : α) (p : MediaPlayer α) (env : OpenEnv α)
    (hf : p.failed_ = true) (on_ force : Bool) (pos : GstClockTime) (s : α) :
    update p env = some p
    ∧ ((play p on_).failed_ = true ∧ controller_only p (play p on_)
        ∧ (play p on_).rate_ = p.rate_)
    ∧ ((seek p pos).failed_ = true ∧ controller_only p (seek p pos)
        ∧ (seek p pos).rate_ = p.rate_ ∧ (seek p pos).desired_state_ = p.desired_state_)
    ∧ ((setPlaySpeed MIN MAX p s).failed_ = true ∧ controller_only p (setPlaySpeed MIN MAX p s)
        ∧ (setPlaySpeed MIN MAX p s).desired_state_ = p.desired_state_)
    ∧ (∃ q, rewind p force env = some q ∧ q.failed_ = true ∧ controller_only p q
        ∧ q.rate_ = p.rate_ ∧ q.desired_state_ = p.desired_state_)
    ∧ (∃ q, enable p on_ env = some q ∧ q.failed_ = true
        ∧ controller_only p { q with enabled_ := p.enabled_ }
        ∧ q.rate_ = p.rate_ ∧ q.desired_state_ = p.desired_state_) := by
  refine ⟨update_failed p env hf, ⟨(tracks_play p on_).1 hf, controller_only_play p on_, ?_⟩,
    ⟨(tracks_seek p pos).1 hf, controller_only_seek p pos, ?_, ?_⟩, ?_, ?_,
    enable_failed p on_ env hf⟩
  · obtain ⟨pl, sk, d, f, h⟩ := play_frame p on_
    rw [h]
  · obtain ⟨pl, sk, h⟩ := seek_frame p pos
    rw [h]
  · obtain ⟨pl, sk, h⟩ := seek_frame p pos
    rw [h]
  · obtain ⟨hc, hfl, hd⟩ := controller_only_setPlaySpeed MIN MAX p s
    exact ⟨by rw [hfl]; exact hf, hc, hd⟩
  · obtain ⟨-, -, hd, -, hf2, -, hr⟩ := rewind_default_opened p
    exact ⟨_, rewind_failed p force env hf, by rw [hf2]; exact hf,
      controller_only_rewind_default p, hr, hd⟩

/-- C22 on the failed `failed_player`. -/
theorem failed_is_sticky_witness :
    update failed_player {} = some failed_player
    ∧ ((play failed_player true).failed_ = true
        ∧ controller_only failed_player (play failed_player true)
        ∧ (play failed_player true).rate_ = failed_player.rate_)
    ∧ ((seek failed_player 7000).failed_ = true
        ∧ controller_only failed_player (seek failed_player 7000)
        ∧ (seek failed_player 7000).rate_ = failed_player.rate_
        ∧ (seek failed_player 7000).desired_state_ = failed_player.desired_state_)
    ∧ ((setPlaySpeed (1 / 10) 20 failed_player 2).failed_ = true
        ∧ controller_only failed_player (setPlaySpeed (1 / 10) 20 failed_player 2)
        ∧ (setPlaySpeed (1 / 10) 20 failed_player 2).desired_state_
            = failed_player.desired_state_)
    ∧ (∃ q, rewind failed_player true {} = some q ∧ q.failed_ = true
        ∧ controller_only failed_player q
        ∧ q.rate_ = failed_player.rate_ ∧ q.desired_state_ = failed_player.desired_state_)
    ∧ (∃ q, enable failed_player true {} = some q ∧ q.failed_ = true
        ∧ controller_only failed_player { q with enabled_ := failed_player.enabled_ }
        ∧ q.rate_ = failed_player.rate_ ∧ q.desired_state_ = failed_player.desired_state_) :=
  failed_is_sticky (1 / 10) 20 failed_player {} (by decide) true true 7000 2

/-! ## C23: rejected requests -/

theorem tracks_rejected (p q : MediaPlayer α) (h : tracks p q) (i : Nat) (s : GstState)
    (hi : (dispatched p q)[i]? = some (Request.set_state s)) (ha : p.answer_at i = false) :
    q.failed_ = true := by
  obtain ⟨-, -, reqs, hsent, -, hrej⟩ := h
  rw [dispatched_of_sent p q reqs hsent] at hi
  exact hrej i s hi ha

theorem tracks_enable (p q : MediaPlayer α) (on_ : Bool) (env : OpenEnv α)
    (h : enable p on_ env = some q) : tracks p q := by
  by_cases hn : p.opened_ = false ∨ p.pipeline_ = none ∨ p.enabled_ = on_
  · rw [enable_noop p on_ env hn] at h
    simp only [Option.some.injEq] at h
    rw [← h]
    exact tracks_refl p
  · simp only [not_or] at hn
    obtain ⟨ho, hpl, hen⟩ := hn
    have ho : p.opened_ = true := by simpa using ho
    obtain ⟨pl, hpl⟩ := Option.ne_none_iff_exists'.mp hpl
    rw [enable_eq p on_ env pl ho hpl hen] at h
    by_cases hpol : (!on_ && p.rewind_on_disable_ && decide (p.desired_state_ = GstState.PLAYING))
        = true
    · rw [if_pos hpol] at h
      cases hr : rewind p true env with
      | none => rw [hr] at h; simp at h
      | some p1 =>
        rw [hr] at h
        simp only [Option.some.injEq] at h
        rw [← h]
        refine tracks_trans _ _ _ (rewind_true_spec p p1 env ho hr).1 ?_
        exact tracks_trans _ { p1 with enabled_ := on_ } _ (tracks_of_eq _ _ rfl id)
          (tracks_request_state _ _)
    · rw [if_neg hpol] at h
      simp only [Option.some.injEq] at h
      rw [← h]
      exact tracks_trans _ { p with enabled_ := on_ } _ (tracks_of_eq _ _ rfl id)
        (tracks_request_state _ _)

/-- A seek event that the pipeline rejects leaves `seeking_` as it was. -/
theorem execute_seek_command_rejected (p : MediaPlayer α) (t : GstClockTime)
    (hd : dispatched p (execute_seek_command p t) ≠ []) (ha : p.next_answer = false) :
    (execute_seek_command p t).seeking_ = p.seeking_ := by
  obtain ⟨pl, hpl, hs, ht, hr⟩ := dispatched_execute_seek_command_ne_nil p t hd
  rw [execute_seek_command_sends p t pl hpl hs ht hr]
  have : pl.answers.headD true = false := by
    unfold MediaPlayer.next_answer at ha
    rw [hpl] at ha
    exact ha
  show (if pl.answers.headD true = true then true else p.seeking_) = p.seeking_
  rw [this]
  rfl

theorem seek_rejected (p : MediaPlayer α) (pos : GstClockTime)
    (hd : dispatched p (seek p pos) ≠ []) (ha : p.next_answer = false) :
    (seek p pos).seeking_ = p.seeking_ := by
  unfold seek at hd ⊢
  split_ifs at hd ⊢
  · rfl
  · exact execute_seek_command_rejected p _ hd ha

theorem rewind_default_rejected (p : MediaPlayer α)
    (hd : dispatched p (rewind_default p) ≠ []) (ha : p.next_answer = false) :
    (rewind_default p).seeking_ = p.seeking_ := by
  unfold rewind_default at hd ⊢
  split_ifs at hd ⊢
  · rfl
  · exact execute_seek_command_rejected p _ hd ha
  · exact execute_seek_command_rejected p _ hd ha

theorem setPlaySpeed_rejected (MIN MAX : α) (p : MediaPlayer α) (s : α)
    (hd : dispatched p (setPlaySpeed MIN MAX p s) ≠ []) (ha : p.next_answer = false) :
    (setPlaySpeed MIN MAX p s).seeking_ = p.seeking_ := by
  unfold setPlaySpeed at hd ⊢
  split_ifs at hd ⊢
  · rfl
  · exact execute_seek_command_rejected
      { p with rate_ := if ABS (CLAMP s (-MAX) MAX) < MIN then SIGN (CLAMP s (-MAX) MAX) * MIN
                        else CLAMP s (-MAX) MAX } GST_CLOCK_TIME_NONE hd ha

theorem execute_loop_command_rejected (p : MediaPlayer α) (hl : p.loop_ ≠ LoopMode.LOOP_NONE)
    (hd : dispatched p (execute_loop_command p) ≠ []) (ha : p.next_answer = false) :
    (execute_loop_command p).seeking_ = p.seeking_
    ∧ (execute_loop_command p).failed_ = p.failed_ := by
  unfold execute_loop_command at hd ⊢
  by_cases h1 : p.loop_ = LoopMode.LOOP_REWIND
  · rw [if_pos h1] at hd ⊢
    exact ⟨rewind_default_rejected p hd ha, (rewind_default_opened p).2.2.2.2.1⟩
  · rw [if_neg h1] at hd ⊢
    by_cases h2 : p.loop_ = LoopMode.LOOP_BIDIRECTIONAL
    · rw [if_pos h2] at hd ⊢
      exact ⟨execute_seek_command_rejected { p with rate_ := p.rate_ * (-1) }
        GST_CLOCK_TIME_NONE hd ha, execute_seek_command_failed _ _⟩
    · cases hl2 : p.loop_ <;> simp_all

/-- C23, as stated, fails for seek events: the pipeline of `rejecting_player` rejects the
seek event of `seek(7000)`, of `setPlaySpeed(2)` and of `rewind()`, and `failed_`
is false after each of them. -/
theorem rejected_seek_does_not_fail :
    rejecting_player.answer_at 0 = false
    ∧ dispatched rejecting_player (seek rejecting_player 7000)
        = [Request.seek_event (forward_event 7000)]
    ∧ (seek rejecting_player 7000).failed_ = false
    ∧ (dispatched rejecting_player (setPlaySpeed (1 / 10) 20 rejecting_player 2)).length = 1
    ∧ (setPlaySpeed (1 / 10) 20 rejecting_player 2).failed_ = false
    ∧ dispatched rejecting_player (rewind_default rejecting_player)
        = [Request.seek_event (forward_event 0)]
    ∧ (rewind_default rejecting_player).failed_ = false := by
  refine ⟨by decide, ?_, ?_, ?_, ?_, ?_, ?_⟩
  all_goals
    simp [rejecting_player, setPlaySpeed, SIGN, rewind_default,
      Timeline.next, Timeline.previous, Timeline.getGapAt, dispatched, seek,
      execute_seek_command, MediaPlayer.sent, demo_player, MediaPlayer.init,
      TimeInterval.is_valid, CLAMP, ABS_DIFF,
      gst_event_new_seek, gst_element_send_event, ABS, forward_event,
      GST_CLOCK_TIME_NONE]
  all_goals norm_num

/-- C23 (amended): whenever the pipeline rejects a state change requested by `play`, by
`enable` or by the loop command (the request number `i` sent during the call is a
`set_state` and the answer to it is a refusal), `failed_` is true after the call.
A rejected seek event does not set `failed_`: the seek command, `seek`, `rewind`,
`setPlaySpeed` and the loop command in the modes REWIND and BIDIRECTIONAL leave
`failed_` as it was, and leave `seeking_` as it was when their event is rejected. -/
theorem rejected_request_outcome (MIN MAX : α) (p : MediaPlayer α) (env : OpenEnv α)
    (on_ : Bool) (i : Nat) (s : GstState) (t : GstClockTime) (v : α) :
    ((dispatched p (play p on_))[i]? = some (Request.set_state s) → p.answer_at i = false →
      (play p on_).failed_ = true)
    ∧ (∀ q, enable p on_ env = some q →
        (dispatched p q)[i]? = some (Request.set_state s) → p.answer_at i = false →
        q.failed_ = true)
    ∧ ((dispatched p (execute_loop_command p))[i]? = some (Request.set_state s) →
        p.answer_at i = false → (execute_loop_command p).failed_ = true)
    ∧ ((execute_seek_command p t).failed_ = p.failed_
        ∧ (dispatched p (execute_seek_command p t) ≠ [] → p.next_answer = false →
            (execute_seek_command p t).seeking_ = p.seeking_))
    ∧ ((seek p t).failed_ = p.failed_
        ∧ (dispatched p (seek p t) ≠ [] → p.next_answer = false →
            (seek p t).seeking_ = p.seeking_))
    ∧ ((rewind_default p).failed_ = p.failed_
        ∧ (dispatched p (rewind_default p) ≠ [] → p.next_answer = false →
            (rewind_default p).seeking_ = p.seeking_))
    ∧ ((setPlaySpeed MIN MAX p v).failed_ = p.failed_
        ∧ (dispatched p (setPlaySpeed MIN MAX p v) ≠ [] → p.next_answer = false →
            (setPlaySpeed MIN MAX p v).seeking_ = p.seeking_))
    ∧ (p.loop_ ≠ LoopMode.LOOP_NONE → dispatched p (execute_loop_command p) ≠ [] →
        p.next_answer = false →
        (execute_loop_command p).seeking_ = p.seeking_
        ∧ (execute_loop_command p).failed_ = p.failed_) := by
  refine ⟨tracks_rejected _ _ (tracks_play p on_) i s,
    fun q hq => tracks_rejected _ _ (tracks_enable p q on_ env hq) i s,
    tracks_rejected _ _ (tracks_execute_loop_command p) i s,
    ⟨execute_seek_command_failed p t, execute_seek_command_rejected p t⟩,
    ⟨?_, seek_rejected p t⟩,
    ⟨(rewind_default_opened p).2.2.2.2.1, rewind_default_rejected p⟩,
    ⟨(controller_only_setPlaySpeed MIN MAX p v).2.1, setPlaySpeed_rejected MIN MAX p v⟩,
    execute_loop_command_rejected p⟩
  obtain ⟨pl, sk, h⟩ := seek_frame p t
  rw [h]

/-- C23 on `rejecting_player`, whose pipeline rejects the next request: `play(true)` and
`enable(false)` fail the player, the rejected event of `seek(7000)` leaves
`failed_` and `seeking_` as they were. -/
theorem rejected_request_outcome_witness :
    (play rejecting_player true).failed_ = true
    ∧ (∃ q, enable rejecting_player false {} = some q ∧ q.failed_ = true)
    ∧ (seek rejecting_player 7000).failed_ = rejecting_player.failed_
    ∧ (seek rejecting_player 7000).seeking_ = rejecting_player.seeking_ :=
  have h := rejected_request_outcome (1 / 10) 20 rejecting_player {} true 0 GstState.PLAYING
    7000 2
  have h2 := rejected_request_outcome (1 / 10) 20 rejecting_player {} false 0 GstState.PAUSED
    7000 2
  have hd : dispatched rejecting_player (seek rejecting_player 7000) ≠ [] := by
    simp [rejecting_player, dispatched, seek, execute_seek_command, MediaPlayer.sent,
      demo_player, MediaPlayer.init, CLAMP, ABS_DIFF, gst_event_new_seek,
      gst_element_send_event, ABS, GST_CLOCK_TIME_NONE]
  ⟨h.1 (by decide) (by decide),
    ⟨request_state { rejecting_player with enabled_ := false } GstState.PAUSED, rfl,
      h2.2.1 _ rfl (by decide) (by decide)⟩,
    h.2.2.2.2.1.1, h.2.2.2.2.1.2 hd (by decide)⟩

/-! ## C24: two changes of speed in a row -/

theorem play_speed_ne_zero (MIN MAX : α) (s : α) (hmin : 0 < MIN) :
    play_speed MIN MAX s ≠ 0 := by
  unfold play_speed
  dsimp only
  split_ifs with h
  · unfold SIGN
    split_ifs
    · intro h0
      have : MIN = 0 := by simpa using h0
      exact absurd this (ne_of_gt hmin)
    · intro h0
      have : MIN = 0 := by simpa using h0
      exact absurd this (ne_of_gt hmin)
  · intro h0
    rw [h0] at h
    apply h
    unfold ABS
    simpa using hmin

/-- A speed between 0 and `MIN_PLAY_SPEED` is stored as `MIN_PLAY_SPEED`. -/
theorem play_speed_small (MIN MAX : α) (s : α) (hmax : MIN ≤ MAX) (h0 : 0 ≤ s)
    (h1 : s ≤ MIN) : play_speed MIN MAX s = MIN := by
  have hc : CLAMP s (-MAX) MAX = s := by
    unfold CLAMP
    rw [if_neg (not_lt.mpr (le_trans h1 hmax)), if_neg]
    exact not_lt.mpr (by linarith)
  unfold play_speed
  dsimp only
  rw [hc]
  have ha : ABS s = s := by
    unfold ABS
    rw [if_neg (not_lt.mpr h0)]
  rw [ha]
  split_ifs with h
  · unfold SIGN
    rw [if_neg (not_lt.mpr h0), one_mul]
  · exact le_antisymm h1 (not_lt.mp h)

/-- On seekable non-image media with a pipeline `setPlaySpeed` stores the clamped rate and
sends one seek event at the current position with that rate. -/
theorem setPlaySpeed_sends (MIN MAX : α) (p : MediaPlayer α) (s : α) (pl : Pipeline α)
    (hpl : p.pipeline_ = some pl) (hs : p.media_.seekable = true)
    (hi : p.media_.isimage = false) (hmin : 0 < MIN) :
    ∃ e sk, setPlaySpeed MIN MAX p s =
        { p with rate_ := play_speed MIN MAX s,
                 pipeline_ := some { sent := pl.sent ++ [Request.seek_event e],
                                     answers := pl.answers.tail },
                 seeking_ := sk }
      ∧ e.rate = play_speed MIN MAX s ∧ e.position = p.position_ := by
  have hr := play_speed_ne_zero MIN MAX s hmin
  have h := execute_seek_command_sends { p with rate_ := play_speed MIN MAX s }
    GST_CLOCK_TIME_NONE pl hpl hs (fun h => h.1 rfl) hr
  have hsp : setPlaySpeed MIN MAX p s =
      execute_seek_command { p with rate_ := play_speed MIN MAX s } GST_CLOCK_TIME_NONE := by
    unfold setPlaySpeed
    rw [hi]
    rfl
  rw [hsp, h]
  refine ⟨_, _, rfl, rfl, ?_⟩
  by_cases hpos : play_speed MIN MAX s > 0 <;> simp [SeekEvent.position, hpos]

/-- C24, as stated, fails: on `demo_player` (seekable video with a pipeline),
`setPlaySpeed(3)` followed by `setPlaySpeed(1/10)`, with the bounds 1/10 and 20,
sends two seek events, not one. -/
theorem two_speed_changes_send_two_events :
    demo_player.media_.seekable = true ∧ demo_player.media_.isimage = false
    ∧ demo_player.pipeline_.isSome = true
    ∧ (dispatched demo_player
        (setPlaySpeed (1 / 10) 20 (setPlaySpeed (1 / 10) 20 demo_player 3) (1 / 10))).length
        = 2 := by
  refine ⟨by decide, by decide, by decide, ?_⟩
  simp [setPlaySpeed, SIGN, dispatched, execute_seek_command, MediaPlayer.sent, demo_player,
    MediaPlayer.init, CLAMP, ABS_DIFF, gst_event_new_seek, gst_element_send_event, ABS,
    GST_CLOCK_TIME_NONE]
  norm_num

/-- C24 (amended): on seekable non-image media with a pipeline, with
`0 < MIN_PLAY_SPEED ≤ MAX_PLAY_SPEED`, after `setPlaySpeed(a)` then `setPlaySpeed(b)`
without a tick in between the rate is the clamped value of `b` (which is
`MIN_PLAY_SPEED`, positive, when `0 ≤ b ≤ MIN_PLAY_SPEED`), and one re-sync seek
event per call has been dispatched, two in total: the first carries the clamped
value of `a`, the second the final rate, both at the current position. -/
theorem setPlaySpeed_twice (MIN MAX : α) (p : MediaPlayer α) (pl : Pipeline α) (a b : α)
    (hpl : p.pipeline_ = some pl) (hs : p.media_.seekable = true)
    (hi : p.media_.isimage = false) (hmin : 0 < MIN) (hmax : MIN ≤ MAX) :
    (setPlaySpeed MIN MAX (setPlaySpeed MIN MAX p a) b).rate_ = play_speed MIN MAX b
    ∧ (0 ≤ b → b ≤ MIN → (setPlaySpeed MIN MAX (setPlaySpeed MIN MAX p a) b).rate_ = MIN)
    ∧ ∃ e1 e2, dispatched p (setPlaySpeed MIN MAX (setPlaySpeed MIN MAX p a) b)
          = [Request.seek_event e1, Request.seek_event e2]
        ∧ e1.rate = play_speed MIN MAX a ∧ e2.rate = play_speed MIN MAX b
        ∧ e1.position = p.position_ ∧ e2.position = p.position_ := by
  obtain ⟨e1, sk1, h1, hr1, hp1⟩ := setPlaySpeed_sends MIN MAX p a pl hpl hs hi hmin
  rw [h1]
  obtain ⟨e2, sk2, h2, hr2, hp2⟩ := setPlaySpeed_sends MIN MAX
    { p with rate_ := play_speed MIN MAX a,
             pipeline_ := some { sent := pl.sent ++ [Request.seek_event e1],
                                 answers := pl.answers.tail },
             seeking_ := sk1 } b _ rfl hs hi hmin
  rw [h2]
  refine ⟨rfl, fun h0 hb => play_speed_small MIN MAX b hmax h0 hb, e1, e2, ?_, hr1, hr2, hp1, hp2⟩
  simp [dispatched, MediaPlayer.sent, hpl]

/-- C24 on `demo_player` with the bounds 1/10 and 20, for `a = 3` and `b = 1/10`. -/
theorem setPlaySpeed_twice_witness :
    (setPlaySpeed (1 / 10) 20 (setPlaySpeed (1 / 10) 20 demo_player 3) (1 / 10)).rate_
      = play_speed (1 / 10) 20 (1 / 10)
    ∧ (setPlaySpeed (1 / 10) 20 (setPlaySpeed (1 / 10) 20 demo_player 3) (1 / 10)).rate_
      = 1 / 10
    ∧ ∃ e1 e2, dispatched demo_player
          (setPlaySpeed (1 / 10) 20 (setPlaySpeed (1 / 10) 20 demo_player 3) (1 / 10))
          = [Request.seek_event e1, Request.seek_event e2]
        ∧ e1.rate = play_speed (1 / 10) 20 3 ∧ e2.rate = play_speed (1 / 10) 20 (1 / 10)
        ∧ e1.position = demo_player.position_ ∧ e2.position = demo_player.position_ :=
  have h := setPlaySpeed_twice (1 / 10) 20 demo_player {} 3 (1 / 10) rfl (by decide)
    (by decide) (by norm_num) (by norm_num)
  ⟨h.1, h.2.1 (by norm_num) (by norm_num), h.2.2⟩

/-! ## C25: the discovered framerate and the still-image test -/

theorem frame_step_bound (n d : Nat) (hd : d < 2 ^ 32) :
    (GST_SECOND * d) % 2 ^ 64 / n = 1000000000 * d / n
    ∧ (1000000000 * d / n * 2) % 2 ^ 64 = 2 * (1000000000 * d / n) := by
  have h1 : (GST_SECOND * d) % 2 ^ 64 = 1000000000 * d := by
    unfold GST_SECOND
    apply Nat.mod_eq_of_lt
    omega
  rw [h1]
  refine ⟨rfl, ?_⟩
  have h2 : 1000000000 * d / n ≤ 1000000000 * d := Nat.div_le_self _ _
  generalize 1000000000 * d / n = x at h2 ⊢
  omega

/-- C25: for a discovered video stream that is not flagged as an image, the reported
denominator being a `guint` (below `2^32`): when the reported numerator or
denominator is 0 the descriptor's framerate is 30/1 and `dt` is 33333333,
otherwise the framerate is the reported one; in both cases
`dt = floor(10^9 * framerate_d / framerate_n)`, and the stream is reclassified as
a still image exactly when its duration is less than `2 * dt`. -/
theorem discovered_framerate_and_image (stream_info : MediaInfo) (vinfo : DiscovererVideoInfo)
    (himg : vinfo.is_image = false) (hd : vinfo.framerate_denom < 2 ^ 32) :
    ((vinfo.framerate_num = 0 ∨ vinfo.framerate_denom = 0) →
        (UriDiscoverer_video stream_info vinfo).framerate_n = 30
        ∧ (UriDiscoverer_video stream_info vinfo).framerate_d = 1
        ∧ (UriDiscoverer_video stream_info vinfo).dt = 33333333)
    ∧ (¬ (vinfo.framerate_num = 0 ∨ vinfo.framerate_denom = 0) →
        (UriDiscoverer_video stream_info vinfo).framerate_n = vinfo.framerate_num
        ∧ (UriDiscoverer_video stream_info vinfo).framerate_d = vinfo.framerate_denom)
    ∧ (UriDiscoverer_video stream_info vinfo).dt
        = 1000000000 * (UriDiscoverer_video stream_info vinfo).framerate_d
            / (UriDiscoverer_video stream_info vinfo).framerate_n
    ∧ ((UriDiscoverer_video stream_info vinfo).isimage = true
        ↔ vinfo.duration < 2 * (UriDiscoverer_video stream_info vinfo).dt)
    ∧ (UriDiscoverer_video stream_info vinfo).end_ = vinfo.duration
    ∧ (UriDiscoverer_video stream_info vinfo).seekable = vinfo.seekable
    ∧ (UriDiscoverer_video stream_info vinfo).video_valid = true := by
  by_cases h0 : vinfo.framerate_num = 0 ∨ vinfo.framerate_denom = 0
  · obtain ⟨e1, e2⟩ := frame_step_bound 30 1 (by norm_num)
    have e3 : (1000000000 * 1 / 30 : Nat) = 33333333 := by norm_num
    rw [e3] at e1 e2
    unfold UriDiscoverer_video
    simp only [himg, Bool.not_false, if_true, if_pos h0, e1, e2]
    by_cases hlt : vinfo.duration < 2 * 33333333
    · rw [if_pos hlt]
      simp [hlt, h0]
    · rw [if_neg hlt]
      simp [hlt, h0, himg]
  · obtain ⟨e1, e2⟩ := frame_step_bound vinfo.framerate_num vinfo.framerate_denom hd
    unfold UriDiscoverer_video
    simp only [himg, Bool.not_false, if_true, if_neg h0, e1, e2]
    by_cases hlt : vinfo.duration
        < 2 * (1000000000 * vinfo.framerate_denom / vinfo.framerate_num)
    · rw [if_pos hlt]
      simp [hlt, h0]
    · rw [if_neg hlt]
      simp [hlt, h0, himg]

/-- C25 on a clip of ten seconds without framerate: 30/1, a frame step of 33333333 ns,
and the clip is not an image. -/
theorem discovered_framerate_and_image_witness :
    (UriDiscoverer_video {} no_framerate_clip).framerate_n = 30
    ∧ (UriDiscoverer_video {} no_framerate_clip).framerate_d = 1
    ∧ (UriDiscoverer_video {} no_framerate_clip).dt = 33333333
    ∧ ((UriDiscoverer_video {} no_framerate_clip).isimage = true
        ↔ no_framerate_clip.duration < 2 * (UriDiscoverer_video {} no_framerate_clip).dt) :=
  have h := discovered_framerate_and_image {} no_framerate_clip (by decide) (by decide)
  have h1 := h.1 (Or.inl (by decide))
  ⟨h1.1, h1.2.1, h1.2.2, h.2.2.2.1⟩

/-! ## C26: unmapping before a refill -/

theorem mem_map_unmap_full (l : List Frame) (f : Frame) (h : f ∈ l.map Frame.unmap) :
    f.full = false := by
  obtain ⟨g, -, hg⟩ := List.mem_map.mp h
  rw [← hg]
  rfl

/-- The video ring keeps the rule: `fill_video_frame` unmaps the slot before it maps the new
buffer into it. -/
theorem video_slot_unmapped_at_map (p : MediaPlayer α) (status : FrameStatus) :
    (vslot_at_map p status).full = false := rfl

/-- The video ring keeps the rule: `close` on an open player unmaps every video slot. -/
theorem close_unmaps_video (p : MediaPlayer α) (f : Frame) (ho : p.opened_ = true)
    (hf : f ∈ (close p).vframe_) : f.full = false := by
  unfold close at hf
  rw [ho] at hf
  exact mem_map_unmap_full _ f hf

/-- C26 (defect of the audio ring): in `fill_audio_frame` the statement `unmap()` is
commented out, and so is the loop over the audio ring in `close`.  After three
audio samples without a tick (`audio_full_player`, open, rings of three slots)
the fourth `fill_audio_frame` targets slot 0 and maps its buffer into it while
that slot still holds a mapped buffer (the call succeeds), whereas the video
slot targeted in the same state is unmapped first; and after `close` slot 0 of
the audio ring is still full. -/
theorem audio_buffer_not_unmapped :
    audio_full_player.opened_ = true
    ∧ atarget audio_full_player = 0
    ∧ (aslot_at_map audio_full_player FrameStatus.SAMPLE).full = true
    ∧ (fill_audio_frame audio_full_player (some good_buffer) FrameStatus.SAMPLE).1 = true
    ∧ (vslot_at_map audio_full_player FrameStatus.SAMPLE).full = false
    ∧ ((close audio_full_player).aframe_.getD 0 {}).full = true := by
  refine ⟨by decide, by decide, by decide, by decide, by decide, by decide⟩

/-! ## C28: the rounding of the jump target -/

theorem forward_round (step e : Nat) (hstep : 0 < step) (hno : step * (e / step + 1) < 2 ^ 64) :
    (step * ((e / step + 1) % 2 ^ 64)) % 2 ^ 64 = step * (e / step + 1) := by
  have h1 : e / step + 1 ≤ step * (e / step + 1) := Nat.le_mul_of_pos_left _ hstep
  rw [Nat.mod_eq_of_lt (lt_of_le_of_lt h1 hno), Nat.mod_eq_of_lt hno]

theorem backward_round (step b : Nat) (hb : b < 2 ^ 64) :
    (step * (b / step)) % 2 ^ 64 = step * (b / step) :=
  Nat.mod_eq_of_lt (lt_of_le_of_lt (Nat.mul_div_le b step) hb)

/-- C28, as stated, fails at the far end of the 64-bit range: for the step 2 and the
valid gap `[2^64 - 4, 2^64 - 2)` the forward product `2 * (gap.end / 2 + 1)` is
`2^64`, which a `guint64` holds as 0: the jump target is 0, not above the gap's
end. -/
theorem far_gap_jump_wraps :
    far_gap_player.timeline_.step = 2
    ∧ far_gap_player.rate_ > 0
    ∧ far_gap_player.timeline_.getGapAt far_gap_player.position_
        = some { begin := 2 ^ 64 - 4, end_ := 2 ^ 64 - 2 }
    ∧ TimeInterval.is_valid { begin := 2 ^ 64 - 4, end_ := 2 ^ 64 - 2 } = true
    ∧ tick_jump far_gap_player { begin := 2 ^ 64 - 4, end_ := 2 ^ 64 - 2 } = 0
    ∧ ¬ ((2 ^ 64 - 2 : Nat) < tick_jump far_gap_player { begin := 2 ^ 64 - 4, end_ := 2 ^ 64 - 2 })
    := by
  refine ⟨by decide, by decide, by decide, by decide, by decide, by decide⟩

/-- C28 (amended): for every positive timeline step and every gap `[b, e]`, the jump target
`j` of the consumer tick is, for `rate > 0` and as long as the product
`step * (floor(e / step) + 1)` stays below `2^64`, that product: the least
multiple of `step` strictly greater than `e`, so `e < j ≤ e + step`; for
`rate ≤ 0` (`b` being a 64-bit value) it is `step * floor(b / step)`, the greatest
multiple of `step` not exceeding `b`, so `b - step < j ≤ b`. -/
theorem tick_jump_rounding (p : MediaPlayer α) (gap : TimeInterval)
    (hstep : 0 < p.timeline_.step) :
    (p.rate_ > 0 → p.timeline_.step * (gap.end_ / p.timeline_.step + 1) < 2 ^ 64 →
      tick_jump p gap = p.timeline_.step * (gap.end_ / p.timeline_.step + 1)
      ∧ p.timeline_.step ∣ tick_jump p gap
      ∧ gap.end_ < tick_jump p gap ∧ tick_jump p gap ≤ gap.end_ + p.timeline_.step
      ∧ ∀ m, p.timeline_.step ∣ m → gap.end_ < m → tick_jump p gap ≤ m)
    ∧ (p.rate_ ≤ 0 → gap.begin < 2 ^ 64 →
      tick_jump p gap = p.timeline_.step * (gap.begin / p.timeline_.step)
      ∧ p.timeline_.step ∣ tick_jump p gap
      ∧ gap.begin < tick_jump p gap + p.timeline_.step ∧ tick_jump p gap ≤ gap.begin
      ∧ ∀ m, p.timeline_.step ∣ m → m ≤ gap.begin → m ≤ tick_jump p gap) := by
  constructor
  · intro hr hno
    have hj : tick_jump p gap = p.timeline_.step * (gap.end_ / p.timeline_.step + 1) := by
      unfold tick_jump
      rw [if_pos hr]
      exact forward_round _ _ hstep hno
    rw [hj]
    refine ⟨rfl, Dvd.intro _ rfl, Nat.lt_mul_div_succ _ hstep, ?_, ?_⟩
    · rw [Nat.mul_add, Nat.mul_one]
      exact Nat.add_le_add_right (Nat.mul_div_le _ _) _
    · rintro m ⟨k, rfl⟩ hlt
      apply Nat.mul_le_mul_left
      exact Nat.succ_le_of_lt (Nat.div_lt_of_lt_mul hlt)
  · intro hr hb
    have hj : tick_jump p gap = p.timeline_.step * (gap.begin / p.timeline_.step) := by
      unfold tick_jump
      rw [if_neg (not_lt.mpr hr)]
      exact backward_round _ _ hb
    rw [hj]
    refine ⟨rfl, Dvd.intro _ rfl, ?_, Nat.mul_div_le _ _, ?_⟩
    · have := Nat.lt_mul_div_succ gap.begin hstep
      rw [Nat.mul_add, Nat.mul_one] at this
      exact this
    · rintro m ⟨k, rfl⟩ hle
      apply Nat.mul_le_mul_left
      exact (Nat.le_div_iff_mul_le hstep).mpr (by rw [Nat.mul_comm]; exact hle)

/-- C28 on `gap_player` (step 1000, gap `[2000, 5000)`, rate 1) and, backward, on the same
timeline at rate -1. -/
theorem tick_jump_rounding_witness :
    (tick_jump gap_player { begin := 2000, end_ := 5000 } = 1000 * (5000 / 1000 + 1)
      ∧ (5000 : Nat) < tick_jump gap_player { begin := 2000, end_ := 5000 }
      ∧ tick_jump gap_player { begin := 2000, end_ := 5000 } ≤ 5000 + 1000)
    ∧ (tick_jump reverse_player { begin := 2000, end_ := 5000 } = 1000 * (2000 / 1000)
      ∧ tick_jump reverse_player { begin := 2000, end_ := 5000 } ≤ 2000) :=
  have h := (tick_jump_rounding gap_player { begin := 2000, end_ := 5000 } (by decide)).1
    (by decide) (by decide)
  have h2 := (tick_jump_rounding reverse_player { begin := 2000, end_ := 5000 } (by decide)).2
    (by decide) (by decide)
  ⟨⟨h.1, h.2.2.1, h.2.2.2.1⟩, ⟨h2.1, h2.2.2.2.1⟩⟩

/-! ## C29: the ring indices stay inside the rings -/

theorem fill_video_at_indices (p : MediaPlayer α) (w : Nat) (buf : Option GstBuffer)
    (status : FrameStatus) :
    (fill_video_at p w buf status).2.vframe_.length = p.vframe_.length
    ∧ ((fill_video_at p w buf status).2.vwrite_index_ = w
        ∨ (fill_video_at p w buf status).2.vwrite_index_ = (w + 1) % p.N_VFRAME)
    ∧ ((fill_video_at p w buf status).2.vlast_index_ = w
        ∨ (fill_video_at p w buf status).2.vlast_index_ = p.vlast_index_)
    ∧ (fill_video_at p w buf status).2.aframe_ = p.aframe_
    ∧ (fill_video_at p w buf status).2.awrite_index_ = p.awrite_index_
    ∧ (fill_video_at p w buf status).2.alast_index_ = p.alast_index_ := by
  unfold fill_video_at
  cases buf with
  | none => exact ⟨List.length_set _ _ _, Or.inr rfl, Or.inl rfl, rfl, rfl, rfl⟩
  | some b =>
    dsimp only
    split_ifs <;> refine ⟨List.length_set _ _ _, ?_, ?_, rfl, rfl, rfl⟩ <;>
      first | exact Or.inl rfl | exact Or.inr rfl

theorem fill_audio_at_indices (p : MediaPlayer α) (w : Nat) (buf : Option GstBuffer)
    (status : FrameStatus) :
    (fill_audio_at p w buf status).2.aframe_.length = p.aframe_.length
    ∧ ((fill_audio_at p w buf status).2.awrite_index_ = w
        ∨ (fill_audio_at p w buf status).2.awrite_index_ = (w + 1) % p.N_AFRAME)
    ∧ ((fill_audio_at p w buf status).2.alast_index_ = w
        ∨ (fill_audio_at p w buf status).2.alast_index_ = p.alast_index_)
    ∧ (fill_audio_at p w buf status).2.vframe_ = p.vframe_
    ∧ (fill_audio_at p w buf status).2.vwrite_index_ = p.vwrite_index_
    ∧ (fill_audio_at p w buf status).2.vlast_index_ = p.vlast_index_ := by
  unfold fill_audio_at
  cases buf with
  | none => exact ⟨List.length_set _ _ _, Or.inr rfl, Or.inl rfl, rfl, rfl, rfl⟩
  | some b =>
    dsimp only
    split_ifs <;> refine ⟨List.length_set _ _ _, ?_, ?_, rfl, rfl, rfl⟩ <;>
      first | exact Or.inl rfl | exact Or.inr rfl

theorem indices_in_rings_init (nv na : Nat) (hv : 0 < nv) (ha : 0 < na) :
    indices_in_rings nv na (MediaPlayer.init nv na : MediaPlayer α) := by
  unfold indices_in_rings MediaPlayer.N_VFRAME MediaPlayer.N_AFRAME MediaPlayer.init
  simp [hv, ha]

theorem indices_in_rings_fill_video (nv na : Nat) (p : MediaPlayer α) (buf : Option GstBuffer)
    (status : FrameStatus) (h : indices_in_rings nv na p) :
    indices_in_rings nv na (fill_video_frame p buf status).2 := by
  obtain ⟨h1, h2, h3, h4, h5, h6⟩ := h
  have hw : vtarget p < nv := by rw [← h1]; exact vtarget_lt p (by rw [h1]; exact h3)
  rw [fill_video_frame_eq]
  obtain ⟨a1, a2, a3, a4, a5, a6⟩ := fill_video_at_indices p (vtarget p) buf status
  unfold indices_in_rings MediaPlayer.N_VFRAME MediaPlayer.N_AFRAME at *
  rw [a1, a4, a5, a6]
  refine ⟨h1, h2, ?_, ?_, h5, h6⟩
  · rcases a2 with a2 | a2
    · rw [a2]; exact hw
    · rw [a2, h1]; exact Nat.mod_lt _ (by omega)
  · rcases a3 with a3 | a3
    · rw [a3]; exact hw
    · rw [a3]; exact h4

theorem indices_in_rings_fill_audio (nv na : Nat) (p : MediaPlayer α) (buf : Option GstBuffer)
    (status : FrameStatus) (h : indices_in_rings nv na p) :
    indices_in_rings nv na (fill_audio_frame p buf status).2 := by
  obtain ⟨h1, h2, h3, h4, h5, h6⟩ := h
  have hw : atarget p < na := by rw [← h2]; exact atarget_lt p (by rw [h2]; exact h5)
  rw [fill_audio_frame_eq]
  obtain ⟨a1, a2, a3, a4, a5, a6⟩ := fill_audio_at_indices p (atarget p) buf status
  unfold indices_in_rings MediaPlayer.N_VFRAME MediaPlayer.N_AFRAME at *
  rw [a1, a4, a5, a6]
  refine ⟨h1, h2, h3, h4, ?_, ?_⟩
  · rcases a2 with a2 | a2
    · rw [a2]; exact hw
    · rw [a2, h2]; exact Nat.mod_lt _ (by omega)
  · rcases a3 with a3 | a3
    · rw [a3]; exact hw
    · rw [a3]; exact h6

theorem update_video_indices (p : MediaPlayer α) :
    (update_video p).1.vframe_.length = p.vframe_.length
    ∧ (update_video p).1.vwrite_index_ = p.vwrite_index_
    ∧ (update_video p).1.vlast_index_ = p.vlast_index_
    ∧ (update_video p).1.aframe_ = p.aframe_
    ∧ (update_video p).1.awrite_index_ = p.awrite_index_
    ∧ (update_video p).1.alast_index_ = p.alast_index_ := by
  unfold update_video
  dsimp only
  split_ifs <;>
    first
    | exact ⟨rfl, rfl, rfl, rfl, rfl, rfl⟩
    | exact ⟨List.length_set _ _ _, rfl, rfl, rfl, rfl, rfl⟩

theorem update_audio_indices (p : MediaPlayer α) (nl : Bool) :
    (update_audio p nl).1.aframe_.length = p.aframe_.length
    ∧ (update_audio p nl).1.awrite_index_ = p.awrite_index_
    ∧ (update_audio p nl).1.alast_index_ = p.alast_index_
    ∧ (update_audio p nl).1.vframe_ = p.vframe_
    ∧ (update_audio p nl).1.vwrite_index_ = p.vwrite_index_
    ∧ (update_audio p nl).1.vlast_index_ = p.vlast_index_ := by
  unfold update_audio
  dsimp only
  split_ifs <;>
    first
    | exact ⟨rfl, rfl, rfl, rfl, rfl, rfl⟩
    | exact ⟨List.length_set _ _ _, rfl, rfl, rfl, rfl, rfl⟩

theorem execute_open_rings (p : MediaPlayer α) (env : OpenEnv α) :
    (execute_open p env).vframe_ = p.vframe_ ∧ (execute_open p env).aframe_ = p.aframe_
    ∧ (execute_open p env).vwrite_index_ = p.vwrite_index_
    ∧ (execute_open p env).vlast_index_ = p.vlast_index_
    ∧ (execute_open p env).awrite_index_ = p.awrite_index_
    ∧ (execute_open p env).alast_index_ = p.alast_index_ := by
  unfold execute_open
  dsimp only
  by_cases h1 : env.parse_error = true
  · rw [if_pos h1]
    exact ⟨rfl, rfl, rfl, rfl, rfl, rfl⟩
  · rw [if_neg h1]
    by_cases h2 : (!env.configured) = true
    · rw [if_pos h2]
      exact ⟨rfl, rfl, rfl, rfl, rfl, rfl⟩
    · rw [if_neg h2]
      split
      · exact ⟨rfl, rfl, rfl, rfl, rfl, rfl⟩
      · split_ifs <;> exact ⟨rfl, rfl, rfl, rfl, rfl, rfl⟩

/-- A tick keeps the sizes of the rings and their four indices. -/
theorem indices_in_rings_update (nv na : Nat) (p q : MediaPlayer α) (env : OpenEnv α)
    (h : indices_in_rings nv na p) (hq : update p env = some q) :
    indices_in_rings nv na q := by
  have key : q.vframe_.length = p.vframe_.length ∧ q.aframe_.length = p.aframe_.length
      ∧ q.vwrite_index_ = p.vwrite_index_ ∧ q.vlast_index_ = p.vlast_index_
      ∧ q.awrite_index_ = p.awrite_index_ ∧ q.alast_index_ = p.alast_index_ := by
    cases hr : runs_passes p with
    | true =>
      rw [update_of_runs_passes p env hr] at hq
      have hc := update_manage_some _ _ _ hq
      unfold controller_only at hc
      obtain ⟨-, -, -, -, -, -, -, -, c9, c10, c11, c12, c13, c14, -⟩ := hc
      obtain ⟨v1, v2, v3, v4, v5, v6⟩ := update_video_indices p
      obtain ⟨a1, a2, a3, a4, a5, a6⟩ := update_audio_indices (update_video p).1 (update_video p).2
      unfold update_passes at c9 c10 c11 c12 c13 c14
      rw [c9, c10, c11, c12, c13, c14, a1, a2, a3, a4, a5, a6, v1, v2, v3, v4, v5, v6]
      exact ⟨rfl, rfl, rfl, rfl, rfl, rfl⟩
    | false =>
      cases ho : p.opened_ with
      | true =>
        rw [update_skipped p env ho hr] at hq
        simp only [Option.some.injEq] at hq
        rw [← hq]
        exact ⟨rfl, rfl, rfl, rfl, rfl, rfl⟩
      | false =>
        unfold update at hq
        by_cases hf : p.failed_ = true
        · rw [if_pos hf] at hq
          simp only [Option.some.injEq] at hq
          rw [← hq]
          exact ⟨rfl, rfl, rfl, rfl, rfl, rfl⟩
        · rw [if_neg hf, ho] at hq
          simp only [Bool.not_false, if_true] at hq
          split at hq
          · simp only [Option.some.injEq] at hq
            rw [← hq]
            exact ⟨rfl, rfl, rfl, rfl, rfl, rfl⟩
          · split_ifs at hq
            · simp only [Option.some.injEq] at hq
              rw [← hq]
              exact ⟨congrArg List.length (execute_open_rings _ env).1,
                congrArg List.length (execute_open_rings _ env).2.1,
                (execute_open_rings _ env).2.2.1, (execute_open_rings _ env).2.2.2.1,
                (execute_open_rings _ env).2.2.2.2.1, (execute_open_rings _ env).2.2.2.2.2⟩
            · simp only [Option.some.injEq] at hq
              rw [← hq]
              exact ⟨rfl, rfl, rfl, rfl, rfl, rfl⟩
            · simp only [Option.some.injEq] at hq
              rw [← hq]
              exact ⟨rfl, rfl, rfl, rfl, rfl, rfl⟩
  obtain ⟨k1, k2, k3, k4, k5, k6⟩ := key
  unfold indices_in_rings MediaPlayer.N_VFRAME MediaPlayer.N_AFRAME at *
  rw [k1, k2, k3, k4, k5, k6]
  exact h

theorem indices_in_rings_close (nv na : Nat) (hv : 0 < nv) (ha : 0 < na) (p : MediaPlayer α)
    (h : indices_in_rings nv na p) : indices_in_rings nv na (close p) := by
  unfold close
  split_ifs
  · exact h
  · unfold indices_in_rings MediaPlayer.N_VFRAME MediaPlayer.N_AFRAME at *
    simp only [List.length_map]
    exact ⟨h.1, h.2.1, hv, hv, ha, ha⟩

/-! ## C30: `BgtaskVidstab::Initialize` and image sequences -/

theorem append_ne_empty (a b : String) (h : 0 < b.length) : a ++ b ≠ "" := by
  intro he
  have h2 := congrArg String.length he
  rw [String.length_append] at h2
  have h3 : ("" : String).length = 0 := rfl
  omega

theorem msg_must_have_ne (name type_name : String) : msg_must_have name type_name ≠ "" :=
  append_ne_empty _ _ (by decide)

theorem msg_not_directory_ne (name value : String) : msg_not_directory name value ≠ "" :=
  append_ne_empty _ _ (by decide)

theorem msg_not_file_ne (name value : String) : msg_not_file name value ≠ "" :=
  append_ne_empty _ _ (by decide)

theorem get_string_some (jnTask : JsonObject) (name s : String)
    (h : jnTask.get_string name = some s) : jnTask.lookup name = some (JsonValue.string s) := by
  unfold JsonObject.get_string at h
  split at h
  · next s2 heq =>
    simp only [Option.some.injEq] at h
    rw [heq, h]
  · simp at h

theorem get_number_some (jnTask : JsonObject) (name : String) (n : ℚ)
    (h : jnTask.get_number name = some n) : jnTask.lookup name = some (JsonValue.number n) := by
  unfold JsonObject.get_number at h
  split at h
  · next s2 heq =>
    simp only [Option.some.injEq] at h
    rw [heq, h]
  · simp at h

theorem get_boolean_of_lookup (jnTask : JsonObject) (name : String) (b : Bool)
    (h : jnTask.lookup name = some (JsonValue.boolean b)) : jnTask.get_boolean name = some b := by
  unfold JsonObject.get_boolean
  rw [h]

/-- Every failure of the parser part leaves a non-empty message. -/
theorem Initialize_parser_msg (env : VidstabEnv) (t : BgtaskVidstab) (jnTask : JsonObject)
    (msg : String) (h : t.Initialize_parser env jnTask = some msg) : msg ≠ "" := by
  unfold BgtaskVidstab.Initialize_parser at h
  split at h
  · split at h
    · simp only [Option.some.injEq] at h
      rw [← h]; exact msg_not_directory_ne _ _
    · split at h
      · simp only [Option.some.injEq] at h
        rw [← h]; exact msg_must_have_ne _ _
      · split at h
        · simp only [Option.some.injEq] at h
          rw [← h]; exact msg_must_have_ne _ _
        · split at h
          · simp only [Option.some.injEq] at h
            rw [← h]; exact append_ne_empty _ _ (by decide)
          · split at h
            · simp only [Option.some.injEq] at h
              rw [← h]; exact msg_must_have_ne _ _
            · dsimp only at h
              split at h
              · simp only [Option.some.injEq] at h
                rw [← h]; decide
              · split at h
                · simp only [Option.some.injEq] at h
                  rw [← h]; exact append_ne_empty _ _ (by decide)
                · cases h
  · split at h
    · simp only [Option.some.injEq] at h
      rw [← h]; exact msg_not_file_ne _ _
    · split at h
      · simp only [Option.some.injEq] at h
        rw [← h]; decide
      · split at h
        · simp only [Option.some.injEq] at h
          rw [← h]; exact append_ne_empty _ _ (by decide)
        · cases h

/-- The end of `Initialize`: a failure leaves a non-empty message and `m_bInited` as it was,
a success has read the two clip attributes as numbers and sets `m_bInited`. -/
theorem Initialize_clip_spec (env : VidstabEnv) (t : BgtaskVidstab) (jnTask : JsonObject) :
    ((t.Initialize_clip env jnTask).1 = false →
      (t.Initialize_clip env jnTask).2.m_errMsg ≠ ""
      ∧ (t.Initialize_clip env jnTask).2.m_bInited = t.m_bInited)
    ∧ ((t.Initialize_clip env jnTask).1 = true →
      (∃ n, jnTask.lookup "clip_start_offset" = some (JsonValue.number n))
      ∧ (∃ n, jnTask.lookup "clip_length" = some (JsonValue.number n))
      ∧ (t.Initialize_clip env jnTask).2.m_bInited = true) := by
  unfold BgtaskVidstab.Initialize_clip
  dsimp only
  split
  · exact ⟨fun _ => ⟨append_ne_empty _ _ (by decide), rfl⟩, fun h => by simp [BgtaskVidstab.fail] at h⟩
  · split
    · exact ⟨fun _ => ⟨msg_must_have_ne _ _, rfl⟩, fun h => by simp [BgtaskVidstab.fail] at h⟩
    · next start hstart =>
      split
      · exact ⟨fun _ => ⟨msg_must_have_ne _ _, rfl⟩, fun h => by simp [BgtaskVidstab.fail] at h⟩
      · next length hlength =>
        split_ifs
        · exact ⟨fun _ => ⟨append_ne_empty _ _ (by decide), rfl⟩,
            fun h => by simp [BgtaskVidstab.fail] at h⟩
        · exact ⟨fun h => by simp at h,
            fun _ => ⟨⟨start, get_number_some _ _ _ hstart⟩,
              ⟨length, get_number_some _ _ _ hlength⟩, rfl⟩⟩

/-- What `Initialize` returns, whatever the task: a failure leaves a non-empty message and
`m_bInited` as it was; a success has found `work_dir` a string naming a
directory, `source_url` a string naming a file that, for an image sequence, is
a directory as well, the two clip attributes numbers, and sets `m_bInited`. -/
theorem Initialize_spec (env : VidstabEnv) (t : BgtaskVidstab) (jnTask : JsonObject) :
    ((t.Initialize env jnTask).1 = false →
      (t.Initialize env jnTask).2.m_errMsg ≠ ""
      ∧ (t.Initialize env jnTask).2.m_bInited = t.m_bInited)
    ∧ ((t.Initialize env jnTask).1 = true →
      (∃ w, jnTask.lookup "work_dir" = some (JsonValue.string w) ∧ env.IsDirectory w = true)
      ∧ (∃ u, jnTask.lookup "source_url" = some (JsonValue.string u) ∧ env.IsFile u = true
          ∧ (jnTask.get_boolean "is_image_seq" = some true → env.IsDirectory u = true))
      ∧ (∃ n, jnTask.lookup "clip_start_offset" = some (JsonValue.number n))
      ∧ (∃ n, jnTask.lookup "clip_length" = some (JsonValue.number n))
      ∧ (t.Initialize env jnTask).2.m_bInited = true) := by
  unfold BgtaskVidstab.Initialize
  split
  · exact ⟨fun _ => ⟨msg_must_have_ne _ _, rfl⟩, fun h => by simp [BgtaskVidstab.fail] at h⟩
  · next w hw =>
    split
    · exact ⟨fun _ => ⟨msg_not_directory_ne _ _, rfl⟩,
        fun h => by simp [BgtaskVidstab.fail] at h⟩
    · next hdir =>
      dsimp only
      split
      · exact ⟨fun _ => ⟨msg_must_have_ne _ _, rfl⟩,
          fun h => by simp [BgtaskVidstab.fail] at h⟩
      · next u hu =>
        split
        · exact ⟨fun _ => ⟨msg_not_file_ne _ _, rfl⟩,
            fun h => by simp [BgtaskVidstab.fail] at h⟩
        · next hfile =>
          split
          · exact ⟨fun _ => ⟨msg_must_have_ne _ _, rfl⟩,
              fun h => by simp [BgtaskVidstab.fail] at h⟩
          · next b hb =>
            split
            · exact ⟨fun _ => ⟨msg_not_directory_ne _ _, rfl⟩,
                fun h => by simp [BgtaskVidstab.fail] at h⟩
            · next hseq =>
              split
              · exact ⟨fun _ => ⟨msg_not_file_ne _ _, rfl⟩,
                  fun h => by simp [BgtaskVidstab.fail] at h⟩
              · split
                · next msg hmsg =>
                  exact ⟨fun _ => ⟨Initialize_parser_msg env _ jnTask msg hmsg, rfl⟩,
                    fun h => by simp [BgtaskVidstab.fail] at h⟩
                · obtain ⟨c1, c2⟩ := Initialize_clip_spec env
                    { m_errMsg := t.m_errMsg, m_bInited := t.m_bInited, m_strWorkDir := w,
                      m_strTrfPath := env.JoinPath w "transforms.trf", m_strSrcUrl := u,
                      m_i64ClipId :=
                        match jnTask.get_number "clip_id" with
                        | some n => double_to_integer n
                        | none => -1,
                      m_bIsImageSeq := b, m_pVidstm := t.m_pVidstm, m_hVclip := t.m_hVclip }
                    jnTask
                  refine ⟨c1, fun h => ?_⟩
                  obtain ⟨d1, d2, d3⟩ := c2 h
                  refine ⟨⟨w, get_string_some _ _ _ hw, by simpa using hdir⟩,
                    ⟨u, get_string_some _ _ _ hu, by simpa using hfile, ?_⟩, d1, d2, d3⟩
                  intro hb2
                  rw [hb] at hb2
                  simp only [Option.some.injEq] at hb2
                  rw [hb2] at hseq
                  simpa using hseq

/-- C30: `BgtaskVidstab::Initialize` rejects every image-sequence task: when no path is both
a regular file and a directory and `is_image_seq` is true, it returns false,
leaves a non-empty error message and leaves `m_bInited` as it was (false for a
new task).  For a task whose `is_image_seq` is false it returns true only if
`work_dir` is a string naming a directory, `source_url` a string naming a file,
and `clip_start_offset` and `clip_length` are numbers. -/
theorem vidstab_initialize_rejects_image_seq (env : VidstabEnv) (t : BgtaskVidstab)
    (jnTask : JsonObject) :
    ((∀ path, ¬ (env.IsFile path = true ∧ env.IsDirectory path = true)) →
      jnTask.lookup "is_image_seq" = some (JsonValue.boolean true) →
      (t.Initialize env jnTask).1 = false
      ∧ (t.Initialize env jnTask).2.m_errMsg ≠ ""
      ∧ (t.Initialize env jnTask).2.m_bInited = t.m_bInited)
    ∧ (jnTask.lookup "is_image_seq" = some (JsonValue.boolean false) →
      (t.Initialize env jnTask).1 = true →
      (∃ w, jnTask.lookup "work_dir" = some (JsonValue.string w) ∧ env.IsDirectory w = true)
      ∧ (∃ u, jnTask.lookup "source_url" = some (JsonValue.string u) ∧ env.IsFile u = true)
      ∧ (∃ n, jnTask.lookup "clip_start_offset" = some (JsonValue.number n))
      ∧ (∃ n, jnTask.lookup "clip_length" = some (JsonValue.number n))) := by
  obtain ⟨hfalse, htrue⟩ := Initialize_spec env t jnTask
  constructor
  · intro hex hseq
    have hres : (t.Initialize env jnTask).1 = false := by
      cases hr : (t.Initialize env jnTask).1 with
      | false => rfl
      | true =>
        obtain ⟨-, ⟨u, -, hfile, hdir⟩, -⟩ := htrue hr
        exact absurd ⟨hfile, hdir (get_boolean_of_lookup _ _ _ hseq)⟩ (hex u)
    exact ⟨hres, hfalse hres⟩
  · intro _ hr
    obtain ⟨h1, ⟨u, hu, hfile, -⟩, h3, h4, -⟩ := htrue hr
    exact ⟨h1, ⟨u, hu, hfile⟩, h3, h4⟩

/-- C30 on a file system with the directory `/work` and the file `/clip.mp4`: the image
sequence in `/work` is rejected with a message, the clip `/clip.mp4` is accepted. -/
theorem vidstab_initialize_rejects_image_seq_witness :
    ((BgtaskVidstab.Initialize vidstab_env {} image_seq_task).1 = false
      ∧ (BgtaskVidstab.Initialize vidstab_env {} image_seq_task).2.m_errMsg ≠ ""
      ∧ (BgtaskVidstab.Initialize vidstab_env {} image_seq_task).2.m_bInited = false)
    ∧ ((∃ w, clip_task.lookup "work_dir" = some (JsonValue.string w)
          ∧ vidstab_env.IsDirectory w = true)
      ∧ (∃ u, clip_task.lookup "source_url" = some (JsonValue.string u)
          ∧ vidstab_env.IsFile u = true)
      ∧ (∃ n, clip_task.lookup "clip_start_offset" = some (JsonValue.number n))
      ∧ (∃ n, clip_task.lookup "clip_length" = some (JsonValue.number n))) :=
  ⟨(vidstab_initialize_rejects_image_seq vidstab_env {} image_seq_task).1
      (fun path h => by
        have h1 : path = "/clip.mp4" := by simpa [vidstab_env] using h.1
        have h2 : path = "/work" := by simpa [vidstab_env] using h.2
        rw [h1] at h2
        exact absurd h2 (by decide))
      (by decide),
    (vidstab_initialize_rejects_image_seq vidstab_env {} clip_task).2 (by decide) (by decide)⟩

/-! ## C11: a rejected buffer and the slot the consumer reads -/

/-- C11, as stated, fails in its last part: a rejected fill leaves `last_index` as it was,
but `last_index` may already designate the slot the call targeted.  On
`demo_player` (no fill yet, both indices 0) the rejected slot is the one the
consumer reads.  On `sample_behind_eos_player` (two slots, the write index on an
unread EOS) the call steps onto slot 1, which `vlast_index_` designates and
which holds an unread sample: the call returns failure, the sample is replaced
by an INVALID slot, and `vlast_index_` still designates it. -/
theorem rejected_slot_is_the_consumers :
    (fill_video_frame demo_player (some bad_buffer) FrameStatus.SAMPLE).1 = false
    ∧ (fill_video_frame demo_player (some bad_buffer) FrameStatus.SAMPLE).2.vlast_index_
        = vtarget demo_player
    ∧ vtarget sample_behind_eos_player = 1
    ∧ sample_behind_eos_player.vlast_index_ = 1
    ∧ vread sample_behind_eos_player
        = { status := FrameStatus.SAMPLE, full := true, position := 7000 }
    ∧ (fill_video_frame sample_behind_eos_player (some bad_buffer) FrameStatus.SAMPLE).1 = false
    ∧ (fill_video_frame sample_behind_eos_player (some bad_buffer)
        FrameStatus.SAMPLE).2.vlast_index_ = vtarget sample_behind_eos_player
    ∧ (vread (fill_video_frame sample_behind_eos_player (some bad_buffer)
        FrameStatus.SAMPLE).2).status = FrameStatus.INVALID := by
  refine ⟨by decide, by decide, by decide, by decide, by decide, by decide, by decide,
    by decide⟩

/-- C11 (amended): in both rings, for a write index inside the ring, a fill call given a
buffer that fails to map, or whose format or plane count does not match,
returns failure, leaves the status INVALID in the slot it targeted, and leaves
`last_index` as it was: the call does not publish the rejected slot.  When
`last_index` designates another slot than the targeted one, the slot the
consumer reads is unchanged; when it designates the targeted slot, the consumer
finds that slot INVALID. -/
theorem fill_frame_rejects_bad_buffer (p : MediaPlayer α) (b : GstBuffer) (status : FrameStatus)
    (hbad : b.maps = false ∨ b.format_ok = false) :
    (p.vwrite_index_ < p.N_VFRAME →
      (fill_video_frame p (some b) status).1 = false
      ∧ ((fill_video_frame p (some b) status).2.vframe_.getD (vtarget p) {}).status
          = FrameStatus.INVALID
      ∧ (fill_video_frame p (some b) status).2.vlast_index_ = p.vlast_index_
      ∧ (p.vlast_index_ ≠ vtarget p →
          vread (fill_video_frame p (some b) status).2 = vread p)
      ∧ (p.vlast_index_ = vtarget p →
          (vread (fill_video_frame p (some b) status).2).status = FrameStatus.INVALID))
    ∧ (p.awrite_index_ < p.N_AFRAME →
      (fill_audio_frame p (some b) status).1 = false
      ∧ ((fill_audio_frame p (some b) status).2.aframe_.getD (atarget p) {}).status
          = FrameStatus.INVALID
      ∧ (fill_audio_frame p (some b) status).2.alast_index_ = p.alast_index_
      ∧ (p.alast_index_ ≠ atarget p →
          aread (fill_audio_frame p (some b) status).2 = aread p)
      ∧ (p.alast_index_ = atarget p →
          (aread (fill_audio_frame p (some b) status).2).status = FrameStatus.INVALID)) := by
  constructor
  · intro hw
    have ht := vtarget_lt p hw
    rw [fill_video_frame_eq]
    obtain ⟨hf, hst⟩ := fill_video_at_rejects p (vtarget p) b status hbad
    obtain ⟨-, hs, hother, -, hfail, -⟩ := fill_video_at_spec p (vtarget p) (some b) status ht
    have hl := (hfail hf).1
    refine ⟨hf, by rw [hs, hst], hl, ?_, ?_⟩
    · intro hne
      unfold vread
      rw [hl]
      exact hother _ hne
    · intro heq
      unfold vread
      rw [hl, heq, hs, hst]
  · intro hw
    have ht := atarget_lt p hw
    rw [fill_audio_frame_eq]
    have hf := fill_audio_at_rejects p (atarget p) b status hbad
    obtain ⟨-, hs, hother, -, hfail, -⟩ := fill_audio_at_spec p (atarget p) (some b) status ht
    have hl := (hfail hf).1
    refine ⟨hf, by rw [hs, (hfail hf).2.2], hl, ?_, ?_⟩
    · intro hne
      unfold aread
      rw [hl]
      exact hother _ hne
    · intro heq
      unfold aread
      rw [hl, heq, hs, (hfail hf).2.2]

/-- C11 on `eos_pending_player`, where `last_index` (slot 2) is not the targeted slot
(slot 1), and on `sample_behind_eos_player`, where it is: a buffer whose plane
count does not match the configured format. -/
theorem fill_frame_rejects_bad_buffer_witness :
    ((fill_video_frame eos_pending_player (some bad_buffer) FrameStatus.SAMPLE).1 = false
      ∧ ((fill_video_frame eos_pending_player (some bad_buffer)
          FrameStatus.SAMPLE).2.vframe_.getD (vtarget eos_pending_player) {}).status
          = FrameStatus.INVALID
      ∧ (fill_video_frame eos_pending_player (some bad_buffer)
          FrameStatus.SAMPLE).2.vlast_index_ = eos_pending_player.vlast_index_
      ∧ vread (fill_video_frame eos_pending_player (some bad_buffer) FrameStatus.SAMPLE).2
          = vread eos_pending_player)
    ∧ ((fill_audio_frame eos_pending_player (some bad_buffer) FrameStatus.SAMPLE).1 = false
      ∧ ((fill_audio_frame eos_pending_player (some bad_buffer)
          FrameStatus.SAMPLE).2.aframe_.getD (atarget eos_pending_player) {}).status
          = FrameStatus.INVALID
      ∧ (fill_audio_frame eos_pending_player (some bad_buffer)
          FrameStatus.SAMPLE).2.alast_index_ = eos_pending_player.alast_index_
      ∧ aread (fill_audio_frame eos_pending_player (some bad_buffer) FrameStatus.SAMPLE).2
          = aread eos_pending_player)
    ∧ (vread (fill_video_frame sample_behind_eos_player (some bad_buffer)
        FrameStatus.SAMPLE).2).status = FrameStatus.INVALID :=
  have h := fill_frame_rejects_bad_buffer eos_pending_player bad_buffer FrameStatus.SAMPLE
    (Or.inr rfl)
  have hv := h.1 (by decide)
  have ha := h.2 (by decide)
  have h2 := (fill_frame_rejects_bad_buffer sample_behind_eos_player bad_buffer
    FrameStatus.SAMPLE (Or.inr rfl)).1 (by decide)
  ⟨⟨hv.1, hv.2.1, hv.2.2.1, hv.2.2.2.1 (by decide)⟩,
    ⟨ha.1, ha.2.1, ha.2.2.1, ha.2.2.2.1 (by decide)⟩,
    h2.2.2.2.2 (by decide)⟩

/-! ## C18: the rewind loop at the end of the stream -/

/-- The event that the seek command sends when it is not suppressed. -/
theorem execute_seek_command_event (p : MediaPlayer α) (t : GstClockTime) (pl : Pipeline α)
    (hpl : p.pipeline_ = some pl) (hs : p.media_.seekable = true)
    (ht : ¬ seek_suppressed p t) (hr : p.rate_ ≠ 0) :
    ∃ e, execute_seek_command p t =
        { p with pipeline_ := some { sent := pl.sent ++ [Request.seek_event e],
                                     answers := pl.answers.tail },
                 seeking_ := if pl.answers.headD true then true else p.seeking_ }
      ∧ e.rate = p.rate_
      ∧ e.position = (if t = GST_CLOCK_TIME_NONE then p.position_ else t)
      ∧ (p.rate_ > 0 → e.start_type = GstSeekType.SET ∧ e.start = e.position) := by
  refine ⟨_, execute_seek_command_sends p t pl hpl hs ht hr, rfl, ?_, ?_⟩
  · by_cases hpos : p.rate_ > 0 <;> simp [SeekEvent.position, hpos]
  · intro hpos
    simp [SeekEvent.position, hpos]


/-- C18, as stated, fails: the rewind of the loop goes through the seek command, which
ignores a target less than one timeline step away from the position.  On
`leading_gap_eos_player` (loop mode REWIND, seekable, rate 1, step 1000, leading
gap `[0, 8500)`, unread EOS at 9000) the tick reads the EOS, the target
`next(0) = 8500` is 500 away from the position 9000, and the tick sends nothing
and leaves `seeking_` false.  On `audio_eos_at_start_player` (position 0, audio
EOS, empty video ring) the position stays 0, the target `next(0) = 0` is the
position, and again nothing is sent. -/
theorem rewind_loop_suppressed_near_target :
    (runs_passes leading_gap_eos_player = true
      ∧ leading_gap_eos_player.loop_ = LoopMode.LOOP_REWIND
      ∧ leading_gap_eos_player.media_.seekable = true
      ∧ leading_gap_eos_player.rate_ > 0
      ∧ (vread leading_gap_eos_player).status = FrameStatus.EOS
      ∧ leading_gap_eos_player.timeline_.next 0 = 8500
      ∧ (update leading_gap_eos_player {}).map (fun q => q.position_) = some 9000
      ∧ (update leading_gap_eos_player {}).map (fun q => dispatched leading_gap_eos_player q)
          = some []
      ∧ (update leading_gap_eos_player {}).map (fun q => q.seeking_) = some false)
    ∧ (runs_passes audio_eos_at_start_player = true
      ∧ audio_eos_at_start_player.loop_ = LoopMode.LOOP_REWIND
      ∧ audio_eos_at_start_player.media_.seekable = true
      ∧ audio_eos_at_start_player.rate_ > 0
      ∧ (aread audio_eos_at_start_player).status = FrameStatus.EOS
      ∧ audio_eos_at_start_player.timeline_.next 0 = 0
      ∧ (update audio_eos_at_start_player {}).map (fun q => q.position_) = some 0
      ∧ (update audio_eos_at_start_player {}).map
          (fun q => dispatched audio_eos_at_start_player q) = some []
      ∧ (update audio_eos_at_start_player {}).map (fun q => q.seeking_) = some false) := by
  refine ⟨⟨by decide, by decide, by decide, by decide, by decide, by decide, ?_, ?_, ?_⟩,
    ⟨by decide, by decide, by decide, by decide, by decide, by decide, ?_, ?_, ?_⟩⟩
  all_goals
    simp [update, update_video, update_audio, update_manage, execute_loop_command,
      rewind_default, Timeline.next, Timeline.previous, Timeline.getGapAt,
      leading_gap_eos_player, audio_eos_at_start_player, fill_video_frame, fill_audio_frame,
      dispatched, seek, execute_seek_command, MediaPlayer.sent, demo_player, MediaPlayer.init,
      MediaPlayer.N_VFRAME, MediaPlayer.N_AFRAME, Frame.unmap, TimeInterval.is_valid,
      CLAMP, ABS_DIFF, gst_event_new_seek, gst_element_send_event, ABS, forward_event,
      GST_CLOCK_TIME_NONE]

/-- C18 (amended): with loop mode REWIND on seekable media (timeline step non-zero), a tick
that runs its slot passes and reads an EOS slot ends with the seek command for
the target `timeline.next(0)` when `rate > 0` and
`timeline.previous(timeline.last())` when `rate < 0`, run on the state `s` that
the slot passes and the seek decision left; rate and desired state are
unchanged.  When that target is known and less than one timeline step away from
the position the slot passes left, the seek command is suppressed: the tick
ends in `s`, the loop sends nothing.  Otherwise, with a pipeline and a non-zero
rate, the seek event of the current rate at the target (the position when the
target is the sentinel) is the last request of the tick, with start = target
when playing forward; `seeking_` becomes true when the pipeline accepts it and
stays as in `s` when it rejects it.  In the scenario first 0, last 9000,
end 9000, step 1000, rate 1 with an EOS at position 9000, the tick sends the
forward seek event with start `next(0) = 0` and `seeking_` becomes true. -/
theorem rewind_loop_on_eos :
    (∀ (p : MediaPlayer α) (env : OpenEnv α), runs_passes p = true → p.timeline_.step ≠ 0 →
      p.loop_ = LoopMode.LOOP_REWIND → p.media_.seekable = true →
      ((vread p).status = FrameStatus.EOS ∨ (aread p).status = FrameStatus.EOS) →
      ∃ s, update_decide (update_passes p).1 (update_passes p).2 = some (s, true)
        ∧ s.rate_ = p.rate_ ∧ s.timeline_ = p.timeline_
        ∧ s.position_ = (update_passes p).1.position_
        ∧ (p.rate_ > 0 → update p env = some (execute_seek_command s (p.timeline_.next 0)))
        ∧ (p.rate_ < 0 →
            update p env
              = some (execute_seek_command s (p.timeline_.previous p.timeline_.last)))
        ∧ (∃ q, update p env = some q ∧ q.rate_ = p.rate_
            ∧ q.desired_state_ = p.desired_state_)
        ∧ (seek_suppressed s (rewind_target p) → update p env = some s)
        ∧ (¬ seek_suppressed s (rewind_target p) → p.rate_ ≠ 0 → p.pipeline_.isSome = true →
            ∃ q e, update p env = some q
              ∧ q.sent = s.sent ++ [Request.seek_event e]
              ∧ (∃ reqs, dispatched p q = reqs ++ [Request.seek_event e])
              ∧ e.rate = p.rate_
              ∧ e.position = (if rewind_target p = GST_CLOCK_TIME_NONE then s.position_
                              else rewind_target p)
              ∧ (p.rate_ > 0 → e.start_type = GstSeekType.SET ∧ e.start = e.position)
              ∧ (s.next_answer = true → q.seeking_ = true)
              ∧ (s.next_answer = false → q.seeking_ = s.seeking_)))
    ∧ (eos_player.timeline_.first = 0 ∧ eos_player.timeline_.last = 9000
      ∧ eos_player.timeline_.end_ = 9000 ∧ eos_player.timeline_.step = 1000
      ∧ eos_player.rate_ = 1 ∧ eos_player.loop_ = LoopMode.LOOP_REWIND
      ∧ vread eos_player = { status := FrameStatus.EOS, full := false, position := 9000 }
      ∧ eos_player.timeline_.next 0 = 0
      ∧ (update eos_player {}).map (fun q => dispatched eos_player q)
          = some [Request.seek_event (forward_event 0)]
      ∧ (update eos_player {}).map (fun q => q.seeking_) = some true) := by
  constructor
  · intro p env hrun hstep hloop hseekable heos
    obtain ⟨-, hnl, -, -, -, -, htl, -, hr, hd, hpipe, hm, hl, he, hfa, -⟩ :=
      update_passes_spec p
    have hnl2 : (update_passes p).2 = true := by
      rw [hnl]
      rcases heos with h | h
      · rw [decide_eq_true h]
        rfl
      · rw [decide_eq_true h, Bool.or_true]
    obtain ⟨s, l, hdec⟩ := update_decide_defined (update_passes p).1 (update_passes p).2
      (by rw [htl]; exact hstep)
    rw [hnl2] at hdec ⊢
    have hl2 := update_decide_keeps_loop _ s l hdec
    subst hl2
    obtain ⟨pl, sk, hs⟩ := update_decide_frame _ _ s true hdec
    have hsr : s.rate_ = p.rate_ := by rw [hs]; exact hr
    have hst : s.timeline_ = p.timeline_ := by rw [hs]; exact htl
    have hsd : s.desired_state_ = p.desired_state_ := by rw [hs]; exact hd
    have hsl : s.loop_ = LoopMode.LOOP_REWIND := by rw [hs]; exact hl.trans hloop
    have hse : s.enabled_ = true := by rw [hs]; exact he.trans (enabled_of_runs_passes p hrun)
    have hsm : s.media_.seekable = true := by
      rw [hs]
      show (update_passes p).1.media_.seekable = true
      rw [hm]
      exact hseekable
    have hsp : s.position_ = (update_passes p).1.position_ := by rw [hs]
    have hu : update p env = some (execute_seek_command s (rewind_target p)) := by
      rw [update_of_runs_passes p env hrun, update_manage_eq, hnl2, hdec]
      show some (execute_loop_command s) = _
      unfold execute_loop_command
      rw [if_pos hsl, rewind_default_eq s hse hsm, hsr, hst]
      rfl
    -- the requests sent before the loop command
    have htr : tracks p s :=
      tracks_trans _ _ _ (tracks_of_eq p (update_passes p).1 hpipe (by rw [hfa]; exact id))
        (tracks_update_decide _ _ s true hdec)
    refine ⟨s, hdec, hsr, hst, hsp, ?_, ?_, ⟨_, hu, ?_, ?_⟩, ?_, ?_⟩
    · intro hpos
      rw [hu]
      unfold rewind_target
      rw [if_pos hpos]
    · intro hneg
      rw [hu]
      unfold rewind_target
      rw [if_neg (not_lt.mpr hneg.le)]
    · rw [execute_seek_command_rate]
      exact hsr
    · rw [execute_seek_command_desired]
      exact hsd
    · intro hsup
      rw [hu, execute_seek_command_early s _ (Or.inr (Or.inr hsup))]
    · intro hsup hrate hsome
      obtain ⟨-, hiso, reqs, hsent, -, -⟩ := htr
      have hsome2 : s.pipeline_.isSome = true := by rw [hiso, hsome]
      obtain ⟨spl, hspl⟩ := Option.isSome_iff_exists.mp hsome2
      have hsr0 : s.rate_ ≠ 0 := by rw [hsr]; exact hrate
      obtain ⟨e, hx, he1, he2, he3⟩ :=
        execute_seek_command_event s (rewind_target p) spl hspl hsm hsup hsr0
      rw [hx] at hu
      have hna : s.next_answer = spl.answers.headD true := by
        unfold MediaPlayer.next_answer
        rw [hspl]
      refine ⟨_, e, hu, ?_, ⟨reqs, ?_⟩, he1.trans hsr, he2, ?_, ?_, ?_⟩
      · show spl.sent ++ [Request.seek_event e] = s.sent ++ [Request.seek_event e]
        rw [sent_of_pipeline s spl hspl]
      · refine dispatched_of_sent _ _ _ ?_
        show spl.sent ++ [Request.seek_event e] = p.sent ++ (reqs ++ [Request.seek_event e])
        rw [← sent_of_pipeline s spl hspl, hsent, List.append_assoc]
      · intro hpos
        exact he3 (by rw [hsr]; exact hpos)
      · intro ha
        rw [hna] at ha
        show (if spl.answers.headD true = true then true else s.seeking_) = true
        rw [ha]
        rfl
      · intro ha
        rw [hna] at ha
        show (if spl.answers.headD true = true then true else s.seeking_) = s.seeking_
        rw [ha]
        rfl
  · refine ⟨by decide, by decide, by decide, by decide, by decide, by decide, by decide,
      by decide, ?_, by decide⟩
    simp [update, update_video, update_audio, update_manage, execute_loop_command, rewind_default,
      Timeline.next, Timeline.previous, Timeline.getGapAt, eos_player, fill_video_frame,
      dispatched, seek, execute_seek_command, MediaPlayer.sent, demo_player, MediaPlayer.init,
      MediaPlayer.N_VFRAME, Frame.unmap,
      CLAMP, ABS_DIFF, gst_event_new_seek, gst_element_send_event, ABS, forward_event,
      GST_CLOCK_TIME_NONE]
    norm_num

/-- C18 on `eos_player` (EOS at 9000, position 3000, target `next(0) = 0`): the seek
command is not suppressed, the tick returns with the rate and the desired state
unchanged, and its last request is the forward seek event with start 0, which
the pipeline accepts. -/
theorem rewind_loop_on_eos_witness :
    ∃ q e, update eos_player {} = some q ∧ q.rate_ = eos_player.rate_
      ∧ q.desired_state_ = eos_player.desired_state_
      ∧ (∃ reqs, dispatched eos_player q = reqs ++ [Request.seek_event e])
      ∧ e.rate = eos_player.rate_ ∧ e.position = 0
      ∧ e.start_type = GstSeekType.SET ∧ e.start = 0
      ∧ q.seeking_ = true := by
  obtain ⟨s, hdec, -, -, -, -, -, ⟨q0, hq0, hr0, hd0⟩, -, hsend⟩ :=
    (@rewind_loop_on_eos ℚ _).1 eos_player {} (by decide) (by decide) (by decide)
      (by decide) (Or.inl (by decide))
  have h2 : update_decide (update_passes eos_player).1 (update_passes eos_player).2
      = some ((update_passes eos_player).1, true) := by decide
  rw [h2] at hdec
  simp only [Option.some.injEq, Prod.mk.injEq, and_true] at hdec
  subst hdec
  have hT : rewind_target eos_player = 0 := by decide
  obtain ⟨q, e, hq, -, hdisp, her, hep, hes, hacc, -⟩ :=
    hsend (by unfold seek_suppressed; decide) (by decide) (by decide)
  rw [hq] at hq0
  simp only [Option.some.injEq] at hq0
  subst hq0
  rw [hT] at hep
  have hep0 : e.position = 0 := by rw [hep]; decide
  have hst := hes (by decide)
  exact ⟨q, e, hq, hr0, hd0, hdisp, her, hep0, hst.1, hst.2.trans hep0, hacc (by decide)⟩

/-! ## C29: the states reachable by the calls of the player -/

theorem indices_in_rings_of_controller_only (nv na : Nat) (p q : MediaPlayer α)
    (hc : controller_only p q) (h : indices_in_rings nv na p) : indices_in_rings nv na q := by
  unfold controller_only at hc
  obtain ⟨-, -, -, -, -, -, -, -, c9, c10, c11, c12, c13, c14, -⟩ := hc
  unfold indices_in_rings MediaPlayer.N_VFRAME MediaPlayer.N_AFRAME at *
  rw [c9, c10, c11, c12, c13, c14]
  exact h

theorem indices_in_rings_open (nv na : Nat) (hv : 0 < nv) (ha : 0 < na) (p : MediaPlayer α)
    (uri_empty : Bool) (info : MediaInfo) (h : indices_in_rings nv na p) :
    indices_in_rings nv na (open_ p uri_empty info) := by
  have h1 : indices_in_rings nv na (if uri_empty = true then { p with failed_ := true } else p) := by
    split_ifs
    · exact h
    · exact h
  have h2 : ∀ r : MediaPlayer α, indices_in_rings nv na r →
      indices_in_rings nv na (if r.opened_ = true then close r else r) := by
    intro r hr
    split_ifs
    · exact indices_in_rings_close nv na hv ha r hr
    · exact hr
  exact h2 _ h1

theorem indices_in_rings_request_state (nv na : Nat) (p : MediaPlayer α) (s : GstState)
    (h : indices_in_rings nv na p) : indices_in_rings nv na (request_state p s) := by
  unfold request_state
  split
  · exact h
  · dsimp only
    split_ifs
    · exact h
    · exact h

theorem indices_in_rings_enable (nv na : Nat) (p q : MediaPlayer α) (on_ : Bool)
    (env : OpenEnv α) (h : indices_in_rings nv na p) (hq : enable p on_ env = some q) :
    indices_in_rings nv na q := by
  by_cases hn : p.opened_ = false ∨ p.pipeline_ = none ∨ p.enabled_ = on_
  · rw [enable_noop p on_ env hn] at hq
    simp only [Option.some.injEq] at hq
    rw [← hq]
    exact h
  · simp only [not_or] at hn
    obtain ⟨ho, hpl, hen⟩ := hn
    have ho : p.opened_ = true := by simpa using ho
    obtain ⟨pl, hpl⟩ := Option.ne_none_iff_exists'.mp hpl
    rw [enable_eq p on_ env pl ho hpl hen] at hq
    have key : ∀ p1 : MediaPlayer α, indices_in_rings nv na p1 →
        indices_in_rings nv na (request_state { p1 with enabled_ := on_ }
          (if on_ = true then p1.desired_state_ else GstState.PAUSED)) :=
      fun p1 h1 => indices_in_rings_request_state nv na _ _ h1
    by_cases hpol : (!on_ && p.rewind_on_disable_ && decide (p.desired_state_ = GstState.PLAYING))
        = true
    · rw [if_pos hpol] at hq
      cases hr : rewind p true env with
      | none => rw [hr] at hq; simp at hq
      | some p1 =>
        rw [hr] at hq
        simp only [Option.some.injEq] at hq
        rw [← hq]
        apply key
        rw [rewind_true] at hr
        by_cases hg : (!p.enabled_ || !p.media_.seekable) = true
        · rw [if_pos hg] at hr
          simp only [Option.some.injEq] at hr
          rw [← hr]
          exact h
        · rw [if_neg hg] at hr
          exact indices_in_rings_update nv na _ p1 env
            (indices_in_rings_of_controller_only nv na p _ (controller_only_rewind_default p) h)
            hr
    · rw [if_neg hpol] at hq
      simp only [Option.some.injEq] at hq
      rw [← hq]
      exact key p h

/-- C29: in every state reachable from the constructor by calls of `open`,
`fill_video_frame`, `fill_audio_frame`, `update` and `close` (and of the
controller), for rings of `N_VFRAME = nv > 0` and `N_AFRAME = na > 0` slots, the
rings keep their sizes, the four indices are inside their rings, and so are the
slots that the next `fill_video_frame` and `fill_audio_frame` will write (the
write index, moved past an unread EOS). -/
theorem ring_indices_in_range (nv na : Nat) (MIN MAX : α) (hv : 0 < nv) (ha : 0 < na)
    (p : MediaPlayer α) (h : reachable nv na MIN MAX p) :
    p.N_VFRAME = nv ∧ p.N_AFRAME = na
    ∧ p.vwrite_index_ < p.N_VFRAME ∧ p.vlast_index_ < p.N_VFRAME
    ∧ p.awrite_index_ < p.N_AFRAME ∧ p.alast_index_ < p.N_AFRAME
    ∧ vtarget p < p.N_VFRAME ∧ atarget p < p.N_AFRAME := by
  have hi : indices_in_rings nv na p := by
    induction h with
    | construct => exact indices_in_rings_init nv na hv ha
    | open_media p uri_empty info _ ih => exact indices_in_rings_open nv na hv ha p _ _ ih
    | fill_video p buf status _ ih => exact indices_in_rings_fill_video nv na p buf status ih
    | fill_audio p buf status _ ih => exact indices_in_rings_fill_audio nv na p buf status ih
    | tick p q env _ hq ih => exact indices_in_rings_update nv na p q env ih hq
    | close p _ ih => exact indices_in_rings_close nv na hv ha p ih
    | play p on_ _ ih =>
      exact indices_in_rings_of_controller_only nv na p _ (controller_only_play p on_) ih
    | seek p pos _ ih =>
      exact indices_in_rings_of_controller_only nv na p _ (controller_only_seek p pos) ih
    | set_speed p s _ ih =>
      exact indices_in_rings_of_controller_only nv na p _
        (controller_only_setPlaySpeed MIN MAX p s).1 ih
    | enable p q on_ env _ hq ih => exact indices_in_rings_enable nv na p q on_ env ih hq
  obtain ⟨h1, h2, h3, h4, h5, h6⟩ := hi
  have h3' : p.vwrite_index_ < p.N_VFRAME := by rw [h1]; exact h3
  have h5' : p.awrite_index_ < p.N_AFRAME := by rw [h2]; exact h5
  exact ⟨h1, h2, h3', by rw [h1]; exact h4, h5', by rw [h2]; exact h6,
    vtarget_lt p h3', atarget_lt p h5'⟩

/-- C29 on an open player, for rings of three slots: `opening_player` is opened by a tick
(`opened_player`), the producer writes an end-of-stream and a sample
(`filled_player`), a tick reads the sample (`ticked_player`), and `close` resets
the indices; the theorem applies to `ticked_player` and to `close ticked_player`. -/
theorem ring_indices_in_range_witness :
    opened_player.opened_ = true ∧ ticked_player.opened_ = true
    ∧ ticked_player.vlast_index_ = 1 ∧ ticked_player.vwrite_index_ = 2
    ∧ (vread filled_player).status = FrameStatus.SAMPLE
    ∧ (vread ticked_player).status = FrameStatus.INVALID
    ∧ (ticked_player.N_VFRAME = 3 ∧ ticked_player.N_AFRAME = 3
      ∧ ticked_player.vwrite_index_ < ticked_player.N_VFRAME
      ∧ ticked_player.vlast_index_ < ticked_player.N_VFRAME
      ∧ ticked_player.awrite_index_ < ticked_player.N_AFRAME
      ∧ ticked_player.alast_index_ < ticked_player.N_AFRAME
      ∧ vtarget ticked_player < ticked_player.N_VFRAME
      ∧ atarget ticked_player < ticked_player.N_AFRAME)
    ∧ (close ticked_player).vwrite_index_ < (close ticked_player).N_VFRAME :=
  have r1 : reachable 3 3 (1 / 10 : ℚ) 20 opening_player :=
    reachable.open_media _ false discovered_clip reachable.construct
  have r2 : reachable 3 3 (1 / 10 : ℚ) 20 opened_player :=
    reachable.tick opening_player opened_player {} r1 (by decide)
  have r3 : reachable 3 3 (1 / 10 : ℚ) 20 filled_player :=
    reachable.fill_video _ (some good_buffer) FrameStatus.SAMPLE
      (reachable.fill_video _ none FrameStatus.EOS r2)
  have r4 : reachable 3 3 (1 / 10 : ℚ) 20 ticked_player :=
    reachable.tick filled_player ticked_player {} r3 (by decide)
  ⟨by decide, by decide, by decide, by decide, by decide, by decide,
    ring_indices_in_range 3 3 (1 / 10) 20 (by decide) (by decide) _ r4,
    (ring_indices_in_range 3 3 (1 / 10) 20 (by decide) (by decide) _
      (reachable.close _ r4)).2.2.1⟩

end MediaEditor
